import Mathlib

/-!
# Kyma Environment Broker: operation storage, the instance-removal step and the label updater

A shallow embedding of

* `internal/storage/driver/memory/operation.go` (the in-memory operation store),
* the lookup by ID, the conversions of rows in both directions, the grouping by type,
  the inserts, the updates and the listing by type of
  `internal/storage/driver/postsql/operation.go` (the Postgres operation store),
* the conversion of rows and the listing of instances joined with their operations of
  `internal/storage/driver/postsql/instance.go` (the Postgres instance store),
* `internal/process/deprovisioning/remove_instance_step.go`,
* `internal/kymacustomresource/kyma_cr_updater.go`,

followed by the properties proved about them.

Conventions.  A Go method with receiver `s *operations` that mutates the store is a
function returning its Go result together with the store after the call.  A Go
`(T, error)` result is an `Except Err T`; where the Go code can return a value together
with an error, or a nil value with a nil error, the result is a pair of options.  A Go
`int` (the counter `Version`, the indices and sizes of a listing) has 64 bits: a sum of
`int` values is taken with the wrap-around of the machine (`wrapInt`).  `time.Time` is an
instant counted in nanoseconds and `time.Duration` is a number of nanoseconds.  The sessions of the
database, the cipher, the JSON codec and the helpers of other packages are parameters.
-/

set_option autoImplicit false
set_option linter.dupNamespace false

/-! ## Errors (`internal/storage/dberr`, `fmt.Errorf`) -/

/-- Go `error` values met in the embedded code: the four `dberr` codes, an error made
by `fmt.Errorf` without `%w`, and an error made by `fmt.Errorf` with `%w`.  `Panic` is
not an error value: it stands for a call that ends in a Go panic and returns nothing. -/
inductive Err where
  | NotFound (msg : String)
  | AlreadyExists (msg : String)
  | Conflict (msg : String)
  | Internal (msg : String)
  | Plain (msg : String)
  | Wrapped (msg : String) (cause : Err)
  | Panic (msg : String)
  deriving DecidableEq, Repr

deriving instance DecidableEq for Except

namespace Err

/-- The error itself carries the `dberr` code NotFound. -/
def IsNotFound : Err → Bool
  | NotFound _ => true
  | _ => false

/-- The error itself carries the `dberr` code AlreadyExists. -/
def IsAlreadyExists : Err → Bool
  | AlreadyExists _ => true
  | _ => false

/-- The error itself carries the `dberr` code Conflict. -/
def IsConflict : Err → Bool
  | Conflict _ => true
  | _ => false

/-- Some error of the `%w` chain carries the `dberr` code NotFound. -/
def chainHasNotFound : Err → Bool
  | NotFound _ => true
  | Wrapped _ cause => chainHasNotFound cause
  | _ => false

end Err

/-! ## Data model (`internal`) -/

/-- Instants of `time.Time`, in nanoseconds. -/
abbrev Time := Int

/-- Values of `time.Duration`, in nanoseconds. -/
abbrev Duration := Int

/-- The constant `time.Second`. -/
def Second : Duration := 1000000000

/-- The constant `math.MaxInt`: a Go `int` has 64 bits on the platforms the broker is
built for. -/
def MaxInt : Int := 9223372036854775807

/-- The constant `math.MinInt`. -/
def MinInt : Int := -9223372036854775808

/-- The value of a Go `int` expression whose mathematical value is `n`: arithmetic on
`int` wraps around (two's complement on 64 bits). -/
def wrapInt (n : Int) : Int :=
  (n + 9223372036854775808) % 18446744073709551616 - 9223372036854775808

/-- The string type `internal.OperationType`. -/
abbrev OperationType := String

def OperationTypeProvision : OperationType := "provision"
def OperationTypeDeprovision : OperationType := "deprovision"
def OperationTypeUpgradeKyma : OperationType := "upgradeKyma"
def OperationTypeUpgradeCluster : OperationType := "upgradeCluster"
def OperationTypeUpdate : OperationType := "update"

/-- The string type `domain.LastOperationState`. -/
abbrev LastOperationState := String

def OperationStatePending : LastOperationState := "pending"

/-- The part of `internal.ERSContext` the embedded code reads or writes. -/
structure ERSContext where
  UserID : String := ""
  deriving DecidableEq, Repr

/-- The part of `internal.ProvisioningParameters` the embedded code reads or writes. -/
structure ProvisioningParameters where
  PlanID : String := ""
  ErsContext : ERSContext := {}
  deriving DecidableEq, Repr

/-- The struct `internal.Operation`, with the fields the embedded code reads or writes.
`ExcutedButNotCompleted` is a Go slice: `none` is the nil slice. -/
structure Operation where
  ID : String := ""
  Version : Int := 0
  CreatedAt : Time := 0
  UpdatedAt : Time := 0
  Type_ : OperationType := ""
  InstanceID : String := ""
  ProvisionerOperationID : String := ""
  State : LastOperationState := ""
  Description : String := ""
  ProvisioningParameters : ProvisioningParameters := {}
  FinishedStages : List String := []
  RuntimeID : String := ""
  Temporary : Bool := false
  ExcutedButNotCompleted : Option (List String) := none
  deriving DecidableEq, Repr

/-- The struct `internal.ProvisioningOperation`: it embeds `Operation`. -/
structure ProvisioningOperation where
  Operation : Operation := {}
  deriving DecidableEq, Repr

/-- The struct `internal.DeprovisioningOperation`: it embeds `Operation`. -/
structure DeprovisioningOperation where
  Operation : Operation := {}
  deriving DecidableEq, Repr

/-- The struct `internal.UpgradeClusterOperation`: it embeds `Operation`. -/
structure UpgradeClusterOperation where
  Operation : Operation := {}
  deriving DecidableEq, Repr

/-- The struct `internal.UpdatingOperation`: it embeds `Operation`. -/
structure UpdatingOperation where
  Operation : Operation := {}
  deriving DecidableEq, Repr

/-- The struct `internal.GroupedOperations`. -/
structure GroupedOperations where
  ProvisionOperations : List ProvisioningOperation := []
  DeprovisionOperations : List DeprovisioningOperation := []
  UpgradeClusterOperations : List UpgradeClusterOperation := []
  UpdateOperations : List UpdatingOperation := []
  deriving DecidableEq, Repr

/-! ## Go maps and `sort.Slice` -/

/-- A Go `map[string]V`, kept as the list of its entries.  The order of the list is the
order in which a `range` loop visits the map; a statement proved for every list holds
for every iteration order. -/
structure GoMap (V : Type) where
  entries : List (String × V) := []
  deriving DecidableEq, Repr

namespace GoMap

variable {V : Type}

/-- Lookup in a list of entries. -/
def lookupEntries : List (String × V) → String → Option V
  | [], _ => none
  | (k, v) :: rest, key => if k = key then some v else lookupEntries rest key

/-- Assignment in a list of entries: the entry of the key is replaced, or a new entry is
added. -/
def assignEntries : List (String × V) → String → V → List (String × V)
  | [], key, val => [(key, val)]
  | (k, v) :: rest, key, val =>
    if k = key then (key, val) :: rest else (k, v) :: assignEntries rest key val

/-- The Go expression `v, exists := m[key]`: `none` when `exists` is false. -/
def get? (m : GoMap V) (key : String) : Option V := lookupEntries m.entries key

/-- The Go statement `m[key] = val`. -/
def set (m : GoMap V) (key : String) (val : V) : GoMap V :=
  { entries := assignEntries m.entries key val }

/-- The values visited by `for _, v := range m`, in visiting order. -/
def values (m : GoMap V) : List V := m.entries.map Prod.snd

end GoMap

/-- One pass of the insertion loop of `sort.Slice`: `x` is placed in front of the first
element it is less than. -/
def insertByLess {α : Type} (less : α → α → Bool) (x : α) : List α → List α
  | [] => [x]
  | y :: rest => if less x y then x :: y :: rest else y :: insertByLess less x rest

/-- The library call `sort.Slice(xs, less)`, as an insertion sort.  `sort.Slice` is not
stable; the order of elements that `less` does not separate depends on the order of the
input, which for the store is the arbitrary iteration order of a map. -/
def sortSlice {α : Type} (less : α → α → Bool) (xs : List α) : List α :=
  xs.foldl (fun acc x => insertByLess less x acc) []

/-- The method `t.After(u)` of `time.Time`. -/
def Time.After (t u : Time) : Bool := decide (u < t)

/-- The method `t.Before(u)` of `time.Time`. -/
def Time.Before (t u : Time) : Bool := decide (t < u)

/-! ## The in-memory operation store (`internal/storage/driver/memory/operation.go`) -/

namespace memory

/-- The struct `operations`: one map per table. -/
structure operations where
  operations : GoMap Operation := {}
  upgradeClusterOperations : GoMap UpgradeClusterOperation := {}
  updateOperations : GoMap UpdatingOperation := {}
  deriving DecidableEq, Repr

/-- The constructor `NewOperation`. -/
def NewOperation : memory.operations := {}

def operations.InsertProvisioningOperation (s : memory.operations) (operation : ProvisioningOperation) :
    Option Err × memory.operations :=
  let id := operation.Operation.ID
  match s.operations.get? id with
  | some _ => (some (Err.AlreadyExists ("instance operation with id " ++ id ++ " already exist")), s)
  | none => (none, { s with operations := s.operations.set id operation.Operation })

def operations.InsertOperation (s : memory.operations) (operation : Operation) : Option Err × memory.operations :=
  let id := operation.ID
  match s.operations.get? id with
  | some _ => (some (Err.AlreadyExists ("instance operation with id " ++ id ++ " already exist")), s)
  | none => (none, { s with operations := s.operations.set id operation })

def operations.GetProvisioningOperationByID (s : memory.operations) (operationID : String) :
    Except Err ProvisioningOperation :=
  match s.operations.get? operationID with
  | none => .error (Err.NotFound
      ("instance provisioning operation with id " ++ operationID ++ " not found"))
  | some op => .ok { Operation := op }

def operations.UpdateProvisioningOperation (s : memory.operations) (op : ProvisioningOperation) :
    Except Err ProvisioningOperation × memory.operations :=
  match s.operations.get? op.Operation.ID with
  | none => (.error (Err.NotFound
      ("instance operation with id " ++ op.Operation.ID ++ " not found")), s)
  | some oldOp =>
    if oldOp.Version ≠ op.Operation.Version then
      (.error (Err.Conflict ("unable to update provisioning operation with id "
        ++ op.Operation.ID ++ " (for instance id " ++ op.Operation.InstanceID
        ++ ") - conflict")), s)
    else
      let op : ProvisioningOperation :=
        { op with
          Operation := { op.Operation with Version := wrapInt (op.Operation.Version + 1) } }
      (.ok op, { s with operations := s.operations.set op.Operation.ID op.Operation })

def operations.UpdateOperation (s : memory.operations) (op : Operation) : Except Err Operation × memory.operations :=
  match s.operations.get? op.ID with
  | none => (.error (Err.NotFound ("instance operation with id " ++ op.ID ++ " not found")), s)
  | some oldOp =>
    if oldOp.Version ≠ op.Version then
      (.error (Err.Conflict ("unable to update operation with id " ++ op.ID
        ++ " (for instance id " ++ op.InstanceID ++ ") - conflict")), s)
    else
      let op : Operation := { op with Version := wrapInt (op.Version + 1) }
      (.ok op, { s with operations := s.operations.set op.ID op })

def operations.InsertDeprovisioningOperation (s : memory.operations) (operation : DeprovisioningOperation) :
    Option Err × memory.operations :=
  let id := operation.Operation.ID
  match s.operations.get? id with
  | some _ => (some (Err.AlreadyExists ("instance operation with id " ++ id ++ " already exist")), s)
  | none => (none, { s with operations := s.operations.set id operation.Operation })

def operations.GetDeprovisioningOperationByID (s : memory.operations) (operationID : String) :
    Except Err DeprovisioningOperation :=
  match s.operations.get? operationID with
  | none => .error (Err.NotFound
      ("instance deprovisioning operation with id " ++ operationID ++ " not found"))
  | some op => .ok { Operation := op }

def operations.UpdateDeprovisioningOperation (s : memory.operations) (op : DeprovisioningOperation) :
    Except Err DeprovisioningOperation × memory.operations :=
  match s.operations.get? op.Operation.ID with
  | none => (.error (Err.NotFound
      ("instance operation with id " ++ op.Operation.ID ++ " not found")), s)
  | some oldOp =>
    if oldOp.Version ≠ op.Operation.Version then
      (.error (Err.Conflict ("unable to update deprovisioning operation with id "
        ++ op.Operation.ID ++ " (for instance id " ++ op.Operation.InstanceID
        ++ ") - conflict")), s)
    else
      let op : DeprovisioningOperation :=
        { op with
          Operation := { op.Operation with Version := wrapInt (op.Operation.Version + 1) } }
      (.ok op, { s with operations := s.operations.set op.Operation.ID op.Operation })

def operations.InsertUpgradeClusterOperation (s : memory.operations) (operation : UpgradeClusterOperation) :
    Option Err × memory.operations :=
  let id := operation.Operation.ID
  match s.upgradeClusterOperations.get? id with
  | some _ => (some (Err.AlreadyExists ("instance operation with id " ++ id ++ " already exist")), s)
  | none => (none, { s with upgradeClusterOperations := s.upgradeClusterOperations.set id operation })

def operations.GetUpgradeClusterOperationByID (s : memory.operations) (operationID : String) :
    Except Err UpgradeClusterOperation :=
  match s.upgradeClusterOperations.get? operationID with
  | none => .error (Err.NotFound
      ("instance upgradeCluster operation with id " ++ operationID ++ " not found"))
  | some op => .ok op

def operations.UpdateUpgradeClusterOperation (s : memory.operations) (op : UpgradeClusterOperation) :
    Except Err UpgradeClusterOperation × memory.operations :=
  match s.upgradeClusterOperations.get? op.Operation.ID with
  | none => (.error (Err.NotFound
      ("instance operation with id " ++ op.Operation.ID ++ " not found")), s)
  | some oldOp =>
    if oldOp.Operation.Version ≠ op.Operation.Version then
      (.error (Err.Conflict ("unable to update upgradeKyma operation with id "
        ++ op.Operation.ID ++ " (for instance id " ++ op.Operation.InstanceID
        ++ ") - conflict")), s)
    else
      let op : UpgradeClusterOperation :=
        { op with
          Operation := { op.Operation with Version := wrapInt (op.Operation.Version + 1) } }
      (.ok op, { s with
        upgradeClusterOperations := s.upgradeClusterOperations.set op.Operation.ID op })

def operations.InsertUpdatingOperation (s : memory.operations) (operation : UpdatingOperation) :
    Option Err × memory.operations :=
  let id := operation.Operation.ID
  match s.updateOperations.get? id with
  | some _ => (some (Err.AlreadyExists ("instance operation with id " ++ id ++ " already exist")), s)
  | none => (none, { s with updateOperations := s.updateOperations.set id operation })

/-- The loop of `GetUpdatingOperationByID`: the first visited entry with the ID. -/
def operations.GetUpdatingOperationByID (s : memory.operations) (operationID : String) :
    Except Err UpdatingOperation :=
  match s.updateOperations.values.find? (fun op => decide (op.Operation.ID = operationID)) with
  | some op => .ok op
  | none => .error (Err.NotFound
      ("instance update operation with ID " ++ operationID ++ " not found"))

def operations.UpdateUpdatingOperation (s : memory.operations) (op : UpdatingOperation) :
    Except Err UpdatingOperation × memory.operations :=
  match s.updateOperations.get? op.Operation.ID with
  | none => (.error (Err.NotFound
      ("instance operation with id " ++ op.Operation.ID ++ " not found")), s)
  | some oldOp =>
    if oldOp.Operation.Version ≠ op.Operation.Version then
      (.error (Err.Conflict ("unable to update updating operation with id "
        ++ op.Operation.ID ++ " (for instance id " ++ op.Operation.InstanceID
        ++ ") - conflict")), s)
    else
      let op : UpdatingOperation :=
        { op with
          Operation := { op.Operation with Version := wrapInt (op.Operation.Version + 1) } }
      (.ok op, { s with updateOperations := s.updateOperations.set op.Operation.ID op })


/-- The comparison of `sortProvisioningByCreatedAtDesc`. -/
def operations.sortProvisioningByCreatedAtDesc (ops : List ProvisioningOperation) :
    List ProvisioningOperation :=
  sortSlice (fun a b => Time.After a.Operation.CreatedAt b.Operation.CreatedAt) ops

def operations.sortDeprovisioningByCreatedAtDesc (ops : List DeprovisioningOperation) :
    List DeprovisioningOperation :=
  sortSlice (fun a b => Time.After a.Operation.CreatedAt b.Operation.CreatedAt) ops

def operations.sortUpgradeClusterByCreatedAt (ops : List UpgradeClusterOperation) :
    List UpgradeClusterOperation :=
  sortSlice (fun a b => Time.Before a.Operation.CreatedAt b.Operation.CreatedAt) ops

def operations.sortUpdateByCreatedAt (ops : List UpdatingOperation) :
    List UpdatingOperation :=
  sortSlice (fun a b => Time.Before a.Operation.CreatedAt b.Operation.CreatedAt) ops

/-- The Go expression `&result[0]`; indexing an empty slice panics. -/
def firstOf {α : Type} (result : List α) : Except Err α :=
  match result with
  | first :: _ => .ok first
  | [] => .error (Err.Panic "index out of range [0] with length 0")

def operations.GetProvisioningOperationByInstanceID (s : memory.operations)
    (instanceID : String) : Except Err ProvisioningOperation :=
  let result : List ProvisioningOperation :=
    s.operations.values.filterMap (fun op =>
      if op.InstanceID = instanceID ∧ op.Type_ = OperationTypeProvision
      then some { Operation := op } else none)
  if result.length ≠ 0 then
    firstOf (operations.sortProvisioningByCreatedAtDesc result)
  else
    .error (Err.NotFound
      ("instance provisioning operation with instanceID " ++ instanceID ++ " not found"))

def operations.GetDeprovisioningOperationByInstanceID (s : memory.operations)
    (instanceID : String) : Except Err DeprovisioningOperation :=
  let result : List DeprovisioningOperation :=
    s.operations.values.filterMap (fun op =>
      if op.InstanceID = instanceID ∧ op.Type_ = OperationTypeDeprovision
      then some { Operation := op } else none)
  if result.length ≠ 0 then
    firstOf (operations.sortDeprovisioningByCreatedAtDesc result)
  else
    .error (Err.NotFound
      ("instance deprovisioning operation with instanceID " ++ instanceID ++ " not found"))

/-- The `range` loop of `ListOperationsByInstanceIDGroupByType` with its `switch`. -/
def operations.groupByType : List Operation → GroupedOperations → Except Err GroupedOperations
  | [], grouped => .ok grouped
  | op :: rest, grouped =>
    if op.Type_ = OperationTypeProvision then
      operations.groupByType rest { grouped with
        ProvisionOperations := grouped.ProvisionOperations ++ [{ Operation := op }] }
    else if op.Type_ = OperationTypeDeprovision then
      operations.groupByType rest { grouped with
        DeprovisionOperations := grouped.DeprovisionOperations ++ [{ Operation := op }] }
    else if op.Type_ = OperationTypeUpgradeCluster then
      operations.groupByType rest { grouped with
        UpgradeClusterOperations := grouped.UpgradeClusterOperations ++ [{ Operation := op }] }
    else if op.Type_ = OperationTypeUpdate then
      operations.groupByType rest { grouped with
        UpdateOperations := grouped.UpdateOperations ++ [{ Operation := op }] }
    else
      .error (Err.Panic "Invalid type of operation")

set_option linter.unusedVariables false in
def operations.ListOperationsByInstanceIDGroupByType (s : memory.operations)
    (instanceID : String) : Except Err GroupedOperations :=
  match operations.groupByType s.operations.values {} with
  | .error e => .error e
  | .ok grouped =>
    .ok { ProvisionOperations :=
            operations.sortProvisioningByCreatedAtDesc grouped.ProvisionOperations
          DeprovisionOperations :=
            operations.sortDeprovisioningByCreatedAtDesc grouped.DeprovisionOperations
          UpgradeClusterOperations :=
            operations.sortUpgradeClusterByCreatedAt grouped.UpgradeClusterOperations
          UpdateOperations := operations.sortUpdateByCreatedAt grouped.UpdateOperations }

/-- The body of the three `range` loops of `GetLastOperationByTypes` for one visited
operation: with a non-empty `types` the operation is appended once for every entry of
`types` equal to its type. -/
def operations.appendByTypes (instanceID : String) (types : List OperationType)
    (rows : List Operation) (op : Operation) : List Operation :=
  if op.InstanceID = instanceID ∧ op.State ≠ OperationStatePending then
    if types.length > 0 then
      types.foldl (fun rows t => if op.Type_ = t then rows ++ [op] else rows) rows
    else
      rows ++ [op]
  else
    rows

def operations.GetLastOperationByTypes (s : memory.operations) (instanceID : String)
    (types : List OperationType) : Except Err Operation :=
  let rows : List Operation := []
  let rows := s.operations.values.foldl (operations.appendByTypes instanceID types) rows
  let rows := (s.upgradeClusterOperations.values.map (fun op => op.Operation)).foldl
    (operations.appendByTypes instanceID types) rows
  let rows := (s.updateOperations.values.map (fun op => op.Operation)).foldl
    (operations.appendByTypes instanceID types) rows
  if rows.length = 0 then
    .error (Err.NotFound ("Operation with instance_id " ++ instanceID ++ " not exist"))
  else
    firstOf (sortSlice (fun a b => Time.After a.CreatedAt b.CreatedAt) rows)

/-- The body of the three `range` loops of `GetLastOperation` for one visited operation. -/
def operations.appendNotPending (instanceID : String) (rows : List Operation)
    (op : Operation) : List Operation :=
  if op.InstanceID = instanceID ∧ op.State ≠ OperationStatePending then rows ++ [op] else rows

def operations.GetLastOperation (s : memory.operations) (instanceID : String) :
    Except Err Operation :=
  let rows : List Operation := []
  let rows := s.operations.values.foldl (operations.appendNotPending instanceID) rows
  let rows := (s.upgradeClusterOperations.values.map (fun op => op.Operation)).foldl
    (operations.appendNotPending instanceID) rows
  let rows := (s.updateOperations.values.map (fun op => op.Operation)).foldl
    (operations.appendNotPending instanceID) rows
  if rows.length = 0 then
    .error (Err.NotFound ("Operation with instance_id " ++ instanceID ++ " not exist"))
  else
    firstOf (sortSlice (fun a b => Time.After a.CreatedAt b.CreatedAt) rows)

def operations.GetOperationByID (s : memory.operations) (operationID : String) :
    Except Err Operation :=
  let res : Option Operation := none
  let res := match s.operations.get? operationID with
    | some provisionOp => some provisionOp
    | none => res
  let res := match s.upgradeClusterOperations.get? operationID with
    | some upgradeClusterOp => some upgradeClusterOp.Operation
    | none => res
  let res := match s.updateOperations.get? operationID with
    | some updateOp => some updateOp.Operation
    | none => res
  let res := match s.operations.get? operationID with
    | some op => some op
    | none => res
  match res with
  | none => .error (Err.NotFound ("Operation with id " ++ operationID ++ " not exist"))
  | some res => .ok res

/-- Every operation the store holds, over its three tables. -/
def operations.allOperations (s : memory.operations) : List Operation :=
  s.operations.values ++ s.upgradeClusterOperations.values.map (fun op => op.Operation)
    ++ s.updateOperations.values.map (fun op => op.Operation)

/-- What `GetLastOperationByTypes` asks of an operation: it belongs to the instance, it is
not pending, and its type is in `types` when `types` is not empty. -/
def operations.qualifies (instanceID : String) (types : List OperationType)
    (op : Operation) : Prop :=
  op.InstanceID = instanceID ∧ op.State ≠ OperationStatePending ∧
    (types = [] ∨ op.Type_ ∈ types)

instance (instanceID : String) (types : List OperationType) (op : Operation) :
    Decidable (operations.qualifies instanceID types op) := by
  unfold operations.qualifies
  exact inferInstance

/-- The inserts and updates of the store, as calls that a client makes one after the
other. -/
inductive Call where
  | InsertOperation (op : Operation)
  | InsertProvisioningOperation (op : ProvisioningOperation)
  | InsertDeprovisioningOperation (op : DeprovisioningOperation)
  | InsertUpgradeClusterOperation (op : UpgradeClusterOperation)
  | InsertUpdatingOperation (op : UpdatingOperation)
  | UpdateOperation (op : Operation)
  | UpdateProvisioningOperation (op : ProvisioningOperation)
  | UpdateDeprovisioningOperation (op : DeprovisioningOperation)
  | UpdateUpgradeClusterOperation (op : UpgradeClusterOperation)
  | UpdateUpdatingOperation (op : UpdatingOperation)
  deriving DecidableEq, Repr

/-- The store after one call. -/
def operations.call (s : memory.operations) : Call → memory.operations
  | Call.InsertOperation op => (s.InsertOperation op).2
  | Call.InsertProvisioningOperation op => (s.InsertProvisioningOperation op).2
  | Call.InsertDeprovisioningOperation op => (s.InsertDeprovisioningOperation op).2
  | Call.InsertUpgradeClusterOperation op => (s.InsertUpgradeClusterOperation op).2
  | Call.InsertUpdatingOperation op => (s.InsertUpdatingOperation op).2
  | Call.UpdateOperation op => (s.UpdateOperation op).2
  | Call.UpdateProvisioningOperation op => (s.UpdateProvisioningOperation op).2
  | Call.UpdateDeprovisioningOperation op => (s.UpdateDeprovisioningOperation op).2
  | Call.UpdateUpgradeClusterOperation op => (s.UpdateUpgradeClusterOperation op).2
  | Call.UpdateUpdatingOperation op => (s.UpdateUpdatingOperation op).2

/-- The store after a sequence of calls. -/
def operations.calls (s : memory.operations) (cs : List Call) : memory.operations :=
  cs.foldl operations.call s

end memory

/-! ## The Postgres operation store (`internal/storage/driver/postsql/operation.go`) -/

namespace postsql

/-- The struct `sql.NullString`. -/
structure NullString where
  String : String := ""
  Valid : Bool := false
  deriving DecidableEq, Repr

/-- The struct `dbmodel.OperationDTO`, with the fields the embedded code reads or writes. -/
structure OperationDTO where
  ID : String := ""
  Version : Int := 0
  CreatedAt : Time := 0
  UpdatedAt : Time := 0
  InstanceID : String := ""
  TargetOperationID : String := ""
  State : String := ""
  Description : String := ""
  Type_ : OperationType := ""
  Data : String := ""
  ProvisioningParameters : NullString := {}
  FinishedStages : NullString := {}
  deriving DecidableEq, Repr

/-- What the store calls outside the embedded files: the `Cipher` of the store (each
method gives its error and the parameters it leaves behind), `json.Unmarshal` on the
two kinds of payload, and the helper `storage.SQLNullStringToString`. -/
structure Collaborators where
  DecryptSMCreds : ProvisioningParameters → Option Err × ProvisioningParameters
  DecryptKubeconfig : ProvisioningParameters → Option Err × ProvisioningParameters
  unmarshalParameters : String → Except Err ProvisioningParameters
  unmarshalOperation : String → Except Err Operation
  SQLNullStringToString : NullString → String

/-- The read session of the database (`postsql.ReadSession`), with the methods the
embedded code calls.  The state `β` lets the answers change from one attempt to the
next. -/
structure ReadSession (β : Type) where
  GetOperationByID : β → String → (OperationDTO × Option Err) × β
  GetOperationsByInstanceID : β → String → (List OperationDTO × Option Err) × β

/-- The library call `wait.PollUntilContextTimeout(ctx, interval, timeout, true, condition)`:
the condition is tried at once and then once per interval; `retries` is the number of
further tries that fit before the timeout, after which the context error is returned. -/
def PollUntilContextTimeout {σ : Type} (condition : σ → (Bool × Option Err) × σ) :
    Nat → σ → Option Err × σ
  | 0, st =>
    match condition st with
    | ((_, some err), st) => (some err, st)
    | ((true, none), st) => (none, st)
    | ((false, none), st) => (some (Err.Plain "context deadline exceeded"), st)
  | retries + 1, st =>
    match condition st with
    | ((_, some err), st) => (some err, st)
    | ((true, none), st) => (none, st)
    | ((false, none), st) => PollUntilContextTimeout condition retries st

/-- The library call `strings.Split(s, sep)` for a separator of one character, on the
characters of `s`. -/
def splitChars (sep : Char) : List Char → List (List Char)
  | [] => [[]]
  | c :: cs =>
    if c = sep then [] :: splitChars sep cs
    else
      match splitChars sep cs with
      | [] => [[c]]
      | w :: ws => (c :: w) :: ws

/-- The library call `strings.Split(s, ",")`. -/
def stringsSplitComma (s : String) : List String :=
  (splitChars ',' s.data).map String.mk

def toOperation (c : Collaborators) (dto : OperationDTO) (existingOp : Operation) :
    Except Err Operation :=
  let provisioningParameters : Except Err ProvisioningParameters :=
    if dto.ProvisioningParameters.Valid then
      match c.unmarshalParameters dto.ProvisioningParameters.String with
      | .error err => .error (Err.Wrapped "while unmarshal provisioning parameters" err)
      | .ok pp => .ok pp
    else .ok {}
  match provisioningParameters with
  | .error err => .error err
  | .ok provisioningParameters =>
    match c.DecryptSMCreds provisioningParameters with
    | (some err, _) => .error (Err.Wrapped "while decrypting basic auth" err)
    | (none, provisioningParameters) =>
      let provisioningParameters := (c.DecryptKubeconfig provisioningParameters).2
      let finishedSteps := c.SQLNullStringToString dto.FinishedStages
      let stages := (stringsSplitComma finishedSteps).filter (fun s => decide (s ≠ ""))
      .ok { existingOp with
        ID := dto.ID
        CreatedAt := dto.CreatedAt
        UpdatedAt := dto.UpdatedAt
        Type_ := dto.Type_
        ProvisionerOperationID := dto.TargetOperationID
        State := dto.State
        InstanceID := dto.InstanceID
        Description := dto.Description
        Version := dto.Version
        ProvisioningParameters := provisioningParameters
        FinishedStages := stages }

def toProvisioningOperation (c : Collaborators) (op : OperationDTO) :
    Except Err ProvisioningOperation :=
  if op.Type_ ≠ OperationTypeProvision then
    .error (Err.Plain ("expected operation type Provisioning, but was " ++ op.Type_))
  else
    match c.unmarshalOperation op.Data with
    | .error err => .error (Err.Wrapped "unable to unmarshall provisioning data" err)
    | .ok operation =>
      match toOperation c op operation with
      | .error err => .error err
      | .ok operation => .ok { Operation := operation }

def toDeprovisioningOperation (c : Collaborators) (op : OperationDTO) :
    Except Err DeprovisioningOperation :=
  if op.Type_ ≠ OperationTypeDeprovision then
    .error (Err.Plain ("expected operation type Deprovision, but was " ++ op.Type_))
  else
    match c.unmarshalOperation op.Data with
    | .error err => .error (Err.Wrapped "unable to unmarshall provisioning data" err)
    | .ok operation =>
      match toOperation c op operation with
      | .error err => .error err
      | .ok operation => .ok { Operation := operation }

def toUpgradeClusterOperation (c : Collaborators) (op : OperationDTO) :
    Except Err UpgradeClusterOperation :=
  if op.Type_ ≠ OperationTypeUpgradeCluster then
    .error (Err.Plain ("expected operation type upgradeCluster, but was " ++ op.Type_))
  else
    match c.unmarshalOperation op.Data with
    | .error err => .error (Err.Wrapped "unable to unmarshall upgrade cluster data" err)
    | .ok operation =>
      match toOperation c op operation with
      | .error err => .error err
      | .ok operation => .ok { Operation := operation }

def toUpdateOperation (c : Collaborators) (op : OperationDTO) :
    Except Err UpdatingOperation :=
  if op.Type_ ≠ OperationTypeUpdate then
    .error (Err.Plain ("expected operation type update, but was " ++ op.Type_))
  else
    match c.unmarshalOperation op.Data with
    | .error _ => .error (Err.Plain "unable to unmarshall provisioning data")
    | .ok operation =>
      match toOperation c op operation with
      | .error err => .error err
      | .ok operation => .ok { Operation := operation }

/-- The variables that the closure passed to the poll loop of `getByID` writes, with
the state of the database. -/
structure GetByIDState (β : Type) where
  operation : OperationDTO := {}
  lastErr : Option Err := none
  db : β

def getByID {β : Type} (session : ReadSession β) (retries : Nat) (db : β) (id : String) :
    Except Err OperationDTO × β :=
  let condition : GetByIDState β → (Bool × Option Err) × GetByIDState β := fun st =>
    match session.GetOperationByID st.db id with
    | ((operation, lastErr), db) =>
      match lastErr with
      | some e =>
        if e.IsNotFound then
          let lastErr := Err.NotFound ("Operation with id " ++ id ++ " not exist")
          ((false, some lastErr), { operation := operation, lastErr := some lastErr, db := db })
        else
          ((false, none), { operation := operation, lastErr := some e, db := db })
      | none => ((true, none), { operation := operation, lastErr := none, db := db })
  match PollUntilContextTimeout condition retries { db := db } with
  | (some err, st) => (.error err, st.db)
  | (none, st) => (.ok st.operation, st.db)

def GetProvisioningOperationByID {β : Type} (c : Collaborators) (session : ReadSession β)
    (retries : Nat) (db : β) (operationID : String) : Except Err ProvisioningOperation × β :=
  match getByID session retries db operationID with
  | (.error err, db) => (.error (Err.Wrapped "while getting operation by ID" err), db)
  | (.ok operation, db) =>
    match toProvisioningOperation c operation with
    | .error err => (.error (Err.Wrapped "while converting DTO to Operation" err), db)
    | .ok ret => (.ok ret, db)

def GetDeprovisioningOperationByID {β : Type} (c : Collaborators) (session : ReadSession β)
    (retries : Nat) (db : β) (operationID : String) : Except Err DeprovisioningOperation × β :=
  match getByID session retries db operationID with
  | (.error err, db) => (.error (Err.Wrapped "while getting operation by ID" err), db)
  | (.ok operation, db) =>
    match toDeprovisioningOperation c operation with
    | .error err => (.error (Err.Wrapped "while converting DTO to Operation" err), db)
    | .ok ret => (.ok ret, db)

def GetUpdatingOperationByID {β : Type} (c : Collaborators) (session : ReadSession β)
    (retries : Nat) (db : β) (operationID : String) : Except Err UpdatingOperation × β :=
  match getByID session retries db operationID with
  | (.error err, db) => (.error (Err.Wrapped "while getting operation by ID" err), db)
  | (.ok operation, db) =>
    match toUpdateOperation c operation with
    | .error err => (.error (Err.Wrapped "while converting DTO to Operation" err), db)
    | .ok ret => (.ok ret, db)

def GetUpgradeClusterOperationByID {β : Type} (c : Collaborators) (session : ReadSession β)
    (retries : Nat) (db : β) (operationID : String) :
    Except Err UpgradeClusterOperation × β :=
  match getByID session retries db operationID with
  | (.error err, db) => (.error (Err.Wrapped "while getting operation by ID" err), db)
  | (.ok operation, db) =>
    match toUpgradeClusterOperation c operation with
    | .error err => (.error (Err.Wrapped "while converting DTO to Operation" err), db)
    | .ok ret => (.ok ret, db)

/-- The variables that the closure passed to the poll loop of
`listOperationsByInstanceId` writes, with the state of the database. -/
structure ListState (β : Type) where
  operations : List OperationDTO := []
  lastErr : Option Err := none
  db : β

def listOperationsByInstanceId {β : Type} (session : ReadSession β) (retries : Nat) (db : β)
    (instanceId : String) : (List OperationDTO × Option Err) × β :=
  let condition : ListState β → (Bool × Option Err) × ListState β := fun st =>
    match session.GetOperationsByInstanceID st.db instanceId with
    | ((operations, lastErr), db) =>
      match lastErr with
      | some e => ((false, none), { operations := operations, lastErr := some e, db := db })
      | none => ((true, none), { operations := operations, lastErr := none, db := db })
  match PollUntilContextTimeout condition retries { db := db } with
  | (some _, st) => (([], st.lastErr), st.db)
  | (none, st) => ((st.operations, st.lastErr), st.db)

/-- The `range` loop of `ListOperationsByInstanceIDGroupByType` with its `switch`. -/
def groupByType (c : Collaborators) : List OperationDTO → GroupedOperations →
    Except Err GroupedOperations
  | [], grouped => .ok grouped
  | op :: rest, grouped =>
    if op.Type_ = OperationTypeProvision then
      match toProvisioningOperation c op with
      | .error err => .error (Err.Wrapped "while converting DTO to Operation" err)
      | .ok ret => groupByType c rest { grouped with
          ProvisionOperations := grouped.ProvisionOperations ++ [ret] }
    else if op.Type_ = OperationTypeDeprovision then
      match toDeprovisioningOperation c op with
      | .error err => .error (Err.Wrapped "while converting DTO to Operation" err)
      | .ok ret => groupByType c rest { grouped with
          DeprovisionOperations := grouped.DeprovisionOperations ++ [ret] }
    else if op.Type_ = OperationTypeUpgradeCluster then
      match toUpgradeClusterOperation c op with
      | .error err => .error (Err.Wrapped "while converting DTO to Operation" err)
      | .ok ret => groupByType c rest { grouped with
          UpgradeClusterOperations := grouped.UpgradeClusterOperations ++ [ret] }
    else if op.Type_ = OperationTypeUpdate then
      match toUpdateOperation c op with
      | .error err => .error (Err.Wrapped "while converting DTO to Operation" err)
      | .ok ret => groupByType c rest { grouped with
          UpdateOperations := grouped.UpdateOperations ++ [ret] }
    else if op.Type_ = OperationTypeUpgradeKyma then
      groupByType c rest grouped
    else
      .error (Err.Plain "while converting DTO to Operation: unrecognized type of operation")

def ListOperationsByInstanceIDGroupByType {β : Type} (c : Collaborators)
    (session : ReadSession β) (retries : Nat) (db : β) (instanceID : String) :
    Except Err GroupedOperations × β :=
  match listOperationsByInstanceId session retries db instanceID with
  | ((_, some err), db) => (.error (Err.Wrapped "while loading operations list" err), db)
  | ((operations, none), db) => (groupByType c operations {}, db)

/-- What the write path of the store calls outside the embedded files: the encrypting
methods of the `Cipher` (each gives its error and the parameters it leaves behind),
`json.Marshal` on the provisioning parameters, and the helper
`storage.StringToSQLNullString`. -/
structure WriteCollaborators where
  EncryptSMCreds : ProvisioningParameters → Option Err × ProvisioningParameters
  EncryptKubeconfig : ProvisioningParameters → Option Err × ProvisioningParameters
  marshalParameters : ProvisioningParameters → Except Err String
  StringToSQLNullString : String → NullString

/-- The library call `strings.Join(elems, sep)` for a separator of one character, on the
characters of the elements. -/
def joinChars (sep : Char) : List (List Char) → List Char
  | [] => []
  | [w] => w
  | w :: rest => w ++ sep :: joinChars sep rest

/-- The library call `strings.Join(elems, ",")`. -/
def stringsJoinComma (elems : List String) : String :=
  String.mk (joinChars ',' (elems.map String.data))

def operationToDB (c : WriteCollaborators) (op : Operation) : Except Err OperationDTO :=
  match c.EncryptSMCreds op.ProvisioningParameters with
  | (some err, _) => .error (Err.Wrapped "while encrypting basic auth" err)
  | (none, provisioningParameters) =>
    match c.EncryptKubeconfig provisioningParameters with
    | (some err, _) => .error (Err.Wrapped "while encrypting kubeconfig" err)
    | (none, provisioningParameters) =>
      match c.marshalParameters provisioningParameters with
      | .error err => .error (Err.Wrapped "while marshal provisioning parameters" err)
      | .ok pp =>
        .ok { ID := op.ID
              Type_ := op.Type_
              TargetOperationID := op.ProvisionerOperationID
              State := op.State
              Description := op.Description
              UpdatedAt := op.UpdatedAt
              CreatedAt := op.CreatedAt
              Version := op.Version
              InstanceID := op.InstanceID
              ProvisioningParameters := c.StringToSQLNullString pp
              FinishedStages := c.StringToSQLNullString (stringsJoinComma op.FinishedStages) }

end postsql

/-! ## The instance-removal step (`internal/process/deprovisioning/remove_instance_step.go`) -/

namespace deprovisioning

/-- The struct `internal.Instance`, with the fields the embedded code reads or writes. -/
structure Instance where
  InstanceID : String := ""
  RuntimeID : String := ""
  Version : Int := 0
  DeletedAt : Time := 0
  deriving DecidableEq, Repr

/-- The calls that `Run` makes on its storages, as they are recorded in the trace. -/
inductive StorageCall where
  | InstanceGetByID (instanceID : String)
  | InstanceUpdate (inst : Instance)
  | InstanceDelete (instanceID : String)
  | OperationUpdate (operation : Operation)
  deriving DecidableEq, Repr

/-- A storage call is a write unless it is a lookup. -/
def StorageCall.isWrite : StorageCall → Bool
  | StorageCall.InstanceGetByID _ => false
  | _ => true

/-- The struct `RemoveInstanceStep` with what its fields do: the methods of
`storage.Instances` that `Run` calls, `UpdateOperation` of the operation manager
(`internal/process`), and the clock read by `time.Now()`.  The state `σ` is the state
of the storages; every behaviour of the storages is some choice of these functions. -/
structure RemoveInstanceStep (σ : Type) where
  GetByID : σ → String → Except Err Instance × σ
  Update : σ → Instance → Except Err Instance × σ
  Delete : σ → String → Option Err × σ
  UpdateOperation : σ → Operation → (Operation → Operation) →
    (Operation × Duration × Option Err) × σ
  Now : σ → Time

/-- The state of the storages with the trace of the calls made so far. -/
structure World (σ : Type) where
  state : σ
  trace : List StorageCall := []

/-- The call `s.instanceStorage.GetByID(instanceID)`. -/
def RemoveInstanceStep.instanceGetByID {σ : Type} (s : RemoveInstanceStep σ) (w : World σ)
    (instanceID : String) : Except Err Instance × World σ :=
  let r := s.GetByID w.state instanceID
  (r.1, { state := r.2, trace := w.trace ++ [StorageCall.InstanceGetByID instanceID] })

/-- The call `s.instanceStorage.Update(*instance)`. -/
def RemoveInstanceStep.instanceUpdate {σ : Type} (s : RemoveInstanceStep σ) (w : World σ)
    (inst : Instance) : Except Err Instance × World σ :=
  let r := s.Update w.state inst
  (r.1, { state := r.2, trace := w.trace ++ [StorageCall.InstanceUpdate inst] })

/-- The call `s.instanceStorage.Delete(instanceID)`. -/
def RemoveInstanceStep.instanceDelete {σ : Type} (s : RemoveInstanceStep σ) (w : World σ)
    (instanceID : String) : Option Err × World σ :=
  let r := s.Delete w.state instanceID
  (r.1, { state := r.2, trace := w.trace ++ [StorageCall.InstanceDelete instanceID] })

/-- The call `s.operationManager.UpdateOperation(operation, update, log)`. -/
def RemoveInstanceStep.managerUpdateOperation {σ : Type} (s : RemoveInstanceStep σ)
    (w : World σ) (operation : Operation) (update : Operation → Operation) :
    (Operation × Duration × Option Err) × World σ :=
  let r := s.UpdateOperation w.state operation update
  (r.1, { state := r.2, trace := w.trace ++ [StorageCall.OperationUpdate operation] })

def RemoveInstanceStep.removeRuntimeIDFromInstance {σ : Type} (s : RemoveInstanceStep σ)
    (w : World σ) (instanceID : String) : Duration × World σ :=
  let backoff := Second
  match s.instanceGetByID w instanceID with
  | (.error _, w) => (backoff, w)
  | (.ok inst, w) =>
    let inst := { inst with RuntimeID := "" }
    match s.instanceUpdate w inst with
    | (.error _, w) => (backoff, w)
    | (.ok _, w) => (0, w)

def RemoveInstanceStep.removeInstancePermanently {σ : Type} (s : RemoveInstanceStep σ)
    (w : World σ) (instanceID : String) : Duration × World σ :=
  match s.instanceDelete w instanceID with
  | (some _, w) => (10 * Second, w)
  | (none, w) => (0, w)

def RemoveInstanceStep.markInstanceNeedsRetrySomeSteps {σ : Type} (s : RemoveInstanceStep σ)
    (w : World σ) (instanceID : String) : Duration × World σ :=
  let backoff := Second
  match s.instanceGetByID w instanceID with
  | (.error err, w) => if err.IsNotFound then (0, w) else (backoff, w)
  | (.ok inst, w) =>
    let inst := { inst with DeletedAt := s.Now w.state }
    match s.instanceUpdate w inst with
    | (.error _, w) => (backoff, w)
    | (.ok _, w) => (0, w)

def RemoveInstanceStep.Run {σ : Type} (s : RemoveInstanceStep σ) (w : World σ)
    (operation : Operation) : (Operation × Duration × Option Err) × World σ :=
  match s.instanceGetByID w operation.InstanceID with
  | (.error err, w) =>
    if err.IsNotFound then ((operation, 0 * Second, none), w)
    else ((operation, 1 * Second, none), w)
  | (.ok _, w) =>
    if operation.Temporary then
      match s.removeRuntimeIDFromInstance w operation.InstanceID with
      | (backoff, w) =>
        if backoff ≠ 0 then ((operation, backoff, none), w)
        else
          match s.managerUpdateOperation w operation
              (fun operation => { operation with RuntimeID := "" }) with
          | ((operation, backoff, _), w) => ((operation, backoff, none), w)
    else if operation.ExcutedButNotCompleted ≠ none then
      match s.markInstanceNeedsRetrySomeSteps w operation.InstanceID with
      | (backoff, w) =>
        if backoff ≠ 0 then ((operation, backoff, none), w)
        else ((operation, backoff, none), w)
    else
      match s.removeInstancePermanently w operation.InstanceID with
      | (backoff, w) =>
        if backoff ≠ 0 then ((operation, backoff, none), w)
        else
          match s.managerUpdateOperation w operation
              (fun operation => { operation with
                ProvisioningParameters := { operation.ProvisioningParameters with
                  ErsContext := { operation.ProvisioningParameters.ErsContext with
                    UserID := "" } } }) with
          | ((operation, backoff, _), w) => ((operation, backoff, none), w)

/-- The world `w` shows no call of `Delete` that `w0` does not show, and `P` holds of its
storages. -/
def World.undeleted {σ : Type} (P : σ → Prop) (w0 w : World σ) : Prop :=
  (∀ instanceID, StorageCall.InstanceDelete instanceID ∈ w.trace →
    StorageCall.InstanceDelete instanceID ∈ w0.trace) ∧ P w.state

end deprovisioning

/-! ## The operation manager (`internal/process`) -/

namespace process

/-- The methods of `storage.Operations` that the operation manager calls, as functions
on the state `σ` of the storages. -/
structure Operations (σ : Type) where
  UpdateOperation : σ → Operation → Except Err Operation × σ
  GetOperationByID : σ → String → Except Err Operation × σ

/-- Modelled from the spec: `OperationManager.UpdateOperation` of `internal/process`,
whose source is not among the embedded files.  The spec gives the update protocol:
"apply a pure mutation to a copy, attempt `Update` with the originally loaded Version;
on Conflict, reload and reapply", and "`retryDelay == 0` and no error means success".
The saved operation is returned with a zero delay on success; on a failure the
operation that was given is returned with the delay `retry` and the error. -/
def OperationManager.UpdateOperation {σ : Type} (storage : Operations σ) (retry : Duration)
    (st : σ) (operation : Operation) (update : Operation → Operation) :
    (Operation × Duration × Option Err) × σ :=
  match storage.UpdateOperation st (update operation) with
  | (.ok saved, st) => ((saved, 0, none), st)
  | (.error err, st) =>
    if err.IsConflict then
      match storage.GetOperationByID st operation.ID with
      | (.error err, st) => ((operation, retry, some err), st)
      | (.ok current, st) =>
        match storage.UpdateOperation st (update current) with
        | (.ok saved, st) => ((saved, 0, none), st)
        | (.error err, st) => ((operation, retry, some err), st)
    else ((operation, retry, some err), st)

end process

/-! ## The label updater (`internal/kymacustomresource/kyma_cr_updater.go`) -/

namespace kymacustomresource

def subaccountIdLabelKey : String := "kyma-project.io/subaccount-id"
def BetaEnabledLabelKey : String := "operator.kyma-project.io/beta"
def UsedForProductionLabelKey : String := "operator.kyma-project.io/used-for-production"

/-- The format `subaccountIdLabelFormat` applied to a subaccount ID. -/
def subaccountIdLabelFormat (subaccountID : String) : String :=
  "kyma-project.io/subaccount-id=" ++ subaccountID

/-- The struct `syncqueues.QueueElement`, with the fields the embedded code reads. -/
structure QueueElement where
  SubaccountID : String := ""
  BetaEnabled : String := ""
  UsedForProduction : String := ""
  deriving DecidableEq, Repr

/-- The struct `unstructured.Unstructured`, as a name and the labels of the object;
`none` is an object without a `metadata.labels` field, for which `GetLabels` returns the
nil map. -/
structure Unstructured where
  name : String := ""
  labels : Option (GoMap String) := none
  deriving DecidableEq, Repr

/-- The field `Items` of the struct `unstructured.UnstructuredList`. -/
abbrev UnstructuredList := List Unstructured

/-- The method `GetLabels`. -/
def Unstructured.GetLabels (un : Unstructured) : Option (GoMap String) := un.labels

/-- The method `SetLabels` with a map that is not nil. -/
def Unstructured.SetLabels (un : Unstructured) (labels : GoMap String) : Unstructured :=
  { un with labels := some labels }

/-- The calls that `Run` makes on the queue, the clock and the cluster, as they are
recorded in the trace; an update is recorded with the error it returned. -/
inductive Call where
  | Extract
  | Sleep (d : Duration)
  | List (labelSelector : String)
  | Update (un : Unstructured) (err : Option Err)
  | Insert (item : QueueElement)
  deriving DecidableEq, Repr

/-- The struct `Updater` with what its fields do: `Extract` and `Insert` of the queue,
and `List` and `Update` of the dynamic client on the Kyma resources of the namespace
"kcp-system" (a call that runs into the timeout of its context returns an error).  The
state `σ` is the state of the queue and of the cluster. -/
structure Updater (σ : Type) where
  Extract : σ → Option QueueElement × σ
  Insert : σ → QueueElement → σ
  List : σ → String → Except Err UnstructuredList × σ
  Update : σ → Unstructured → Option Err × σ
  sleepDuration : Duration

/-- The state of the queue and of the cluster with the trace of the calls made so far. -/
structure World (σ : Type) where
  state : σ
  trace : List Call := []

/-- The call `u.queue.Extract()`. -/
def Updater.queueExtract {σ : Type} (u : Updater σ) (w : World σ) :
    Option QueueElement × World σ :=
  let r := u.Extract w.state
  (r.1, { state := r.2, trace := w.trace ++ [Call.Extract] })

/-- The call `u.queue.Insert(item)`. -/
def Updater.queueInsert {σ : Type} (u : Updater σ) (w : World σ) (item : QueueElement) :
    World σ :=
  { state := u.Insert w.state item, trace := w.trace ++ [Call.Insert item] }

/-- The call `time.Sleep(u.sleepDuration)`. -/
def Updater.sleep {σ : Type} (u : Updater σ) (w : World σ) : World σ :=
  { w with trace := w.trace ++ [Call.Sleep u.sleepDuration] }

/-- The call `u.k8sClient.Resource(u.kymaGVR).Namespace(namespace).List(...)`. -/
def Updater.clientList {σ : Type} (u : Updater σ) (w : World σ) (labelSelector : String) :
    Except Err UnstructuredList × World σ :=
  let r := u.List w.state labelSelector
  (r.1, { state := r.2, trace := w.trace ++ [Call.List labelSelector] })

/-- The call `u.k8sClient.Resource(u.kymaGVR).Namespace(namespace).Update(...)`. -/
def Updater.clientUpdate {σ : Type} (u : Updater σ) (w : World σ) (un : Unstructured) :
    Option Err × World σ :=
  let r := u.Update w.state un
  (r.1, { state := r.2, trace := w.trace ++ [Call.Update un r.1] })

/-- The object that `updateLabels` sends: the labels of `un`, or an empty map when it has
none, with the two keys assigned. -/
def labelled (un : Unstructured) (betaEnabled usedForProduction : String) : Unstructured :=
  let labels : GoMap String :=
    match un.GetLabels with
    | none => {}
    | some labels => labels
  let labels := labels.set BetaEnabledLabelKey betaEnabled
  let labels := labels.set UsedForProductionLabelKey usedForProduction
  un.SetLabels labels

def Updater.updateLabels {σ : Type} (u : Updater σ) (w : World σ) (un : Unstructured)
    (betaEnabled usedForProduction : String) : Option Err × World σ :=
  u.clientUpdate w (labelled un betaEnabled usedForProduction)

/-- The `range` loop of `Run` over the listed resources, with its flag `retryRequired`. -/
def Updater.updateAll {σ : Type} (u : Updater σ) (item : QueueElement) :
    UnstructuredList → Bool → World σ → Bool × World σ
  | [], retryRequired, w => (retryRequired, w)
  | kymaCrUnstructured :: rest, retryRequired, w =>
    match u.updateLabels w kymaCrUnstructured item.BetaEnabled item.UsedForProduction with
    | (some _, w) => Updater.updateAll u item rest true w
    | (none, w) => Updater.updateAll u item rest retryRequired w

/-- One iteration of the endless loop of `Run`. -/
def Updater.iteration {σ : Type} (u : Updater σ) (w : World σ) : World σ :=
  match u.queueExtract w with
  | (none, w) => u.sleep w
  | (some item, w) =>
    match u.clientList w (subaccountIdLabelFormat item.SubaccountID) with
    | (.error _, w) => u.queueInsert w item
    | (.ok items, w) =>
      if items.length = 0 then w
      else
        match u.updateAll item items false w with
        | (retryRequired, w) => if retryRequired then u.queueInsert w item else w

/-- The first `n` iterations of `Run`, which has no exit. -/
def Updater.Run {σ : Type} (u : Updater σ) : Nat → World σ → World σ
  | 0, w => w
  | n + 1, w => Updater.Run u n (u.iteration w)

/-- What "an update is attempted on every listed resource" asks for, written without the
loop of `Run`: starting from the state `st`, the client method `u.Update` is called once
for each resource of the list, in the order of the list, on the resource with the labels
of the item, each call in the state that the call before it left, whatever that call
returned.  The result is the list of what the calls returned and the state after the
last call. -/
def updateEveryResource {σ : Type} (u : Updater σ) (item : QueueElement) :
    UnstructuredList → σ → List (Option Err) × σ
  | [], st => ([], st)
  | un :: rest, st =>
    let r := u.Update st (labelled un item.BetaEnabled item.UsedForProduction)
    let rs := updateEveryResource u item rest r.2
    (r.1 :: rs.1, rs.2)

end kymacustomresource

/-! ## The write path of the Postgres operation store -/

namespace postsql

/-- The write session of the database (`postsql.WriteSession`), with the methods the
embedded code calls. -/
structure WriteSession (β : Type) where
  InsertOperation : β → OperationDTO → Option Err × β
  UpdateOperation : β → OperationDTO → Option Err × β

/-- The calls made on the sessions of the database, as they are recorded in the log. -/
inductive BackendCall where
  | InsertOperation (dto : OperationDTO)
  | UpdateOperation (dto : OperationDTO)
  | GetOperationByID (id : String)
  | ListOperationsByType (operationType : OperationType)
  deriving DecidableEq, Repr

/-- The state of the database with the log of the calls made on its sessions. -/
structure Backend (β : Type) where
  db : β
  calls : List BackendCall := []
  deriving DecidableEq

/-- The struct `operations` of the Postgres store: the sessions of its `Factory` (with
the method `ListOperationsByType` of the read session), its `Cipher` with the JSON and
null-string helpers of the two directions, `json.Marshal` on an operation, the clock
read by `time.Now()`, and the number of further tries that fit in `defaultRetryTimeout`
after the first. -/
structure operations (β : Type) where
  readSession : ReadSession β
  writeSession : WriteSession β
  ListOperationsByType : β → OperationType → (List OperationDTO × Option Err) × β
  encoding : WriteCollaborators
  decoding : Collaborators
  marshalOperation : Operation → Except Err String
  Now : β → Time
  retries : Nat

variable {β : Type}

/-- The call `session.InsertOperation(dto)`. -/
def operations.sessionInsertOperation (s : postsql.operations β) (b : Backend β)
    (dto : OperationDTO) : Option Err × Backend β :=
  let r := s.writeSession.InsertOperation b.db dto
  (r.1, { db := r.2, calls := b.calls ++ [BackendCall.InsertOperation dto] })

/-- The call `session.UpdateOperation(dto)`. -/
def operations.sessionUpdateOperation (s : postsql.operations β) (b : Backend β)
    (dto : OperationDTO) : Option Err × Backend β :=
  let r := s.writeSession.UpdateOperation b.db dto
  (r.1, { db := r.2, calls := b.calls ++ [BackendCall.UpdateOperation dto] })

/-- The call `s.Factory.NewReadSession().GetOperationByID(id)`. -/
def operations.sessionGetOperationByID (s : postsql.operations β) (b : Backend β)
    (id : String) : (OperationDTO × Option Err) × Backend β :=
  let r := s.readSession.GetOperationByID b.db id
  (r.1, { db := r.2, calls := b.calls ++ [BackendCall.GetOperationByID id] })

/-- The call `session.ListOperationsByType(operationType)`. -/
def operations.sessionListOperationsByType (s : postsql.operations β) (b : Backend β)
    (operationType : OperationType) : (List OperationDTO × Option Err) × Backend β :=
  let r := s.ListOperationsByType b.db operationType
  (r.1, { db := r.2, calls := b.calls ++ [BackendCall.ListOperationsByType operationType] })

def operations.operationToDTO (s : postsql.operations β) (op : Operation) :
    Except Err OperationDTO :=
  match s.marshalOperation op with
  | .error err => .error (Err.Wrapped "while serializing operation data" err)
  | .ok serialized =>
    match operationToDB s.encoding op with
    | .error err => .error (Err.Wrapped "while converting to operationDB" err)
    | .ok ret => .ok { ret with Data := serialized }

def operations.provisioningOperationToDTO (s : postsql.operations β)
    (op : ProvisioningOperation) : Except Err OperationDTO :=
  match s.marshalOperation op.Operation with
  | .error err => .error (Err.Wrapped "while serializing provisioning data" err)
  | .ok serialized =>
    match operationToDB s.encoding op.Operation with
    | .error err => .error (Err.Wrapped "while converting to operationDB" err)
    | .ok ret => .ok { ret with Data := serialized, Type_ := OperationTypeProvision }

def operations.deprovisioningOperationToDTO (s : postsql.operations β)
    (op : DeprovisioningOperation) : Except Err OperationDTO :=
  match s.marshalOperation op.Operation with
  | .error err => .error (Err.Wrapped "while serializing deprovisioning data" err)
  | .ok serialized =>
    match operationToDB s.encoding op.Operation with
    | .error err => .error (Err.Wrapped "while converting to operationDB" err)
    | .ok ret => .ok { ret with Data := serialized, Type_ := OperationTypeDeprovision }

def operations.upgradeClusterOperationToDTO (s : postsql.operations β)
    (op : UpgradeClusterOperation) : Except Err OperationDTO :=
  match s.marshalOperation op.Operation with
  | .error err => .error (Err.Wrapped "while serializing upgradeCluster data" err)
  | .ok serialized =>
    match operationToDB s.encoding op.Operation with
    | .error err => .error (Err.Wrapped "while converting to operationDB" err)
    | .ok ret => .ok { ret with Data := serialized, Type_ := OperationTypeUpgradeCluster }

def operations.updateOperationToDTO (s : postsql.operations β)
    (op : UpdatingOperation) : Except Err OperationDTO :=
  match s.marshalOperation op.Operation with
  | .error err => .error (Err.Wrapped "while serializing update data" err)
  | .ok serialized =>
    match operationToDB s.encoding op.Operation with
    | .error err => .error (Err.Wrapped "while converting to operationDB" err)
    | .ok ret => .ok { ret with Data := serialized, Type_ := OperationTypeUpdate }

/-- Modelled from the spec: the struct tags of `internal.Operation`, which decide what
`json.Marshal` writes into the column `Data`, are declared outside the embedded files.
The spec lists the "structured Payload" and the "encrypted ProvisioningParameters" as
two separate parts of the persisted operation: the payload that `json.Marshal` makes of
an operation does not depend on its provisioning parameters. -/
def operations.payloadOmitsParameters (s : postsql.operations β) : Prop :=
  ∀ (op : Operation) (pp : ProvisioningParameters),
    s.marshalOperation { op with ProvisioningParameters := pp } = s.marshalOperation op

/-- The variable `lastErr` that the closure passed to a poll loop of the write path
writes, with the state of the database. -/
structure WriteState (β : Type) where
  lastErr : Option Err := none
  backend : Backend β

/-- The closure of the poll loop of `insert`: every error of the session asks for another
try. -/
def operations.insertCondition (s : postsql.operations β) (dto : OperationDTO)
    (st : WriteState β) : (Bool × Option Err) × WriteState β :=
  match s.sessionInsertOperation st.backend dto with
  | (some e, b) => ((false, none), { lastErr := some e, backend := b })
  | (none, b) => ((true, none), { lastErr := none, backend := b })

def operations.insert (s : postsql.operations β) (b : Backend β) (dto : OperationDTO) :
    Option Err × Backend β :=
  match PollUntilContextTimeout (s.insertCondition dto) s.retries { backend := b } with
  | (_, st) => (st.lastErr, st.backend)

/-- The closure of the poll loop of `update`. -/
def operations.updateCondition (s : postsql.operations β) (operation : OperationDTO)
    (st : WriteState β) : (Bool × Option Err) × WriteState β :=
  match s.sessionUpdateOperation st.backend operation with
  | (some e, b) =>
    if e.IsNotFound then
      match s.sessionGetOperationByID b operation.ID with
      | ((_, some e2), b) =>
        if e2.IsNotFound then ((false, some e2), { lastErr := some e2, backend := b })
        else ((false, none), { lastErr := some e2, backend := b })
      | ((_, none), b) =>
        let lastErr := Err.Conflict ("operation update conflict, operation ID: " ++ operation.ID)
        ((false, some lastErr), { lastErr := some lastErr, backend := b })
    else ((true, none), { lastErr := some e, backend := b })
  | (none, b) => ((true, none), { lastErr := none, backend := b })

def operations.update (s : postsql.operations β) (b : Backend β) (operation : OperationDTO) :
    Option Err × Backend β :=
  match PollUntilContextTimeout (s.updateCondition operation) s.retries { backend := b } with
  | (_, st) => (st.lastErr, st.backend)

end postsql

namespace postsql

variable {β : Type}

def operations.InsertProvisioningOperation (s : postsql.operations β) (b : Backend β)
    (operation : ProvisioningOperation) : Option Err × Backend β :=
  match s.provisioningOperationToDTO operation with
  | .error err => (some (Err.Wrapped "while inserting provisioning operation" err), b)
  | .ok dto => s.insert b dto

def operations.InsertOperation (s : postsql.operations β) (b : Backend β)
    (operation : Operation) : Option Err × Backend β :=
  match s.operationToDTO operation with
  | .error err => (some (Err.Wrapped "while inserting operation" err), b)
  | .ok dto => s.insert b dto

def operations.InsertDeprovisioningOperation (s : postsql.operations β) (b : Backend β)
    (operation : DeprovisioningOperation) : Option Err × Backend β :=
  match s.deprovisioningOperationToDTO operation with
  | .error err => (some (Err.Wrapped "while converting Operation to DTO" err), b)
  | .ok dto => s.insert b dto

def operations.InsertUpdatingOperation (s : postsql.operations β) (b : Backend β)
    (operation : UpdatingOperation) : Option Err × Backend β :=
  match s.updateOperationToDTO operation with
  | .error err => (some (Err.Wrapped "while converting update operation" err), b)
  | .ok dto => s.insert b dto

def operations.InsertUpgradeClusterOperation (s : postsql.operations β) (b : Backend β)
    (operation : UpgradeClusterOperation) : Option Err × Backend β :=
  match s.upgradeClusterOperationToDTO operation with
  | .error err => (some (Err.Wrapped "while converting upgrade cluser operation" err), b)
  | .ok dto => s.insert b dto

/-- The method `UpdateOperation`.  The Go result is a pointer and an error, which are
both set when the poll loop leaves an error: `none` is the nil pointer. -/
def operations.UpdateOperation (s : postsql.operations β) (b : Backend β) (op : Operation) :
    (Option Operation × Option Err) × Backend β :=
  let op := { op with UpdatedAt := s.Now b.db }
  match s.operationToDTO op with
  | .error err => ((none, some (Err.Wrapped "while converting Operation to DTO" err)), b)
  | .ok dto =>
    match s.update b dto with
    | (lastErr, b) =>
      let op := { op with Version := wrapInt (op.Version + 1) }
      ((some op, lastErr), b)

def operations.UpdateProvisioningOperation (s : postsql.operations β) (b : Backend β)
    (op : ProvisioningOperation) : (Option ProvisioningOperation × Option Err) × Backend β :=
  let op : ProvisioningOperation :=
    { op with Operation := { op.Operation with UpdatedAt := s.Now b.db } }
  match s.provisioningOperationToDTO op with
  | .error err => ((none, some (Err.Wrapped "while converting Operation to DTO" err)), b)
  | .ok dto =>
    match s.update b dto with
    | (lastErr, b) =>
      let op : ProvisioningOperation :=
        { op with
          Operation := { op.Operation with Version := wrapInt (op.Operation.Version + 1) } }
      ((some op, lastErr), b)

def operations.UpdateDeprovisioningOperation (s : postsql.operations β) (b : Backend β)
    (operation : DeprovisioningOperation) :
    (Option DeprovisioningOperation × Option Err) × Backend β :=
  let operation : DeprovisioningOperation :=
    { operation with Operation := { operation.Operation with UpdatedAt := s.Now b.db } }
  match s.deprovisioningOperationToDTO operation with
  | .error err => ((none, some (Err.Wrapped "while converting Operation to DTO" err)), b)
  | .ok dto =>
    match s.update b dto with
    | (lastErr, b) =>
      let operation : DeprovisioningOperation :=
        { operation with
          Operation :=
            { operation.Operation with
              Version := wrapInt (operation.Operation.Version + 1) } }
      ((some operation, lastErr), b)

/-- The closure of the poll loop written out in `UpdateUpdatingOperation`. -/
def operations.updateUpdatingCondition (s : postsql.operations β) (dto : OperationDTO)
    (operation : UpdatingOperation) (st : WriteState β) :
    (Bool × Option Err) × WriteState β :=
  match s.sessionUpdateOperation st.backend dto with
  | (some e, b) =>
    if e.IsNotFound then
      match s.sessionGetOperationByID b operation.Operation.ID with
      | ((_, some e2), b) => ((false, none), { lastErr := some e2, backend := b })
      | ((_, none), b) =>
        let lastErr := Err.Conflict
          ("operation update conflict, operation ID: " ++ operation.Operation.ID)
        ((false, some lastErr), { lastErr := some lastErr, backend := b })
    else ((true, none), { lastErr := some e, backend := b })
  | (none, b) => ((true, none), { lastErr := none, backend := b })

def operations.UpdateUpdatingOperation (s : postsql.operations β) (b : Backend β)
    (operation : UpdatingOperation) : (Option UpdatingOperation × Option Err) × Backend β :=
  let operation : UpdatingOperation :=
    { operation with Operation := { operation.Operation with UpdatedAt := s.Now b.db } }
  match s.updateOperationToDTO operation with
  | .error err => ((none, some (Err.Wrapped "while converting Operation to DTO" err)), b)
  | .ok dto =>
    match PollUntilContextTimeout (s.updateUpdatingCondition dto operation) s.retries
        { backend := b } with
    | (_, st) =>
      let operation : UpdatingOperation :=
        { operation with
          Operation :=
            { operation.Operation with
              Version := wrapInt (operation.Operation.Version + 1) } }
      ((some operation, st.lastErr), st.backend)

/-- The closure of the poll loop written out in `UpdateUpgradeClusterOperation`. -/
def operations.updateUpgradeClusterCondition (s : postsql.operations β) (dto : OperationDTO)
    (operation : UpgradeClusterOperation) (st : WriteState β) :
    (Bool × Option Err) × WriteState β :=
  match s.sessionUpdateOperation st.backend dto with
  | (some e, b) =>
    if e.IsNotFound then
      match s.sessionGetOperationByID b operation.Operation.ID with
      | ((_, some e2), b) => ((false, none), { lastErr := some e2, backend := b })
      | ((_, none), b) =>
        let lastErr := Err.Conflict
          ("operation update conflict, operation ID: " ++ operation.Operation.ID)
        ((false, some lastErr), { lastErr := some lastErr, backend := b })
    else ((true, none), { lastErr := some e, backend := b })
  | (none, b) => ((true, none), { lastErr := none, backend := b })

def operations.UpdateUpgradeClusterOperation (s : postsql.operations β) (b : Backend β)
    (operation : UpgradeClusterOperation) :
    (Option UpgradeClusterOperation × Option Err) × Backend β :=
  let operation : UpgradeClusterOperation :=
    { operation with Operation := { operation.Operation with UpdatedAt := s.Now b.db } }
  match s.upgradeClusterOperationToDTO operation with
  | .error err => ((none, some (Err.Wrapped "while converting Operation to DTO" err)), b)
  | .ok dto =>
    match PollUntilContextTimeout (s.updateUpgradeClusterCondition dto operation) s.retries
        { backend := b } with
    | (_, st) =>
      let operation : UpgradeClusterOperation :=
        { operation with
          Operation :=
            { operation.Operation with
              Version := wrapInt (operation.Operation.Version + 1) } }
      ((some operation, st.lastErr), st.backend)

end postsql

namespace postsql

variable {β : Type}

/-- The variables that the closure passed to the poll loop of `listOperationsByType`
writes, with the state of the database. -/
structure ListByTypeState (β : Type) where
  operations : List OperationDTO := []
  lastErr : Option Err := none
  backend : Backend β

/-- The closure of the poll loop of `listOperationsByType`. -/
def operations.listCondition (s : postsql.operations β) (operationType : OperationType)
    (st : ListByTypeState β) : (Bool × Option Err) × ListByTypeState β :=
  match s.sessionListOperationsByType st.backend operationType with
  | ((operations, some e), b) =>
    ((false, none), { operations := operations, lastErr := some e, backend := b })
  | ((operations, none), b) =>
    ((true, none), { operations := operations, lastErr := none, backend := b })

/-- The function `listOperationsByType`; the nil slice returned with an error is the empty
list. -/
def operations.listOperationsByType (s : postsql.operations β) (b : Backend β)
    (operationType : OperationType) : (List OperationDTO × Option Err) × Backend β :=
  match PollUntilContextTimeout (s.listCondition operationType) s.retries { backend := b } with
  | (some _, st) => (([], st.lastErr), st.backend)
  | (none, st) => ((st.operations, st.lastErr), st.backend)

def toDeprovisioningOperationList (c : Collaborators) :
    List OperationDTO → List DeprovisioningOperation → Except Err (List DeprovisioningOperation)
  | [], result => .ok result
  | op :: rest, result =>
    match toDeprovisioningOperation c op with
    | .error err => .error (Err.Wrapped "while converting to upgrade kyma operation" err)
    | .ok o => toDeprovisioningOperationList c rest (result ++ [o])

/-- The method `ListDeprovisioningOperations`.  The Go result is a slice and an error:
`none` is the nil slice.  The variable `lastErr` declared at the top of the function is
never assigned. -/
def operations.ListDeprovisioningOperations (s : postsql.operations β) (b : Backend β) :
    (Option (List DeprovisioningOperation) × Option Err) × Backend β :=
  let lastErr : Option Err := none
  match s.listOperationsByType b OperationTypeDeprovision with
  | ((_, some _), b) => ((none, lastErr), b)
  | ((operations, none), b) =>
    match toDeprovisioningOperationList s.decoding operations [] with
    | .error err => ((none, some (Err.Wrapped "while converting DTO to Operation" err)), b)
    | .ok ret => ((some ret, none), b)

end postsql

/-! ## The Postgres instance store (`internal/storage/driver/postsql/instance.go`) -/

namespace internal

/-- The struct `internal.Instance`, with the fields that `toInstance` fills. -/
structure Instance where
  InstanceID : String := ""
  RuntimeID : String := ""
  GlobalAccountID : String := ""
  SubscriptionGlobalAccountID : String := ""
  SubAccountID : String := ""
  ServiceID : String := ""
  ServiceName : String := ""
  ServicePlanID : String := ""
  ServicePlanName : String := ""
  DashboardURL : String := ""
  Parameters : ProvisioningParameters := {}
  ProviderRegion : String := ""
  CreatedAt : Time := 0
  UpdatedAt : Time := 0
  DeletedAt : Time := 0
  ExpiredAt : Option Time := none
  Version : Int := 0
  Provider : String := ""
  deriving DecidableEq, Repr

end internal

namespace postsql

/-- The struct `dbmodel.InstanceDTO`. -/
structure InstanceDTO where
  InstanceID : String := ""
  RuntimeID : String := ""
  GlobalAccountID : String := ""
  SubscriptionGlobalAccountID : String := ""
  SubAccountID : String := ""
  ServiceID : String := ""
  ServiceName : String := ""
  ServicePlanID : String := ""
  ServicePlanName : String := ""
  DashboardURL : String := ""
  ProvisioningParameters : String := ""
  ProviderRegion : String := ""
  CreatedAt : Time := 0
  UpdatedAt : Time := 0
  DeletedAt : Time := 0
  ExpiredAt : Option Time := none
  Version : Int := 0
  Provider : String := ""
  deriving DecidableEq, Repr

/-- The struct `sql.NullTime`. -/
structure NullTime where
  Time : Time := 0
  Valid : Bool := false
  deriving DecidableEq, Repr

/-- The struct `dbmodel.InstanceWithOperationDTO`, with the fields the embedded code
reads. -/
structure InstanceWithOperationDTO where
  InstanceDTO : InstanceDTO := {}
  Type_ : NullString := {}
  State : NullString := {}
  Description : NullString := {}
  OperationCreatedAt : NullTime := {}
  Data : NullString := {}
  deriving DecidableEq, Repr

end postsql

namespace internal

/-- The struct `internal.InstanceWithOperation`. -/
structure InstanceWithOperation where
  Instance : Instance := {}
  Type_ : postsql.NullString := {}
  State : postsql.NullString := {}
  Description : postsql.NullString := {}
  OpCreatedAt : Time := 0
  IsSuspensionOp : Bool := false
  deriving DecidableEq, Repr

end internal

namespace postsql

variable {β : Type}

/-- The struct `Instance` of the Postgres store: the method
`FindAllInstancesJoinedWithOperation` of its read session (called with the predicates
given to the store), its `Cipher` with `json.Unmarshal`, and the number of further tries
that fit in `defaultRetryTimeout` after the first. -/
structure Instance (β : Type) where
  FindAllInstancesJoinedWithOperation : β → (List InstanceWithOperationDTO × Option Err) × β
  decoding : Collaborators
  retries : Nat

def Instance.toInstance (s : postsql.Instance β) (dto : InstanceDTO) :
    Except Err internal.Instance :=
  match s.decoding.unmarshalParameters dto.ProvisioningParameters with
  | .error err => .error (Err.Wrapped "while unmarshal parameters" err)
  | .ok params =>
    match s.decoding.DecryptSMCreds params with
    | (some err, _) => .error (Err.Wrapped "while decrypting parameters" err)
    | (none, params) =>
      let params := (s.decoding.DecryptKubeconfig params).2
      .ok { InstanceID := dto.InstanceID
            RuntimeID := dto.RuntimeID
            GlobalAccountID := dto.GlobalAccountID
            SubscriptionGlobalAccountID := dto.SubscriptionGlobalAccountID
            SubAccountID := dto.SubAccountID
            ServiceID := dto.ServiceID
            ServiceName := dto.ServiceName
            ServicePlanID := dto.ServicePlanID
            ServicePlanName := dto.ServicePlanName
            DashboardURL := dto.DashboardURL
            Parameters := params
            ProviderRegion := dto.ProviderRegion
            CreatedAt := dto.CreatedAt
            UpdatedAt := dto.UpdatedAt
            DeletedAt := dto.DeletedAt
            ExpiredAt := dto.ExpiredAt
            Version := dto.Version
            Provider := dto.Provider }

/-- The method `toDeprovisioningOp`: the Go result is a pointer and an error, and the
pointer is nil exactly when the error is set. -/
def Instance.toDeprovisioningOp (s : postsql.Instance β) (dto : InstanceWithOperationDTO) :
    Except Err DeprovisioningOperation :=
  match s.decoding.unmarshalOperation dto.Data.String with
  | .error _ => .error (Err.Plain "unable to unmarshall deprovisioning data")
  | .ok operation => .ok { Operation := operation }

/-- The body of the `range` loop of `FindAllJoinedWithOperations` up to the `append`: the
value of `isSuspensionOp` for the row.  In the `deprovision` case the error of
`toDeprovisioningOp` is logged and the field `Temporary` is then read through the
pointer returned with it, which is nil: the read ends in a Go panic. -/
def Instance.isSuspensionOp (s : postsql.Instance β) (dto : InstanceWithOperationDTO) :
    Except Err Bool :=
  if dto.Type_.String = OperationTypeProvision then .ok false
  else if dto.Type_.String = OperationTypeDeprovision then
    match s.toDeprovisioningOp dto with
    | .error _ =>
      .error (Err.Panic "runtime error: invalid memory address or nil pointer dereference")
    | .ok deprovOp => .ok deprovOp.Operation.Temporary
  else .ok false

/-- The `range` loop of `FindAllJoinedWithOperations`. -/
def Instance.joinedWithOperations (s : postsql.Instance β) :
    List InstanceWithOperationDTO → List internal.InstanceWithOperation →
      Except Err (List internal.InstanceWithOperation)
  | [], result => .ok result
  | dto :: rest, result =>
    match s.toInstance dto.InstanceDTO with
    | .error err => .error err
    | .ok inst =>
      match s.isSuspensionOp dto with
      | .error err => .error err
      | .ok isSuspensionOp =>
        Instance.joinedWithOperations s rest (result ++ [{
          Instance := inst
          Type_ := dto.Type_
          State := dto.State
          Description := dto.Description
          OpCreatedAt := dto.OperationCreatedAt.Time
          IsSuspensionOp := isSuspensionOp }])

/-- The variables that the closure passed to the poll loop of
`FindAllJoinedWithOperations` writes, with the state of the database. -/
structure FindAllState (β : Type) where
  instances : List InstanceWithOperationDTO := []
  lastErr : Option Err := none
  db : β

/-- The method `FindAllJoinedWithOperations`.  A Go panic is an `Err.Panic` in the error
position; the nil slice is the empty list. -/
def Instance.FindAllJoinedWithOperations (s : postsql.Instance β) (db : β) :
    Except Err (List internal.InstanceWithOperation) × β :=
  let condition : FindAllState β → (Bool × Option Err) × FindAllState β := fun st =>
    match s.FindAllInstancesJoinedWithOperation st.db with
    | ((instances, some e), db) =>
      ((false, none), { instances := instances, lastErr := some e, db := db })
    | ((instances, none), db) =>
      ((true, none), { instances := instances, lastErr := none, db := db })
  match PollUntilContextTimeout condition s.retries { db := db } with
  | (some _, st) =>
    match st.lastErr with
    | some e => (.error e, st.db)
    | none => (.ok [], st.db)
  | (none, st) => (s.joinedWithOperations st.instances [], st.db)

end postsql

/-! ## Listing with pages in the in-memory store -/

namespace memory

/-- The struct `dbmodel.OperationFilter`, with the fields that `ListOperations` reads. -/
structure OperationFilter where
  Page : Int := 0
  PageSize : Int := 0
  States : List String := []
  deriving DecidableEq, Repr

/-- Functions that `ListOperations` calls outside the embedded file: `matchFilter` of the
package and `pagination.ConvertPageAndPageSizeToOffset`, whose arguments are the page
size and the page, in this order. -/
structure Helpers where
  matchFilter : String → List String → (String → String → Bool) → Bool
  ConvertPageAndPageSizeToOffset : Int → Int → Int

def operations.equalFilter (a b : String) : Bool := decide (a = b)

def operations.sortByCreatedAt (ops : List Operation) : List Operation :=
  sortSlice (fun a b => a.CreatedAt.Before b.CreatedAt) ops

def operations.getAll (s : memory.operations) : Except Err (List Operation) :=
  .ok (s.upgradeClusterOperations.values.map (fun op => op.Operation) ++ s.operations.values)

def operations.filterAll (h : Helpers) (s : memory.operations) (filter : OperationFilter) :
    Except Err (List Operation) :=
  match s.getAll with
  | .error err => .error err
  | .ok ops =>
    .ok (ops.filter (fun op => h.matchFilter op.State filter.States operations.equalFilter))

/-- The Go expression `operations[i]`: it panics unless `0 <= i < len(operations)`. -/
def sliceIndex (xs : List Operation) (i : Int) : Except Err Operation :=
  if 0 ≤ i ∧ i < xs.length then
    match xs.get? i.toNat with
    | some x => .ok x
    | none => .error (Err.Panic "runtime error: index out of range")
  else .error (Err.Panic "runtime error: index out of range")

/-- The `for` loop of `ListOperations`, from the index `i` with `result` collected so far.
Each pass reads `operations[i]`, so the loop makes at most `len(operations)` passes without
a panic; the first argument is the number of passes still allowed.  The sums are sums of
Go `int` values. -/
def operations.pageLoop (ops : List Operation) (pageSize offset : Int) :
    Nat → Int → List Operation → Except Err (List Operation)
  | 0, _, result => .ok result
  | fuel + 1, i, result =>
    if (pageSize < 1 ∨ i < wrapInt (offset + pageSize)) ∧
        i < wrapInt ((ops.length : Int) + offset) then
      match sliceIndex ops i with
      | .error err => .error err
      | .ok op =>
        operations.pageLoop ops pageSize offset fuel (wrapInt (i + 1)) (result ++ [op])
    else .ok result

/-- The method `ListOperations`: the operations of the page, their number and the number
of operations that match the filter.  A Go panic is an `Err.Panic` in the error
position. -/
def operations.ListOperations (h : Helpers) (s : memory.operations) (filter : OperationFilter) :
    Except Err (List Operation × Int × Int) :=
  let offset := h.ConvertPageAndPageSizeToOffset filter.PageSize filter.Page
  match s.filterAll h filter with
  | .error err => .error (Err.Wrapped "while listing operations" err)
  | .ok ops =>
    let ops := operations.sortByCreatedAt ops
    match operations.pageLoop ops filter.PageSize offset (ops.length + 1) offset [] with
    | .error err => .error err
    | .ok result => .ok (result, result.length, ops.length)

end memory

namespace postsql

variable {β : Type}

/-- The calls of the write path of the store: every `Insert<Kind>Operation` and every
`Update<Kind>`, with the operation given to it. -/
inductive WriteCall where
  | InsertOperation (operation : Operation)
  | InsertProvisioningOperation (operation : ProvisioningOperation)
  | InsertDeprovisioningOperation (operation : DeprovisioningOperation)
  | InsertUpgradeClusterOperation (operation : UpgradeClusterOperation)
  | InsertUpdatingOperation (operation : UpdatingOperation)
  | UpdateOperation (op : Operation)
  | UpdateProvisioningOperation (op : ProvisioningOperation)
  | UpdateDeprovisioningOperation (operation : DeprovisioningOperation)
  | UpdateUpgradeClusterOperation (operation : UpgradeClusterOperation)
  | UpdateUpdatingOperation (operation : UpdatingOperation)
  deriving DecidableEq, Repr

/-- The operation given to a call of the write path. -/
def WriteCall.operation : WriteCall → Operation
  | .InsertOperation operation => operation
  | .InsertProvisioningOperation operation => operation.Operation
  | .InsertDeprovisioningOperation operation => operation.Operation
  | .InsertUpgradeClusterOperation operation => operation.Operation
  | .InsertUpdatingOperation operation => operation.Operation
  | .UpdateOperation op => op
  | .UpdateProvisioningOperation op => op.Operation
  | .UpdateDeprovisioningOperation operation => operation.Operation
  | .UpdateUpgradeClusterOperation operation => operation.Operation
  | .UpdateUpdatingOperation operation => operation.Operation

/-- The call is one of the five `Insert<Kind>Operation`. -/
def WriteCall.isInsert : WriteCall → Bool
  | .InsertOperation _ => true
  | .InsertProvisioningOperation _ => true
  | .InsertDeprovisioningOperation _ => true
  | .InsertUpgradeClusterOperation _ => true
  | .InsertUpdatingOperation _ => true
  | _ => false

/-- The error that a call of the write path returns, and the backend after it. -/
def operations.write (s : postsql.operations β) (b : Backend β) :
    WriteCall → Option Err × Backend β
  | .InsertOperation operation => s.InsertOperation b operation
  | .InsertProvisioningOperation operation => s.InsertProvisioningOperation b operation
  | .InsertDeprovisioningOperation operation => s.InsertDeprovisioningOperation b operation
  | .InsertUpgradeClusterOperation operation => s.InsertUpgradeClusterOperation b operation
  | .InsertUpdatingOperation operation => s.InsertUpdatingOperation b operation
  | .UpdateOperation op => ((s.UpdateOperation b op).1.2, (s.UpdateOperation b op).2)
  | .UpdateProvisioningOperation op =>
    ((s.UpdateProvisioningOperation b op).1.2, (s.UpdateProvisioningOperation b op).2)
  | .UpdateDeprovisioningOperation operation =>
    ((s.UpdateDeprovisioningOperation b operation).1.2,
      (s.UpdateDeprovisioningOperation b operation).2)
  | .UpdateUpgradeClusterOperation operation =>
    ((s.UpdateUpgradeClusterOperation b operation).1.2,
      (s.UpdateUpgradeClusterOperation b operation).2)
  | .UpdateUpdatingOperation operation =>
    ((s.UpdateUpdatingOperation b operation).1.2, (s.UpdateUpdatingOperation b operation).2)

/-- The conversion with which a call of the write path starts: the row it builds for
the backend, or the error of the conversion. -/
def operations.rowOf (s : postsql.operations β) (b : Backend β) :
    WriteCall → Except Err OperationDTO
  | .InsertOperation operation => s.operationToDTO operation
  | .InsertProvisioningOperation operation => s.provisioningOperationToDTO operation
  | .InsertDeprovisioningOperation operation => s.deprovisioningOperationToDTO operation
  | .InsertUpgradeClusterOperation operation => s.upgradeClusterOperationToDTO operation
  | .InsertUpdatingOperation operation => s.updateOperationToDTO operation
  | .UpdateOperation op => s.operationToDTO { op with UpdatedAt := s.Now b.db }
  | .UpdateProvisioningOperation op =>
    s.provisioningOperationToDTO
      { op with Operation := { op.Operation with UpdatedAt := s.Now b.db } }
  | .UpdateDeprovisioningOperation operation =>
    s.deprovisioningOperationToDTO
      { operation with Operation := { operation.Operation with UpdatedAt := s.Now b.db } }
  | .UpdateUpgradeClusterOperation operation =>
    s.upgradeClusterOperationToDTO
      { operation with Operation := { operation.Operation with UpdatedAt := s.Now b.db } }
  | .UpdateUpdatingOperation operation =>
    s.updateOperationToDTO
      { operation with Operation := { operation.Operation with UpdatedAt := s.Now b.db } }

end postsql

/-! ## Example data -/

namespace Example

def provisionOp : Operation :=
  { ID := "op-1", InstanceID := "inst-1", Type_ := OperationTypeProvision,
    State := "succeeded", Version := 3, CreatedAt := 10 }

def deprovisionOp : Operation :=
  { ID := "op-2", InstanceID := "inst-1", Type_ := OperationTypeDeprovision,
    State := "in progress", Version := 0, CreatedAt := 20 }

def otherInstanceOp : Operation :=
  { ID := "op-3", InstanceID := "inst-2", Type_ := OperationTypeProvision,
    State := "succeeded", Version := 1, CreatedAt := 30 }

def upgradeOp : UpgradeClusterOperation :=
  { Operation := { ID := "op-4", InstanceID := "inst-1", Type_ := OperationTypeUpgradeCluster,
                   State := "succeeded", Version := 7, CreatedAt := 40 } }

def updateOp : UpdatingOperation :=
  { Operation := { ID := "op-5", InstanceID := "inst-1", Type_ := OperationTypeUpdate,
                   State := "pending", Version := 2, CreatedAt := 50 } }

/-- The store after five inserts into an empty store. -/
def store : memory.operations :=
  let s := memory.NewOperation
  let s := (s.InsertProvisioningOperation { Operation := provisionOp }).2
  let s := (s.InsertDeprovisioningOperation { Operation := deprovisionOp }).2
  let s := (s.InsertOperation otherInstanceOp).2
  let s := (s.InsertUpgradeClusterOperation upgradeOp).2
  (s.InsertUpdatingOperation updateOp).2

/-- The call `json.Unmarshal` into provisioning parameters, on the texts of the examples:
the empty object gives the zero value, and a text that is not JSON is rejected. -/
def unmarshalParameters (text : String) : Except Err ProvisioningParameters :=
  if text = "{}" then .ok {}
  else if text = "" then .error (Err.Plain "unexpected end of JSON input")
  else .error (Err.Plain "invalid character looking for beginning of value")

/-- The call `json.Unmarshal` into an operation, on the texts of the examples: the empty
object gives the zero value, the flag `temporary` is read, and a text that is not JSON
is rejected. -/
def unmarshalOperation (data : String) : Except Err Operation :=
  if data = "{}" then .ok {}
  else if data = "\x7b\"temporary\":true\x7d" then .ok { Temporary := true }
  else if data = "" then .error (Err.Plain "unexpected end of JSON input")
  else .error (Err.Plain "invalid character looking for beginning of value")

/-- Collaborators that decode the texts of the examples and decrypt nothing. -/
def collaborators : postsql.Collaborators :=
  { DecryptSMCreds := fun pp => (none, pp)
    DecryptKubeconfig := fun pp => (none, pp)
    unmarshalParameters := unmarshalParameters
    unmarshalOperation := unmarshalOperation
    SQLNullStringToString := fun ns => if ns.Valid then ns.String else "" }

/-- A database that never fails: its state is the list of the rows of the operations
table, in the order in which a listing returns them. -/
def session : postsql.ReadSession (List postsql.OperationDTO) :=
  { GetOperationByID := fun rows id =>
      match rows.find? (fun row => decide (row.ID = id)) with
      | some row => ((row, none), rows)
      | none => (({}, some (Err.NotFound "Cannot find Operation")), rows)
    GetOperationsByInstanceID := fun rows instanceID =>
      ((rows.filter (fun row => decide (row.InstanceID = instanceID)), none), rows) }

def provisionRowOld : postsql.OperationDTO :=
  { ID := "op-1", InstanceID := "inst-1", Type_ := OperationTypeProvision, CreatedAt := 10,
    Data := "{}" }

def provisionRowNew : postsql.OperationDTO :=
  { ID := "op-2", InstanceID := "inst-1", Type_ := OperationTypeProvision, CreatedAt := 20,
    Data := "{}" }

def deprovisionRow : postsql.OperationDTO :=
  { ID := "op-3", InstanceID := "inst-1", Type_ := OperationTypeDeprovision, CreatedAt := 30,
    Data := "{}" }

def upgradeRowOld : postsql.OperationDTO :=
  { ID := "op-4", InstanceID := "inst-1", Type_ := OperationTypeUpgradeCluster, CreatedAt := 40,
    Data := "{}" }

def upgradeRowNew : postsql.OperationDTO :=
  { ID := "op-5", InstanceID := "inst-1", Type_ := OperationTypeUpgradeCluster, CreatedAt := 50,
    Data := "{}" }

/-- Four rows of "inst-1", oldest first. -/
def rowsOldestFirst : List postsql.OperationDTO :=
  [provisionRowOld, provisionRowNew, upgradeRowOld, upgradeRowNew]

/-- The grouping of `rowsOldestFirst` by the Postgres store with `collaborators`. -/
def groupedRows : GroupedOperations :=
  { ProvisionOperations :=
      [⟨{ ID := "op-1", InstanceID := "inst-1", Type_ := OperationTypeProvision, CreatedAt := 10 }⟩,
       ⟨{ ID := "op-2", InstanceID := "inst-1", Type_ := OperationTypeProvision, CreatedAt := 20 }⟩]
    UpgradeClusterOperations :=
      [⟨{ ID := "op-4", InstanceID := "inst-1", Type_ := OperationTypeUpgradeCluster,
          CreatedAt := 40 }⟩,
       ⟨{ ID := "op-5", InstanceID := "inst-1", Type_ := OperationTypeUpgradeCluster,
          CreatedAt := 50 }⟩] }

/-- The empty store after `InsertProvisioningOperation` of `provisionOp`. -/
def afterProvisioning : memory.operations :=
  (memory.NewOperation.InsertProvisioningOperation { Operation := provisionOp }).2

/-- The empty store after `InsertUpgradeClusterOperation` of `upgradeOp`. -/
def afterUpgrade : memory.operations :=
  (memory.NewOperation.InsertUpgradeClusterOperation upgradeOp).2

/-- The empty store after `InsertUpdatingOperation` of `updateOp`. -/
def afterUpdating : memory.operations :=
  (memory.NewOperation.InsertUpdatingOperation updateOp).2

/-- Calls made between a first insert and a second one. -/
def laterCalls : List memory.Call :=
  [memory.Call.UpdateProvisioningOperation { Operation := provisionOp },
   memory.Call.InsertOperation otherInstanceOp,
   memory.Call.UpdateUpgradeClusterOperation upgradeOp,
   memory.Call.InsertUpdatingOperation { Operation := { ID := "op-6" } }]

/-- A step over storages that never fail: the state is the list of the stored instances,
and the operation manager applies the update and returns the operation. -/
def step : deprovisioning.RemoveInstanceStep (List deprovisioning.Instance) :=
  { GetByID := fun instances instanceID =>
      match instances.find? (fun i => decide (i.InstanceID = instanceID)) with
      | some i => (.ok i, instances)
      | none => (.error (Err.NotFound ("Instance with id " ++ instanceID ++ " not exist")),
          instances)
    Update := fun instances inst =>
      (.ok { inst with Version := inst.Version + 1 },
        instances.map (fun i => if i.InstanceID = inst.InstanceID
          then { inst with Version := inst.Version + 1 } else i))
    Delete := fun instances instanceID =>
      (none, instances.filter (fun i => decide (i.InstanceID ≠ instanceID)))
    UpdateOperation := fun instances operation update => ((update operation, 0, none), instances)
    Now := fun _ => 1000 }

/-- A world in which the instance of `deprovisionOp` is already gone. -/
def worldWithoutInstance : deprovisioning.World (List deprovisioning.Instance) :=
  { state := [{ InstanceID := "inst-2", RuntimeID := "abc" }] }

/-- A removal operation with the temporary-suspension flag. -/
def suspensionOp : Operation :=
  { ID := "op-7", InstanceID := "inst-1", Type_ := OperationTypeDeprovision,
    State := "in progress", Version := 4, RuntimeID := "abc", Temporary := true,
    ProvisioningParameters := { ErsContext := { UserID := "user-1" } } }

/-- A removal operation that is permanent and has no step left to replay. -/
def permanentOp : Operation :=
  { ID := "op-8", InstanceID := "inst-1", Type_ := OperationTypeDeprovision,
    State := "in progress", Version := 2, RuntimeID := "abc",
    ProvisioningParameters := { ErsContext := { UserID := "user-1" } } }

/-- A removal operation with steps that were executed but not completed. -/
def replayOp : Operation :=
  { ID := "op-9", InstanceID := "inst-1", Type_ := OperationTypeDeprovision,
    State := "in progress", Version := 1, RuntimeID := "abc",
    ExcutedButNotCompleted := some ["Delete_Runtime"] }

/-- The in-memory operation store as the operation storage of the manager, beside a
list of instances. -/
def operationStorage : process.Operations (List deprovisioning.Instance × memory.operations) :=
  { UpdateOperation := fun st op =>
      ((st.2.UpdateOperation op).1, (st.1, (st.2.UpdateOperation op).2))
    GetOperationByID := fun st operationID => (st.2.GetOperationByID operationID, st) }

/-- A step over storages that never fail: a list of instances, and the in-memory
operation store behind the operation manager. -/
def managedStep :
    deprovisioning.RemoveInstanceStep (List deprovisioning.Instance × memory.operations) :=
  { GetByID := fun st instanceID => ((step.GetByID st.1 instanceID).1, st)
    Update := fun st inst => ((step.Update st.1 inst).1, ((step.Update st.1 inst).2, st.2))
    Delete := fun st instanceID => (none, ((step.Delete st.1 instanceID).2, st.2))
    UpdateOperation := process.OperationManager.UpdateOperation operationStorage (60 * Second)
    Now := fun _ => 1000 }

/-- A step whose instance storage answers every call with an internal error. -/
def brokenStep : deprovisioning.RemoveInstanceStep (List deprovisioning.Instance) :=
  { step with
    GetByID := fun instances _ => (.error (Err.Internal "connection refused"), instances)
    Update := fun instances _ => (.error (Err.Internal "connection refused"), instances)
    Delete := fun instances _ => (some (Err.Internal "connection refused"), instances) }

/-- A step whose instance storage reads but refuses every write. -/
def readOnlyStep : deprovisioning.RemoveInstanceStep (List deprovisioning.Instance) :=
  { step with
    Update := fun instances _ => (.error (Err.Internal "read-only transaction"), instances)
    Delete := fun instances _ => (some (Err.Internal "read-only transaction"), instances) }

/-- The instances held by the example storages. -/
def instances : List deprovisioning.Instance :=
  [{ InstanceID := "inst-1", RuntimeID := "abc", Version := 5 },
   { InstanceID := "inst-2", RuntimeID := "def" }]

/-- The operation store holding the three removal operations. -/
def removalStore : memory.operations :=
  let s := memory.NewOperation
  let s := (s.InsertOperation suspensionOp).2
  let s := (s.InsertOperation permanentOp).2
  (s.InsertOperation replayOp).2

/-- A world with the example instances and the three removal operations. -/
def managedWorld : deprovisioning.World (List deprovisioning.Instance × memory.operations) :=
  { state := (instances, removalStore) }

/-- A world with the example instances. -/
def world : deprovisioning.World (List deprovisioning.Instance) :=
  { state := instances }

/-- A step whose instance storage finds the instance at the first lookup and reports
NotFound from then on; the state counts the lookups. -/
def vanishingStep : deprovisioning.RemoveInstanceStep Nat :=
  { GetByID := fun n instanceID =>
      if n = 0 then (.ok { InstanceID := instanceID, RuntimeID := "abc" }, n + 1)
      else (.error (Err.NotFound ("Instance with id " ++ instanceID ++ " not exist")), n + 1)
    Update := fun n inst => (.ok inst, n)
    Delete := fun n _ => (none, n)
    UpdateOperation := fun n operation update => ((update operation, 0, none), n)
    Now := fun _ => 1000 }

/-- The queue item of the scenario of the spec. -/
def queueItem : kymacustomresource.QueueElement :=
  { SubaccountID := "S1", BetaEnabled := "true", UsedForProduction := "false" }

/-- A Kyma resource of subaccount "S1" that carries the subaccount label only. -/
def kymaS1 : kymacustomresource.Unstructured :=
  { name := "kyma-1",
    labels := some { entries := [("kyma-project.io/subaccount-id", "S1")] } }

/-- A Kyma resource of subaccount "S1" whose updates the cluster rejects. -/
def kymaLocked : kymacustomresource.Unstructured :=
  { name := "kyma-locked",
    labels := some { entries := [("kyma-project.io/subaccount-id", "S1"),
                                 ("operator.kyma-project.io/beta", "false")] } }

/-- A Kyma resource of another subaccount, without labels of the operator. -/
def kymaS2 : kymacustomresource.Unstructured :=
  { name := "kyma-2",
    labels := some { entries := [("kyma-project.io/subaccount-id", "S2")] } }

/-- An updater on a queue kept as a list and a cluster kept as the list of its Kyma
resources; the cluster rejects every update of the resource "kyma-locked". -/
def updater : kymacustomresource.Updater
    (List kymacustomresource.QueueElement × List kymacustomresource.Unstructured) :=
  { Extract := fun st =>
      match st.1 with
      | [] => (none, st)
      | item :: rest => (some item, (rest, st.2))
    Insert := fun st item => (st.1 ++ [item], st.2)
    List := fun st labelSelector =>
      (.ok (st.2.filter (fun un =>
        match un.labels with
        | none => false
        | some labels =>
          match labels.get? kymacustomresource.subaccountIdLabelKey with
          | none => false
          | some v => decide (kymacustomresource.subaccountIdLabelFormat v = labelSelector))),
        st)
    Update := fun st un =>
      if un.name = "kyma-locked" then (some (Err.Conflict "the object has been modified"), st)
      else (none, (st.1, st.2.map (fun old => if old.name = un.name then un else old)))
    sleepDuration := 10 * Second }

/-- The same updater on a cluster that cannot be reached for listing. -/
def offlineUpdater : kymacustomresource.Updater
    (List kymacustomresource.QueueElement × List kymacustomresource.Unstructured) :=
  { updater with
    List := fun st _ => (.error (Err.Internal "connection refused"), st) }

/-- Write collaborators that encrypt nothing, encode every parameter block as "{}", and
turn a string into a null string that is valid unless the string is empty. -/
def writeCollaborators : postsql.WriteCollaborators :=
  { EncryptSMCreds := fun pp => (none, pp)
    EncryptKubeconfig := fun pp => (none, pp)
    marshalParameters := fun _ => .ok "{}"
    StringToSQLNullString := fun s => { String := s, Valid := decide (s ≠ "") } }

/-- An operation with three finished stages. -/
def stagedOp : Operation :=
  { ID := "op-10", InstanceID := "inst-1", Type_ := OperationTypeProvision,
    FinishedStages := ["start", "create_runtime", "check_kyma"] }

/-- An operation with a finished stage that is empty and one that contains a comma. -/
def oddStagedOp : Operation :=
  { ID := "op-11", InstanceID := "inst-1", Type_ := OperationTypeProvision,
    FinishedStages := ["start", "", "check,kyma"] }

/-- The call `json.Marshal` on an operation, on the operations of the examples: the flag
`temporary` is written when it is set, and the provisioning parameters are not part of
the payload. -/
def marshalOperation (op : Operation) : Except Err String :=
  if op.Temporary then .ok "\x7b\"temporary\":true\x7d" else .ok "{}"

/-- The write session of the database of `session`: an insert of a stored ID reports a
duplicate, and an update of an ID that is not stored at the given version updates no
row. -/
def writeSession : postsql.WriteSession (List postsql.OperationDTO) :=
  { InsertOperation := fun rows dto =>
      if rows.any (fun row => decide (row.ID = dto.ID)) then
        (some (Err.AlreadyExists "duplicate key value violates unique constraint"), rows)
      else (none, rows ++ [dto])
    UpdateOperation := fun rows dto =>
      if rows.any (fun row => decide (row.ID = dto.ID ∧ row.Version = dto.Version)) then
        (none, rows.map (fun row =>
          if row.ID = dto.ID then { dto with Version := dto.Version + 1 } else row))
      else (some (Err.NotFound "Cannot find Operation"), rows) }

/-- The Postgres operation store on the database of `session`, with a cipher that
changes nothing. -/
def database (retries : Nat) : postsql.operations (List postsql.OperationDTO) :=
  { readSession := session
    writeSession := writeSession
    ListOperationsByType := fun rows operationType =>
      ((rows.filter (fun row => decide (row.Type_ = operationType)), none), rows)
    encoding := writeCollaborators
    decoding := collaborators
    marshalOperation := marshalOperation
    Now := fun _ => 1000
    retries := retries }

/-- The same store when no listing reaches the database. -/
def offlineDatabase (retries : Nat) : postsql.operations (List postsql.OperationDTO) :=
  { readSession := session
    writeSession := writeSession
    ListOperationsByType := fun rows _ =>
      (([], some (Err.Internal "connection refused")), rows)
    encoding := writeCollaborators
    decoding := collaborators
    marshalOperation := marshalOperation
    Now := fun _ => 1000
    retries := retries }

/-- The same store with a cipher that cannot encrypt a kubeconfig. -/
def keylessDatabase (retries : Nat) : postsql.operations (List postsql.OperationDTO) :=
  { readSession := session
    writeSession := writeSession
    ListOperationsByType := fun rows operationType =>
      ((rows.filter (fun row => decide (row.Type_ = operationType)), none), rows)
    encoding :=
      { EncryptSMCreds := fun pp => (none, pp)
        EncryptKubeconfig := fun pp => (some (Err.Plain "crypto/aes: invalid key size 0"), pp)
        marshalParameters := fun _ => .ok "{}"
        StringToSQLNullString := fun s => { String := s, Valid := decide (s ≠ "") } }
    decoding := collaborators
    marshalOperation := marshalOperation
    Now := fun _ => 1000
    retries := retries }

/-- Collaborators of a store whose rows hold credentials that its cipher cannot
decrypt. -/
def plainCredentialsCollaborators : postsql.Collaborators :=
  { DecryptSMCreds := fun pp =>
      (some (Err.Plain "cipher: message authentication failed"), pp)
    DecryptKubeconfig := fun pp => (none, pp)
    unmarshalParameters := unmarshalParameters
    unmarshalOperation := unmarshalOperation
    SQLNullStringToString := fun ns => if ns.Valid then ns.String else "" }

/-- Collaborators of a store whose rows hold a kubeconfig in plain text: decrypting it
fails and leaves the parameters as they are. -/
def plainKubeconfigCollaborators : postsql.Collaborators :=
  { DecryptSMCreds := fun pp => (none, pp)
    DecryptKubeconfig := fun pp => (some (Err.Plain "illegal base64 data at input byte 0"), pp)
    unmarshalParameters := unmarshalParameters
    unmarshalOperation := unmarshalOperation
    SQLNullStringToString := fun ns => if ns.Valid then ns.String else "" }

/-- A row of the operations table with provisioning parameters. -/
def legacyRow : postsql.OperationDTO :=
  { ID := "op-1", InstanceID := "inst-1", Type_ := OperationTypeProvision, CreatedAt := 10,
    Data := "{}", ProvisioningParameters := { String := "{}", Valid := true } }

/-- A row of the instances table. -/
def legacyInstanceRow : postsql.InstanceDTO :=
  { InstanceID := "inst-1", RuntimeID := "abc", ProvisioningParameters := "{}",
    Version := 5 }

/-- The Postgres instance store on a database that never fails: its state is the list of
the joined rows that a listing returns. -/
def instanceStore (c : postsql.Collaborators) :
    postsql.Instance (List postsql.InstanceWithOperationDTO) :=
  { FindAllInstancesJoinedWithOperation := fun rows => ((rows, none), rows)
    decoding := c
    retries := 3 }

/-- A row of the legacy upgrade-Kyma type. -/
def legacyKymaRow : postsql.OperationDTO :=
  { ID := "op-6", InstanceID := "inst-1", Type_ := OperationTypeUpgradeKyma, CreatedAt := 25,
    Data := "{}" }

/-- A row of a type that the store does not know. -/
def unknownRow : postsql.OperationDTO :=
  { ID := "op-7", InstanceID := "inst-1", Type_ := "suspension", CreatedAt := 60,
    Data := "{}" }

/-- Rows of "inst-1" in the order of a listing, a legacy row among them. -/
def rowsWithLegacy : List postsql.OperationDTO :=
  [provisionRowNew, legacyKymaRow, upgradeRowOld, provisionRowOld, deprovisionRow]

/-- The helpers of `ListOperations`: a filter without states matches every operation, and
the offset of a page is the number of operations on the pages before it. -/
def helpers : memory.Helpers :=
  { matchFilter := fun value filters equal =>
      filters.isEmpty || filters.any (fun state => equal value state)
    ConvertPageAndPageSizeToOffset := fun pageSize page =>
      if page < 2 then 0 else page * pageSize - pageSize }

/-- Collaborators whose `json.Unmarshal` rejects the empty input and reads the flag
`temporary` of an operation. -/
def decoder : postsql.Collaborators := collaborators

/-- A joined row of "inst-1" with a deprovisioning operation whose data column is
empty. -/
def emptyDataRow : postsql.InstanceWithOperationDTO :=
  { InstanceDTO := legacyInstanceRow
    Type_ := { String := "deprovision", Valid := true }
    State := { String := "in progress", Valid := true }
    OperationCreatedAt := { Time := 20, Valid := true } }

/-- A joined row of "inst-1" with a suspension: a deprovisioning operation with the
flag `temporary`. -/
def suspensionRow : postsql.InstanceWithOperationDTO :=
  { InstanceDTO := legacyInstanceRow
    Type_ := { String := "deprovision", Valid := true }
    State := { String := "succeeded", Valid := true }
    OperationCreatedAt := { Time := 20, Valid := true }
    Data := { String := "\x7b\"temporary\":true\x7d", Valid := true } }

/-- A joined row of "inst-1" with a provisioning operation. -/
def provisioningRow : postsql.InstanceWithOperationDTO :=
  { InstanceDTO := legacyInstanceRow
    Type_ := { String := "provision", Valid := true }
    State := { String := "succeeded", Valid := true }
    OperationCreatedAt := { Time := 10, Valid := true }
    Data := { String := "\x7b\"temporary\":true\x7d", Valid := true } }

/-- An operation whose Version is the largest value of a Go `int`. -/
def lastVersionOp : Operation :=
  { ID := "op-9", InstanceID := "inst-9", Type_ := OperationTypeProvision,
    State := "in progress", Version := 9223372036854775807, CreatedAt := 90 }

/-- The store after the insert of `lastVersionOp` into an empty store. -/
def lastVersionStore : memory.operations :=
  (memory.NewOperation.InsertOperation lastVersionOp).2

/-- A suspension operation of "inst-1" that the operation store does not hold: its
update fails. -/
def staleSuspensionOp : Operation :=
  { ID := "op-70", InstanceID := "inst-1", Type_ := OperationTypeDeprovision,
    State := "in progress", Version := 4, RuntimeID := "abc", Temporary := true }

end Example

/-! ## Lemmas on Go maps -/

namespace GoMap

variable {V : Type}

theorem lookupEntries_assignEntries_self (es : List (String × V)) (key : String) (val : V) :
    lookupEntries (assignEntries es key val) key = some val := by
  induction es with
  | nil => simp [assignEntries, lookupEntries]
  | cons e rest ih =>
    obtain ⟨k, v⟩ := e
    by_cases h : k = key
    · simp [assignEntries, lookupEntries, h]
    · simp [assignEntries, lookupEntries, h, ih]

theorem get?_set_self (m : GoMap V) (key : String) (val : V) :
    (m.set key val).get? key = some val :=
  lookupEntries_assignEntries_self m.entries key val

end GoMap


/-! ## Optimistic locking of the in-memory store -/

/-- Adding 1 to a Go `int` below `math.MaxInt` does not wrap. -/
theorem wrapInt_succ (v : Int) (hmin : MinInt ≤ v) (hmax : v < MaxInt) :
    wrapInt (v + 1) = v + 1 := by
  unfold MinInt at hmin
  unfold MaxInt at hmax
  unfold wrapInt
  omega

/-- Counterexample to C1 as stated: the store holds "op-9" at Version
9223372036854775807, the largest `int`; `UpdateOperation` of that operation at that
version succeeds, and the Version it returns and stores is -9223372036854775808, not
9223372036854775807 + 1. -/
theorem C1_version_wraps_counterexample :
    Example.lastVersionStore.operations.get? "op-9" = some Example.lastVersionOp ∧
    Example.lastVersionOp.Version = 9223372036854775807 ∧
    (Example.lastVersionStore.UpdateOperation Example.lastVersionOp).1 =
      .ok { Example.lastVersionOp with Version := -9223372036854775808 } ∧
    (Example.lastVersionStore.UpdateOperation Example.lastVersionOp).2.operations.get? "op-9" =
      some { Example.lastVersionOp with Version := -9223372036854775808 } ∧
    (Example.lastVersionStore.UpdateOperation Example.lastVersionOp).1 ≠
      .ok { Example.lastVersionOp with Version := 9223372036854775807 + 1 } := by
  refine ⟨by decide, by decide, by decide, by decide, by decide⟩

/-- C1, amended: in the in-memory store, when the table of the kind holds an operation
under ID `i` at Version `v`, and `v` is an `int` below `math.MaxInt`, every
`Update<Kind>` of an operation with ID `i` and Version `v` succeeds, returns that
operation with Version `v + 1`, and leaves the returned operation stored under `i`. -/
theorem C1_update_at_stored_version (s : memory.operations) (i : String) (v : Int)
    (hmin : MinInt ≤ v) (hmax : v < MaxInt) :
    (∀ old op : Operation, s.operations.get? i = some old → old.Version = v →
        op.ID = i → op.Version = v →
        ∃ s', s.UpdateOperation op = (.ok { op with Version := v + 1 }, s') ∧
          s'.operations.get? i = some { op with Version := v + 1 }) ∧
    (∀ (old : Operation) (op : ProvisioningOperation),
        s.operations.get? i = some old → old.Version = v →
        op.Operation.ID = i → op.Operation.Version = v →
        ∃ s', s.UpdateProvisioningOperation op =
            (.ok { Operation := { op.Operation with Version := v + 1 } }, s') ∧
          s'.operations.get? i = some { op.Operation with Version := v + 1 }) ∧
    (∀ (old : Operation) (op : DeprovisioningOperation),
        s.operations.get? i = some old → old.Version = v →
        op.Operation.ID = i → op.Operation.Version = v →
        ∃ s', s.UpdateDeprovisioningOperation op =
            (.ok { Operation := { op.Operation with Version := v + 1 } }, s') ∧
          s'.operations.get? i = some { op.Operation with Version := v + 1 }) ∧
    (∀ old op : UpgradeClusterOperation,
        s.upgradeClusterOperations.get? i = some old → old.Operation.Version = v →
        op.Operation.ID = i → op.Operation.Version = v →
        ∃ s', s.UpdateUpgradeClusterOperation op =
            (.ok { Operation := { op.Operation with Version := v + 1 } }, s') ∧
          s'.upgradeClusterOperations.get? i =
            some { Operation := { op.Operation with Version := v + 1 } }) ∧
    (∀ old op : UpdatingOperation,
        s.updateOperations.get? i = some old → old.Operation.Version = v →
        op.Operation.ID = i → op.Operation.Version = v →
        ∃ s', s.UpdateUpdatingOperation op =
            (.ok { Operation := { op.Operation with Version := v + 1 } }, s') ∧
          s'.updateOperations.get? i =
            some { Operation := { op.Operation with Version := v + 1 } }) := by
  have hw : wrapInt (v + 1) = v + 1 := wrapInt_succ v hmin hmax
  refine ⟨?_, ?_, ?_, ?_, ?_⟩
  · intro old op hget hold hid hver
    subst hid
    have h : s.UpdateOperation op = (.ok { op with Version := v + 1 },
        { s with operations := s.operations.set op.ID { op with Version := v + 1 } }) := by
      simp [memory.operations.UpdateOperation, hget, hold, hver, hw]
    exact ⟨_, h, GoMap.get?_set_self _ _ _⟩
  · intro old op hget hold hid hver
    subst hid
    have h : s.UpdateProvisioningOperation op =
        (.ok { Operation := { op.Operation with Version := v + 1 } },
        { s with operations :=
            s.operations.set op.Operation.ID { op.Operation with Version := v + 1 } }) := by
      simp [memory.operations.UpdateProvisioningOperation, hget, hold, hver, hw]
    exact ⟨_, h, GoMap.get?_set_self _ _ _⟩
  · intro old op hget hold hid hver
    subst hid
    have h : s.UpdateDeprovisioningOperation op =
        (.ok { Operation := { op.Operation with Version := v + 1 } },
        { s with operations :=
            s.operations.set op.Operation.ID { op.Operation with Version := v + 1 } }) := by
      simp [memory.operations.UpdateDeprovisioningOperation, hget, hold, hver, hw]
    exact ⟨_, h, GoMap.get?_set_self _ _ _⟩
  · intro old op hget hold hid hver
    subst hid
    have h : s.UpdateUpgradeClusterOperation op =
        (.ok { Operation := { op.Operation with Version := v + 1 } },
        { s with upgradeClusterOperations := (s.upgradeClusterOperations.set op.Operation.ID
            ⟨{ op.Operation with Version := v + 1 }⟩) }) := by
      simp [memory.operations.UpdateUpgradeClusterOperation, hget, hold, hver, hw]
    exact ⟨_, h, GoMap.get?_set_self _ _ _⟩
  · intro old op hget hold hid hver
    subst hid
    have h : s.UpdateUpdatingOperation op =
        (.ok { Operation := { op.Operation with Version := v + 1 } },
        { s with updateOperations := (s.updateOperations.set op.Operation.ID
            ⟨{ op.Operation with Version := v + 1 }⟩) }) := by
      simp [memory.operations.UpdateUpdatingOperation, hget, hold, hver, hw]
    exact ⟨_, h, GoMap.get?_set_self _ _ _⟩

/-- Witness of C1: the five updates on the example store, each at the stored version. -/
theorem C1_update_at_stored_version_witness :
    (∃ s', Example.store.UpdateOperation { Example.provisionOp with Description := "done" } =
        (.ok { Example.provisionOp with Description := "done", Version := 3 + 1 }, s') ∧
      s'.operations.get? "op-1" =
        some { Example.provisionOp with Description := "done", Version := 3 + 1 }) ∧
    (∃ s', Example.store.UpdateProvisioningOperation { Operation := Example.provisionOp } =
        (.ok { Operation := { Example.provisionOp with Version := 3 + 1 } }, s') ∧
      s'.operations.get? "op-1" = some { Example.provisionOp with Version := 3 + 1 }) ∧
    (∃ s', Example.store.UpdateDeprovisioningOperation { Operation := Example.deprovisionOp } =
        (.ok { Operation := { Example.deprovisionOp with Version := 0 + 1 } }, s') ∧
      s'.operations.get? "op-2" = some { Example.deprovisionOp with Version := 0 + 1 }) ∧
    (∃ s', Example.store.UpdateUpgradeClusterOperation Example.upgradeOp =
        (.ok { Operation := { Example.upgradeOp.Operation with Version := 7 + 1 } }, s') ∧
      s'.upgradeClusterOperations.get? "op-4" =
        some { Operation := { Example.upgradeOp.Operation with Version := 7 + 1 } }) ∧
    (∃ s', Example.store.UpdateUpdatingOperation Example.updateOp =
        (.ok { Operation := { Example.updateOp.Operation with Version := 2 + 1 } }, s') ∧
      s'.updateOperations.get? "op-5" =
        some { Operation := { Example.updateOp.Operation with Version := 2 + 1 } }) :=
  ⟨(C1_update_at_stored_version Example.store "op-1" 3 (by decide) (by decide)).1
      Example.provisionOp { Example.provisionOp with Description := "done" }
      (by decide) (by decide) rfl rfl,
   (C1_update_at_stored_version Example.store "op-1" 3 (by decide) (by decide)).2.1
      Example.provisionOp { Operation := Example.provisionOp } (by decide) (by decide) rfl rfl,
   (C1_update_at_stored_version Example.store "op-2" 0 (by decide) (by decide)).2.2.1
      Example.deprovisionOp { Operation := Example.deprovisionOp }
      (by decide) (by decide) rfl rfl,
   (C1_update_at_stored_version Example.store "op-4" 7 (by decide) (by decide)).2.2.2.1
      Example.upgradeOp Example.upgradeOp (by decide) (by decide) rfl rfl,
   (C1_update_at_stored_version Example.store "op-5" 2 (by decide) (by decide)).2.2.2.2
      Example.updateOp Example.updateOp (by decide) (by decide) rfl rfl⟩

/-- C2: in the in-memory store, when the table of the kind holds an operation under ID
`i` at Version `v`, every `Update<Kind>` of an operation with ID `i` and a Version other
than `v` returns a Conflict error, no operation, and the store it was called on. -/
theorem C2_update_at_other_version (s : memory.operations) (i : String) (v : Int) :
    (∀ old op : Operation, s.operations.get? i = some old → old.Version = v →
        op.ID = i → op.Version ≠ v →
        ∃ e, s.UpdateOperation op = (.error e, s) ∧ e.IsConflict = true) ∧
    (∀ (old : Operation) (op : ProvisioningOperation),
        s.operations.get? i = some old → old.Version = v →
        op.Operation.ID = i → op.Operation.Version ≠ v →
        ∃ e, s.UpdateProvisioningOperation op = (.error e, s) ∧ e.IsConflict = true) ∧
    (∀ (old : Operation) (op : DeprovisioningOperation),
        s.operations.get? i = some old → old.Version = v →
        op.Operation.ID = i → op.Operation.Version ≠ v →
        ∃ e, s.UpdateDeprovisioningOperation op = (.error e, s) ∧ e.IsConflict = true) ∧
    (∀ old op : UpgradeClusterOperation,
        s.upgradeClusterOperations.get? i = some old → old.Operation.Version = v →
        op.Operation.ID = i → op.Operation.Version ≠ v →
        ∃ e, s.UpdateUpgradeClusterOperation op = (.error e, s) ∧ e.IsConflict = true) ∧
    (∀ old op : UpdatingOperation,
        s.updateOperations.get? i = some old → old.Operation.Version = v →
        op.Operation.ID = i → op.Operation.Version ≠ v →
        ∃ e, s.UpdateUpdatingOperation op = (.error e, s) ∧ e.IsConflict = true) := by
  refine ⟨?_, ?_, ?_, ?_, ?_⟩
  · intro old op hget hold hid hver
    subst hid
    have hne : old.Version ≠ op.Version := fun h => hver (h ▸ hold)
    refine ⟨?e1, ?h1, ?c1⟩
    case h1 => simp only [memory.operations.UpdateOperation, hget, if_pos hne]; exact rfl
    case c1 => rfl
  · intro old op hget hold hid hver
    subst hid
    have hne : old.Version ≠ op.Operation.Version := fun h => hver (h ▸ hold)
    refine ⟨?e2, ?h2, ?c2⟩
    case h2 => simp only [memory.operations.UpdateProvisioningOperation, hget, if_pos hne]; exact rfl
    case c2 => rfl
  · intro old op hget hold hid hver
    subst hid
    have hne : old.Version ≠ op.Operation.Version := fun h => hver (h ▸ hold)
    refine ⟨?e3, ?h3, ?c3⟩
    case h3 => simp only [memory.operations.UpdateDeprovisioningOperation, hget, if_pos hne]; exact rfl
    case c3 => rfl
  · intro old op hget hold hid hver
    subst hid
    have hne : old.Operation.Version ≠ op.Operation.Version := fun h => hver (h ▸ hold)
    refine ⟨?e4, ?h4, ?c4⟩
    case h4 => simp only [memory.operations.UpdateUpgradeClusterOperation, hget, if_pos hne]; exact rfl
    case c4 => rfl
  · intro old op hget hold hid hver
    subst hid
    have hne : old.Operation.Version ≠ op.Operation.Version := fun h => hver (h ▸ hold)
    refine ⟨?e5, ?h5, ?c5⟩
    case h5 => simp only [memory.operations.UpdateUpdatingOperation, hget, if_pos hne]; exact rfl
    case c5 => rfl

/-- Witness of C2: the five updates on the example store, each at a stale version. -/
theorem C2_update_at_other_version_witness :
    (∃ e, Example.store.UpdateOperation { Example.provisionOp with Version := 2 } =
        (.error e, Example.store) ∧ e.IsConflict = true) ∧
    (∃ e, Example.store.UpdateProvisioningOperation
        { Operation := { Example.provisionOp with Version := 4 } } =
        (.error e, Example.store) ∧ e.IsConflict = true) ∧
    (∃ e, Example.store.UpdateDeprovisioningOperation
        { Operation := { Example.deprovisionOp with Version := 1 } } =
        (.error e, Example.store) ∧ e.IsConflict = true) ∧
    (∃ e, Example.store.UpdateUpgradeClusterOperation
        { Operation := { Example.upgradeOp.Operation with Version := 6 } } =
        (.error e, Example.store) ∧ e.IsConflict = true) ∧
    (∃ e, Example.store.UpdateUpdatingOperation
        { Operation := { Example.updateOp.Operation with Version := 0 } } =
        (.error e, Example.store) ∧ e.IsConflict = true) :=
  ⟨(C2_update_at_other_version Example.store "op-1" 3).1 Example.provisionOp
      { Example.provisionOp with Version := 2 } (by decide) (by decide) rfl (by decide),
   (C2_update_at_other_version Example.store "op-1" 3).2.1 Example.provisionOp
      { Operation := { Example.provisionOp with Version := 4 } }
      (by decide) (by decide) rfl (by decide),
   (C2_update_at_other_version Example.store "op-2" 0).2.2.1 Example.deprovisionOp
      { Operation := { Example.deprovisionOp with Version := 1 } }
      (by decide) (by decide) rfl (by decide),
   (C2_update_at_other_version Example.store "op-4" 7).2.2.2.1 Example.upgradeOp
      { Operation := { Example.upgradeOp.Operation with Version := 6 } }
      (by decide) (by decide) rfl (by decide),
   (C2_update_at_other_version Example.store "op-5" 2).2.2.2.2 Example.updateOp
      { Operation := { Example.updateOp.Operation with Version := 0 } }
      (by decide) (by decide) rfl (by decide)⟩

/-! ## Inserts into the in-memory store -/

theorem InsertOperation_stored (s s1 : memory.operations) (op : Operation)
    (h : s.InsertOperation op = (none, s1)) : s1.operations.get? op.ID = some op := by
  unfold memory.operations.InsertOperation at h
  cases hget : s.operations.get? op.ID with
  | some old => simp [hget] at h
  | none =>
    simp only [hget, Prod.mk.injEq, true_and] at h
    subst h
    exact GoMap.get?_set_self _ _ _

theorem InsertProvisioningOperation_stored (s s1 : memory.operations)
    (op : ProvisioningOperation) (h : s.InsertProvisioningOperation op = (none, s1)) :
    s1.operations.get? op.Operation.ID = some op.Operation := by
  unfold memory.operations.InsertProvisioningOperation at h
  cases hget : s.operations.get? op.Operation.ID with
  | some old => simp [hget] at h
  | none =>
    simp only [hget, Prod.mk.injEq, true_and] at h
    subst h
    exact GoMap.get?_set_self _ _ _

theorem InsertDeprovisioningOperation_stored (s s1 : memory.operations)
    (op : DeprovisioningOperation) (h : s.InsertDeprovisioningOperation op = (none, s1)) :
    s1.operations.get? op.Operation.ID = some op.Operation := by
  unfold memory.operations.InsertDeprovisioningOperation at h
  cases hget : s.operations.get? op.Operation.ID with
  | some old => simp [hget] at h
  | none =>
    simp only [hget, Prod.mk.injEq, true_and] at h
    subst h
    exact GoMap.get?_set_self _ _ _

theorem InsertUpgradeClusterOperation_stored (s s1 : memory.operations)
    (op : UpgradeClusterOperation) (h : s.InsertUpgradeClusterOperation op = (none, s1)) :
    s1.upgradeClusterOperations.get? op.Operation.ID = some op := by
  unfold memory.operations.InsertUpgradeClusterOperation at h
  cases hget : s.upgradeClusterOperations.get? op.Operation.ID with
  | some old => simp [hget] at h
  | none =>
    simp only [hget, Prod.mk.injEq, true_and] at h
    subst h
    exact GoMap.get?_set_self _ _ _

theorem InsertUpdatingOperation_stored (s s1 : memory.operations)
    (op : UpdatingOperation) (h : s.InsertUpdatingOperation op = (none, s1)) :
    s1.updateOperations.get? op.Operation.ID = some op := by
  unfold memory.operations.InsertUpdatingOperation at h
  cases hget : s.updateOperations.get? op.Operation.ID with
  | some old => simp [hget] at h
  | none =>
    simp only [hget, Prod.mk.injEq, true_and] at h
    subst h
    exact GoMap.get?_set_self _ _ _

/-- C3: in the in-memory store, after an `Insert<Kind>Operation` has succeeded, a second
insert of the same kind with the same ID, whatever its other fields, returns
AlreadyExists and leaves the store as it was, with the first record under that ID. -/
theorem C3_second_insert_already_exists (s s1 : memory.operations) :
    (∀ op op2 : Operation, s.InsertOperation op = (none, s1) → op2.ID = op.ID →
        ∃ e, s1.InsertOperation op2 = (some e, s1) ∧ e.IsAlreadyExists = true ∧
          s1.operations.get? op.ID = some op) ∧
    (∀ op op2 : ProvisioningOperation, s.InsertProvisioningOperation op = (none, s1) →
        op2.Operation.ID = op.Operation.ID →
        ∃ e, s1.InsertProvisioningOperation op2 = (some e, s1) ∧ e.IsAlreadyExists = true ∧
          s1.operations.get? op.Operation.ID = some op.Operation) ∧
    (∀ op op2 : DeprovisioningOperation, s.InsertDeprovisioningOperation op = (none, s1) →
        op2.Operation.ID = op.Operation.ID →
        ∃ e, s1.InsertDeprovisioningOperation op2 = (some e, s1) ∧ e.IsAlreadyExists = true ∧
          s1.operations.get? op.Operation.ID = some op.Operation) ∧
    (∀ op op2 : UpgradeClusterOperation, s.InsertUpgradeClusterOperation op = (none, s1) →
        op2.Operation.ID = op.Operation.ID →
        ∃ e, s1.InsertUpgradeClusterOperation op2 = (some e, s1) ∧ e.IsAlreadyExists = true ∧
          s1.upgradeClusterOperations.get? op.Operation.ID = some op) ∧
    (∀ op op2 : UpdatingOperation, s.InsertUpdatingOperation op = (none, s1) →
        op2.Operation.ID = op.Operation.ID →
        ∃ e, s1.InsertUpdatingOperation op2 = (some e, s1) ∧ e.IsAlreadyExists = true ∧
          s1.updateOperations.get? op.Operation.ID = some op) := by
  refine ⟨?_, ?_, ?_, ?_, ?_⟩
  · intro op op2 h hid
    have hst := InsertOperation_stored s s1 op h
    refine ⟨?e1, ?h1, ?c1, hst⟩
    case h1 =>
      rw [← hid] at hst
      simp only [memory.operations.InsertOperation, hst]; exact rfl
    case c1 => rfl
  · intro op op2 h hid
    have hst := InsertProvisioningOperation_stored s s1 op h
    refine ⟨?e2, ?h2, ?c2, hst⟩
    case h2 =>
      rw [← hid] at hst
      simp only [memory.operations.InsertProvisioningOperation, hst]; exact rfl
    case c2 => rfl
  · intro op op2 h hid
    have hst := InsertDeprovisioningOperation_stored s s1 op h
    refine ⟨?e3, ?h3, ?c3, hst⟩
    case h3 =>
      rw [← hid] at hst
      simp only [memory.operations.InsertDeprovisioningOperation, hst]; exact rfl
    case c3 => rfl
  · intro op op2 h hid
    have hst := InsertUpgradeClusterOperation_stored s s1 op h
    refine ⟨?e4, ?h4, ?c4, hst⟩
    case h4 =>
      rw [← hid] at hst
      simp only [memory.operations.InsertUpgradeClusterOperation, hst]; exact rfl
    case c4 => rfl
  · intro op op2 h hid
    have hst := InsertUpdatingOperation_stored s s1 op h
    refine ⟨?e5, ?h5, ?c5, hst⟩
    case h5 =>
      rw [← hid] at hst
      simp only [memory.operations.InsertUpdatingOperation, hst]; exact rfl
    case c5 => rfl

/-- Witness of C3: a second insert with the same ID and other fields, for each kind,
after a first insert into the empty store. -/
theorem C3_second_insert_already_exists_witness :
    (∃ e, (memory.NewOperation.InsertOperation Example.provisionOp).2.InsertOperation
          { ID := "op-1", Description := "again" } =
        (some e, (memory.NewOperation.InsertOperation Example.provisionOp).2) ∧
      e.IsAlreadyExists = true ∧
      (memory.NewOperation.InsertOperation Example.provisionOp).2.operations.get? "op-1" =
        some Example.provisionOp) ∧
    (∃ e, (memory.NewOperation.InsertProvisioningOperation
            ⟨Example.provisionOp⟩).2.InsertProvisioningOperation
          ⟨{ ID := "op-1", Description := "again" }⟩ =
        (some e, (memory.NewOperation.InsertProvisioningOperation ⟨Example.provisionOp⟩).2) ∧
      e.IsAlreadyExists = true ∧
      (memory.NewOperation.InsertProvisioningOperation
          ⟨Example.provisionOp⟩).2.operations.get? "op-1" = some Example.provisionOp) ∧
    (∃ e, (memory.NewOperation.InsertDeprovisioningOperation
            ⟨Example.deprovisionOp⟩).2.InsertDeprovisioningOperation
          ⟨{ ID := "op-2", Description := "again" }⟩ =
        (some e, (memory.NewOperation.InsertDeprovisioningOperation
            ⟨Example.deprovisionOp⟩).2) ∧
      e.IsAlreadyExists = true ∧
      (memory.NewOperation.InsertDeprovisioningOperation
          ⟨Example.deprovisionOp⟩).2.operations.get? "op-2" = some Example.deprovisionOp) ∧
    (∃ e, (memory.NewOperation.InsertUpgradeClusterOperation
            Example.upgradeOp).2.InsertUpgradeClusterOperation
          ⟨{ ID := "op-4", Description := "again" }⟩ =
        (some e, (memory.NewOperation.InsertUpgradeClusterOperation Example.upgradeOp).2) ∧
      e.IsAlreadyExists = true ∧
      (memory.NewOperation.InsertUpgradeClusterOperation
          Example.upgradeOp).2.upgradeClusterOperations.get? "op-4" =
        some Example.upgradeOp) ∧
    (∃ e, (memory.NewOperation.InsertUpdatingOperation
            Example.updateOp).2.InsertUpdatingOperation
          ⟨{ ID := "op-5", Description := "again" }⟩ =
        (some e, (memory.NewOperation.InsertUpdatingOperation Example.updateOp).2) ∧
      e.IsAlreadyExists = true ∧
      (memory.NewOperation.InsertUpdatingOperation
          Example.updateOp).2.updateOperations.get? "op-5" = some Example.updateOp) :=
  ⟨(C3_second_insert_already_exists memory.NewOperation
      (memory.NewOperation.InsertOperation Example.provisionOp).2).1
      Example.provisionOp { ID := "op-1", Description := "again" } (by decide) rfl,
   (C3_second_insert_already_exists memory.NewOperation
      (memory.NewOperation.InsertProvisioningOperation ⟨Example.provisionOp⟩).2).2.1
      ⟨Example.provisionOp⟩ ⟨{ ID := "op-1", Description := "again" }⟩ (by decide) rfl,
   (C3_second_insert_already_exists memory.NewOperation
      (memory.NewOperation.InsertDeprovisioningOperation ⟨Example.deprovisionOp⟩).2).2.2.1
      ⟨Example.deprovisionOp⟩ ⟨{ ID := "op-2", Description := "again" }⟩ (by decide) rfl,
   (C3_second_insert_already_exists memory.NewOperation
      (memory.NewOperation.InsertUpgradeClusterOperation Example.upgradeOp).2).2.2.2.1
      Example.upgradeOp ⟨{ ID := "op-4", Description := "again" }⟩ (by decide) rfl,
   (C3_second_insert_already_exists memory.NewOperation
      (memory.NewOperation.InsertUpdatingOperation Example.updateOp).2).2.2.2.2
      Example.updateOp ⟨{ ID := "op-5", Description := "again" }⟩ (by decide) rfl⟩

/-! ## Lookups by ID -/

theorem getByID_notFound {β : Type} (session : postsql.ReadSession β) (retries : Nat)
    (db db' : β) (id : String) (dto : postsql.OperationDTO) (e : Err)
    (h : session.GetOperationByID db id = ((dto, some e), db')) (he : e.IsNotFound = true) :
    postsql.getByID session retries db id =
      (.error (Err.NotFound ("Operation with id " ++ id ++ " not exist")), db') := by
  cases retries <;> simp [postsql.getByID, postsql.PollUntilContextTimeout, h, he]

/-- C4 as stated fails: both stores hold an operation of Type deprovision, the in-memory
`GetProvisioningOperationByID` returns it, and the Postgres
`GetProvisioningOperationByID` fails with a conversion error that carries no NotFound. -/
theorem C4_type_mismatch_counterexample :
    Example.store.operations.get? "op-2" = some Example.deprovisionOp ∧
    Example.deprovisionOp.Type_ ≠ OperationTypeProvision ∧
    Example.store.GetProvisioningOperationByID "op-2" = .ok ⟨Example.deprovisionOp⟩ ∧
    Example.deprovisionRow.Type_ ≠ OperationTypeProvision ∧
    postsql.GetProvisioningOperationByID Example.collaborators Example.session 0
        [Example.provisionRowOld, Example.deprovisionRow] "op-3" =
      (.error (Err.Wrapped "while converting DTO to Operation"
        (Err.Plain "expected operation type Provisioning, but was deprovision")),
       [Example.provisionRowOld, Example.deprovisionRow]) ∧
    (Err.Wrapped "while converting DTO to Operation"
        (Err.Plain "expected operation type Provisioning, but was deprovision")).IsNotFound
      = false := by
  refine ⟨by decide, by decide, by decide, by decide, ?_, rfl⟩
  decide

/-- C4, amended: each of the four `Get<Kind>ByID` (Provisioning, Deprovisioning,
UpgradeCluster, Updating) of the in-memory store fails with NotFound when no operation
with the ID is stored in the table it reads; each of the four `Get<Kind>ByID` of the
Postgres store fails with a wrapped NotFound when the database reports the ID as absent,
and with a conversion error that carries no NotFound when the row it gets has a Type
other than the one of the requested view. -/
theorem C4_get_by_id_failures :
    (∀ (s : memory.operations) (id : String),
      (s.operations.get? id = none →
        ∃ e, s.GetProvisioningOperationByID id = .error e ∧ e.IsNotFound = true) ∧
      (s.operations.get? id = none →
        ∃ e, s.GetDeprovisioningOperationByID id = .error e ∧ e.IsNotFound = true) ∧
      (s.upgradeClusterOperations.get? id = none →
        ∃ e, s.GetUpgradeClusterOperationByID id = .error e ∧ e.IsNotFound = true) ∧
      ((∀ op ∈ s.updateOperations.values, op.Operation.ID ≠ id) →
        ∃ e, s.GetUpdatingOperationByID id = .error e ∧ e.IsNotFound = true)) ∧
    (∀ (β : Type) (c : postsql.Collaborators) (session : postsql.ReadSession β)
        (retries : Nat) (db db' : β) (id : String) (dto : postsql.OperationDTO) (e : Err),
      session.GetOperationByID db id = ((dto, some e), db') → e.IsNotFound = true →
      postsql.GetProvisioningOperationByID c session retries db id =
          (.error (Err.Wrapped "while getting operation by ID"
            (Err.NotFound ("Operation with id " ++ id ++ " not exist"))), db') ∧
      postsql.GetDeprovisioningOperationByID c session retries db id =
          (.error (Err.Wrapped "while getting operation by ID"
            (Err.NotFound ("Operation with id " ++ id ++ " not exist"))), db') ∧
      postsql.GetUpgradeClusterOperationByID c session retries db id =
          (.error (Err.Wrapped "while getting operation by ID"
            (Err.NotFound ("Operation with id " ++ id ++ " not exist"))), db') ∧
      postsql.GetUpdatingOperationByID c session retries db id =
          (.error (Err.Wrapped "while getting operation by ID"
            (Err.NotFound ("Operation with id " ++ id ++ " not exist"))), db')) ∧
    (∀ (β : Type) (c : postsql.Collaborators) (session : postsql.ReadSession β)
        (retries : Nat) (db db' : β) (id : String) (dto : postsql.OperationDTO),
      postsql.getByID session retries db id = (.ok dto, db') →
      (dto.Type_ ≠ OperationTypeProvision →
        ∃ e, postsql.GetProvisioningOperationByID c session retries db id = (.error e, db') ∧
          e.IsNotFound = false ∧ e.chainHasNotFound = false) ∧
      (dto.Type_ ≠ OperationTypeDeprovision →
        ∃ e, postsql.GetDeprovisioningOperationByID c session retries db id = (.error e, db') ∧
          e.IsNotFound = false ∧ e.chainHasNotFound = false) ∧
      (dto.Type_ ≠ OperationTypeUpgradeCluster →
        ∃ e, postsql.GetUpgradeClusterOperationByID c session retries db id = (.error e, db') ∧
          e.IsNotFound = false ∧ e.chainHasNotFound = false) ∧
      (dto.Type_ ≠ OperationTypeUpdate →
        ∃ e, postsql.GetUpdatingOperationByID c session retries db id = (.error e, db') ∧
          e.IsNotFound = false ∧ e.chainHasNotFound = false)) := by
  refine ⟨?_, ?_, ?_⟩
  · intro s id
    refine ⟨?_, ?_, ?_, ?_⟩
    · intro h
      exact ⟨Err.NotFound _, by simp only [memory.operations.GetProvisioningOperationByID, h]; exact rfl, rfl⟩
    · intro h
      exact ⟨Err.NotFound _, by simp only [memory.operations.GetDeprovisioningOperationByID, h]; exact rfl, rfl⟩
    · intro h
      exact ⟨Err.NotFound _, by simp only [memory.operations.GetUpgradeClusterOperationByID, h]; exact rfl, rfl⟩
    · intro h
      have hfind : s.updateOperations.values.find?
          (fun op => decide (op.Operation.ID = id)) = none := by
        rw [List.find?_eq_none]
        intro op hop
        simpa using h op hop
      exact ⟨Err.NotFound _, by simp only [memory.operations.GetUpdatingOperationByID, hfind]; exact rfl, rfl⟩
  · intro β c session retries db db' id dto e h he
    have hget := getByID_notFound session retries db db' id dto e h he
    refine ⟨?_, ?_, ?_, ?_⟩
    · simp only [postsql.GetProvisioningOperationByID, hget]
    · simp only [postsql.GetDeprovisioningOperationByID, hget]
    · simp only [postsql.GetUpgradeClusterOperationByID, hget]
    · simp only [postsql.GetUpdatingOperationByID, hget]
  · intro β c session retries db db' id dto hget
    refine ⟨?_, ?_, ?_, ?_⟩
    · intro hty
      refine ⟨Err.Wrapped "while converting DTO to Operation"
        (Err.Plain ("expected operation type Provisioning, but was " ++ dto.Type_)), ?_, rfl, rfl⟩
      simp only [postsql.GetProvisioningOperationByID, hget, postsql.toProvisioningOperation,
        if_pos hty]
    · intro hty
      refine ⟨Err.Wrapped "while converting DTO to Operation"
        (Err.Plain ("expected operation type Deprovision, but was " ++ dto.Type_)), ?_, rfl, rfl⟩
      simp only [postsql.GetDeprovisioningOperationByID, hget,
        postsql.toDeprovisioningOperation, if_pos hty]
    · intro hty
      refine ⟨Err.Wrapped "while converting DTO to Operation"
        (Err.Plain ("expected operation type upgradeCluster, but was " ++ dto.Type_)),
        ?_, rfl, rfl⟩
      simp only [postsql.GetUpgradeClusterOperationByID, hget,
        postsql.toUpgradeClusterOperation, if_pos hty]
    · intro hty
      refine ⟨Err.Wrapped "while converting DTO to Operation"
        (Err.Plain ("expected operation type update, but was " ++ dto.Type_)), ?_, rfl, rfl⟩
      simp only [postsql.GetUpdatingOperationByID, hget, postsql.toUpdateOperation,
        if_pos hty]

/-- Witness of the amended C4: an absent ID in each table of the example store, an
absent ID in the example database, and rows of the wrong Type in the example database. -/
theorem C4_get_by_id_failures_witness :
    ((∃ e, Example.store.GetProvisioningOperationByID "op-9" = .error e ∧
        e.IsNotFound = true) ∧
      (∃ e, Example.store.GetDeprovisioningOperationByID "op-9" = .error e ∧
        e.IsNotFound = true) ∧
      (∃ e, Example.store.GetUpgradeClusterOperationByID "op-1" = .error e ∧
        e.IsNotFound = true) ∧
      (∃ e, Example.store.GetUpdatingOperationByID "op-1" = .error e ∧
        e.IsNotFound = true)) ∧
    (postsql.GetProvisioningOperationByID Example.collaborators Example.session 3
          [Example.provisionRowOld] "op-9" =
        (.error (Err.Wrapped "while getting operation by ID"
          (Err.NotFound ("Operation with id " ++ "op-9" ++ " not exist"))),
         [Example.provisionRowOld]) ∧
      postsql.GetDeprovisioningOperationByID Example.collaborators Example.session 3
          [Example.provisionRowOld] "op-9" =
        (.error (Err.Wrapped "while getting operation by ID"
          (Err.NotFound ("Operation with id " ++ "op-9" ++ " not exist"))),
         [Example.provisionRowOld]) ∧
      postsql.GetUpgradeClusterOperationByID Example.collaborators Example.session 3
          [Example.provisionRowOld] "op-9" =
        (.error (Err.Wrapped "while getting operation by ID"
          (Err.NotFound ("Operation with id " ++ "op-9" ++ " not exist"))),
         [Example.provisionRowOld]) ∧
      postsql.GetUpdatingOperationByID Example.collaborators Example.session 3
          [Example.provisionRowOld] "op-9" =
        (.error (Err.Wrapped "while getting operation by ID"
          (Err.NotFound ("Operation with id " ++ "op-9" ++ " not exist"))),
         [Example.provisionRowOld])) ∧
    (∃ e, postsql.GetProvisioningOperationByID Example.collaborators Example.session 3
          [Example.provisionRowOld, Example.deprovisionRow] "op-3" =
        (.error e, [Example.provisionRowOld, Example.deprovisionRow]) ∧
      e.IsNotFound = false ∧ e.chainHasNotFound = false) ∧
    (∃ e, postsql.GetDeprovisioningOperationByID Example.collaborators Example.session 3
          [Example.provisionRowOld, Example.deprovisionRow] "op-1" =
        (.error e, [Example.provisionRowOld, Example.deprovisionRow]) ∧
      e.IsNotFound = false ∧ e.chainHasNotFound = false) ∧
    (∃ e, postsql.GetUpgradeClusterOperationByID Example.collaborators Example.session 3
          [Example.provisionRowOld, Example.deprovisionRow] "op-1" =
        (.error e, [Example.provisionRowOld, Example.deprovisionRow]) ∧
      e.IsNotFound = false ∧ e.chainHasNotFound = false) ∧
    (∃ e, postsql.GetUpdatingOperationByID Example.collaborators Example.session 3
          [Example.provisionRowOld, Example.deprovisionRow] "op-3" =
        (.error e, [Example.provisionRowOld, Example.deprovisionRow]) ∧
      e.IsNotFound = false ∧ e.chainHasNotFound = false) :=
  ⟨⟨(C4_get_by_id_failures.1 Example.store "op-9").1 (by decide),
    (C4_get_by_id_failures.1 Example.store "op-9").2.1 (by decide),
    (C4_get_by_id_failures.1 Example.store "op-1").2.2.1 (by decide),
    (C4_get_by_id_failures.1 Example.store "op-1").2.2.2 (by decide)⟩,
   C4_get_by_id_failures.2.1 _ Example.collaborators Example.session 3
     [Example.provisionRowOld] [Example.provisionRowOld] "op-9" {}
     (Err.NotFound "Cannot find Operation") (by decide) rfl,
   (C4_get_by_id_failures.2.2 _ Example.collaborators Example.session 3
     [Example.provisionRowOld, Example.deprovisionRow]
     [Example.provisionRowOld, Example.deprovisionRow] "op-3" Example.deprovisionRow
     (by decide)).1 (by decide),
   (C4_get_by_id_failures.2.2 _ Example.collaborators Example.session 3
     [Example.provisionRowOld, Example.deprovisionRow]
     [Example.provisionRowOld, Example.deprovisionRow] "op-1" Example.provisionRowOld
     (by decide)).2.1 (by decide),
   (C4_get_by_id_failures.2.2 _ Example.collaborators Example.session 3
     [Example.provisionRowOld, Example.deprovisionRow]
     [Example.provisionRowOld, Example.deprovisionRow] "op-1" Example.provisionRowOld
     (by decide)).2.2.1 (by decide),
   (C4_get_by_id_failures.2.2 _ Example.collaborators Example.session 3
     [Example.provisionRowOld, Example.deprovisionRow]
     [Example.provisionRowOld, Example.deprovisionRow] "op-3" Example.deprovisionRow
     (by decide)).2.2.2 (by decide)⟩

/-! ## Lemmas on `sort.Slice` -/

theorem insertByLess_perm {α : Type} (less : α → α → Bool) (x : α) (l : List α) :
    (insertByLess less x l).Perm (x :: l) := by
  induction l with
  | nil => simp [insertByLess]
  | cons y rest ih =>
    unfold insertByLess
    split
    · exact List.Perm.refl _
    · exact ((List.Perm.cons y ih).trans (List.Perm.swap x y rest))

theorem foldl_insertByLess_perm {α : Type} (less : α → α → Bool) (xs acc : List α) :
    (xs.foldl (fun acc x => insertByLess less x acc) acc).Perm (acc ++ xs) := by
  induction xs generalizing acc with
  | nil => simp
  | cons x rest ih =>
    simp only [List.foldl_cons]
    refine (ih (insertByLess less x acc)).trans ?_
    have h1 : (insertByLess less x acc ++ rest).Perm ((x :: acc) ++ rest) :=
      List.Perm.append_right rest (insertByLess_perm less x acc)
    refine h1.trans ?_
    simpa using (@List.perm_middle α x acc rest).symm

theorem sortSlice_perm {α : Type} (less : α → α → Bool) (xs : List α) :
    (sortSlice less xs).Perm xs := by
  simpa [sortSlice] using foldl_insertByLess_perm less xs []

theorem insertByLess_pairwise {α : Type} (less : α → α → Bool)
    (hasymm : ∀ a b, less a b = true → less b a = false)
    (htrans : ∀ a b c, less b a = false → less c b = false → less c a = false)
    (x : α) (l : List α) (hl : l.Pairwise (fun a b => less b a = false)) :
    (insertByLess less x l).Pairwise (fun a b => less b a = false) := by
  induction l with
  | nil => simp [insertByLess]
  | cons y rest ih =>
    rw [List.pairwise_cons] at hl
    unfold insertByLess
    by_cases hxy : less x y = true
    · rw [if_pos hxy]
      refine List.Pairwise.cons ?_ (List.Pairwise.cons hl.1 hl.2)
      intro z hz
      rcases List.mem_cons.1 hz with rfl | hz
      · exact hasymm _ _ hxy
      · exact htrans x y z (hasymm _ _ hxy) (hl.1 z hz)
    · rw [if_neg hxy]
      refine List.Pairwise.cons ?_ (ih hl.2)
      intro z hz
      rcases List.mem_cons.1 ((insertByLess_perm less x rest).mem_iff.1 hz) with rfl | hz
      · simpa using hxy
      · exact hl.1 z hz

theorem sortSlice_pairwise {α : Type} (less : α → α → Bool)
    (hasymm : ∀ a b, less a b = true → less b a = false)
    (htrans : ∀ a b c, less b a = false → less c b = false → less c a = false)
    (xs : List α) : (sortSlice less xs).Pairwise (fun a b => less b a = false) := by
  have key : ∀ (ys acc : List α), acc.Pairwise (fun a b => less b a = false) →
      (ys.foldl (fun acc x => insertByLess less x acc) acc).Pairwise
        (fun a b => less b a = false) := by
    intro ys
    induction ys with
    | nil => intro acc h; simpa using h
    | cons y rest ih =>
      intro acc h
      simp only [List.foldl_cons]
      exact ih _ (insertByLess_pairwise less hasymm htrans y acc h)
  exact key xs [] List.Pairwise.nil

/-- Sorting with `After` on a time key puts the keys in non-increasing order. -/
theorem sortSlice_After_pairwise {α : Type} (f : α → Time) (xs : List α) :
    (sortSlice (fun a b => Time.After (f a) (f b)) xs).Pairwise (fun a b => f b ≤ f a) := by
  have h := sortSlice_pairwise (fun a b => Time.After (f a) (f b))
    (by intro a b hab
        simp only [Time.After, decide_eq_true_eq, decide_eq_false_iff_not] at *
        exact lt_asymm hab)
    (by intro a b c h1 h2
        simp only [Time.After, decide_eq_false_iff_not, not_lt] at *
        exact le_trans h2 h1) xs
  refine h.imp ?_
  intro a b hab
  simpa only [Time.After, decide_eq_false_iff_not, not_lt] using hab

/-- Sorting with `Before` on a time key puts the keys in non-decreasing order. -/
theorem sortSlice_Before_pairwise {α : Type} (f : α → Time) (xs : List α) :
    (sortSlice (fun a b => Time.Before (f a) (f b)) xs).Pairwise (fun a b => f a ≤ f b) := by
  have h := sortSlice_pairwise (fun a b => Time.Before (f a) (f b))
    (by intro a b hab
        simp only [Time.Before, decide_eq_true_eq, decide_eq_false_iff_not] at *
        exact lt_asymm hab)
    (by intro a b c h1 h2
        simp only [Time.Before, decide_eq_false_iff_not, not_lt] at *
        exact le_trans h1 h2) xs
  refine h.imp ?_
  intro a b hab
  simpa only [Time.Before, decide_eq_false_iff_not, not_lt] using hab

/-- The first element of a non-empty slice sorted with `After` is an element of the slice
with the latest time. -/
theorem firstOf_sortSlice_After {α : Type} (f : α → Time) (xs : List α) (hne : xs ≠ []) :
    ∃ r, memory.firstOf (sortSlice (fun a b => Time.After (f a) (f b)) xs) = .ok r ∧
      r ∈ xs ∧
      ∀ x ∈ xs, f x ≤ f r := by
  have hperm := sortSlice_perm (fun a b => Time.After (f a) (f b)) xs
  have hsorted := sortSlice_After_pairwise f xs
  cases hs : sortSlice (fun a b => Time.After (f a) (f b)) xs with
  | nil =>
    rw [hs] at hperm
    exact absurd (List.Perm.nil_eq hperm).symm hne
  | cons r rest =>
    rw [hs] at hperm hsorted
    refine ⟨r, rfl, hperm.mem_iff.1 (List.mem_cons_self r rest), ?_⟩
    intro x hx
    rcases List.mem_cons.1 (hperm.mem_iff.2 hx) with rfl | hx
    · exact le_refl _
    · exact (List.pairwise_cons.1 hsorted).1 x hx

/-! ## The latest operation of an instance -/

theorem mem_provisioning_result (s : memory.operations) (instanceID : String)
    (p : ProvisioningOperation) :
    p ∈ s.operations.values.filterMap (fun op =>
        if op.InstanceID = instanceID ∧ op.Type_ = OperationTypeProvision
        then some ({ Operation := op } : ProvisioningOperation) else none) ↔
      p.Operation ∈ s.operations.values ∧ p.Operation.InstanceID = instanceID ∧
        p.Operation.Type_ = OperationTypeProvision := by
  rw [List.mem_filterMap]
  constructor
  · rintro ⟨op, hop, h⟩
    by_cases hc : op.InstanceID = instanceID ∧ op.Type_ = OperationTypeProvision
    · rw [if_pos hc] at h
      cases h
      exact ⟨hop, hc.1, hc.2⟩
    · rw [if_neg hc] at h
      cases h
  · rintro ⟨hop, h1, h2⟩
    exact ⟨p.Operation, hop, by rw [if_pos ⟨h1, h2⟩]⟩

theorem mem_deprovisioning_result (s : memory.operations) (instanceID : String)
    (p : DeprovisioningOperation) :
    p ∈ s.operations.values.filterMap (fun op =>
        if op.InstanceID = instanceID ∧ op.Type_ = OperationTypeDeprovision
        then some ({ Operation := op } : DeprovisioningOperation) else none) ↔
      p.Operation ∈ s.operations.values ∧ p.Operation.InstanceID = instanceID ∧
        p.Operation.Type_ = OperationTypeDeprovision := by
  rw [List.mem_filterMap]
  constructor
  · rintro ⟨op, hop, h⟩
    by_cases hc : op.InstanceID = instanceID ∧ op.Type_ = OperationTypeDeprovision
    · rw [if_pos hc] at h
      cases h
      exact ⟨hop, hc.1, hc.2⟩
    · rw [if_neg hc] at h
      cases h
  · rintro ⟨hop, h1, h2⟩
    exact ⟨p.Operation, hop, by rw [if_pos ⟨h1, h2⟩]⟩

/-- C5: in the in-memory store, when some stored operation has the instance ID and the
requested Type, `GetProvisioningOperationByInstanceID` and
`GetDeprovisioningOperationByInstanceID` return a stored operation of that instance and
Type whose CreatedAt is not earlier than that of any stored operation of that instance
and Type; when none has, they return NotFound. -/
theorem C5_latest_by_instance (s : memory.operations) (instanceID : String) :
    ((∃ op ∈ s.operations.values,
          op.InstanceID = instanceID ∧ op.Type_ = OperationTypeProvision) →
      ∃ r, s.GetProvisioningOperationByInstanceID instanceID = .ok r ∧
        r.Operation ∈ s.operations.values ∧ r.Operation.InstanceID = instanceID ∧
        r.Operation.Type_ = OperationTypeProvision ∧
        ∀ op ∈ s.operations.values, op.InstanceID = instanceID →
          op.Type_ = OperationTypeProvision → op.CreatedAt ≤ r.Operation.CreatedAt) ∧
    ((¬ ∃ op ∈ s.operations.values,
          op.InstanceID = instanceID ∧ op.Type_ = OperationTypeProvision) →
      ∃ e, s.GetProvisioningOperationByInstanceID instanceID = .error e ∧
        e.IsNotFound = true) ∧
    ((∃ op ∈ s.operations.values,
          op.InstanceID = instanceID ∧ op.Type_ = OperationTypeDeprovision) →
      ∃ r, s.GetDeprovisioningOperationByInstanceID instanceID = .ok r ∧
        r.Operation ∈ s.operations.values ∧ r.Operation.InstanceID = instanceID ∧
        r.Operation.Type_ = OperationTypeDeprovision ∧
        ∀ op ∈ s.operations.values, op.InstanceID = instanceID →
          op.Type_ = OperationTypeDeprovision → op.CreatedAt ≤ r.Operation.CreatedAt) ∧
    ((¬ ∃ op ∈ s.operations.values,
          op.InstanceID = instanceID ∧ op.Type_ = OperationTypeDeprovision) →
      ∃ e, s.GetDeprovisioningOperationByInstanceID instanceID = .error e ∧
        e.IsNotFound = true) := by
  refine ⟨?_, ?_, ?_, ?_⟩
  · rintro ⟨op, hop, h1, h2⟩
    have hmem := mem_provisioning_result s instanceID
    have hne : s.operations.values.filterMap (fun op =>
        if op.InstanceID = instanceID ∧ op.Type_ = OperationTypeProvision
        then some ({ Operation := op } : ProvisioningOperation) else none) ≠ [] :=
      List.ne_nil_of_mem ((hmem ⟨op⟩).2 ⟨hop, h1, h2⟩)
    obtain ⟨r, hr, hrmem, hmax⟩ :=
      firstOf_sortSlice_After (fun p : ProvisioningOperation => p.Operation.CreatedAt) _ hne
    have hlen := mt List.length_eq_zero.1 hne
    refine ⟨r, ?_, ((hmem r).1 hrmem).1, ((hmem r).1 hrmem).2.1, ((hmem r).1 hrmem).2.2, ?_⟩
    · simp only [memory.operations.GetProvisioningOperationByInstanceID, if_pos hlen,
        memory.operations.sortProvisioningByCreatedAtDesc]
      exact hr
    · intro op' hop' h1' h2'
      exact hmax ⟨op'⟩ ((hmem ⟨op'⟩).2 ⟨hop', h1', h2'⟩)
  · intro hnone
    have hnil : s.operations.values.filterMap (fun op =>
        if op.InstanceID = instanceID ∧ op.Type_ = OperationTypeProvision
        then some ({ Operation := op } : ProvisioningOperation) else none) = [] := by
      rw [List.eq_nil_iff_forall_not_mem]
      intro p hp
      have := (mem_provisioning_result s instanceID p).1 hp
      exact hnone ⟨p.Operation, this.1, this.2.1, this.2.2⟩
    refine ⟨Err.NotFound ?m1, ?g1, rfl⟩
    case g1 =>
      simp only [memory.operations.GetProvisioningOperationByInstanceID, hnil]
      exact rfl
  · rintro ⟨op, hop, h1, h2⟩
    have hmem := mem_deprovisioning_result s instanceID
    have hne : s.operations.values.filterMap (fun op =>
        if op.InstanceID = instanceID ∧ op.Type_ = OperationTypeDeprovision
        then some ({ Operation := op } : DeprovisioningOperation) else none) ≠ [] :=
      List.ne_nil_of_mem ((hmem ⟨op⟩).2 ⟨hop, h1, h2⟩)
    obtain ⟨r, hr, hrmem, hmax⟩ :=
      firstOf_sortSlice_After (fun p : DeprovisioningOperation => p.Operation.CreatedAt) _ hne
    have hlen := mt List.length_eq_zero.1 hne
    refine ⟨r, ?_, ((hmem r).1 hrmem).1, ((hmem r).1 hrmem).2.1, ((hmem r).1 hrmem).2.2, ?_⟩
    · simp only [memory.operations.GetDeprovisioningOperationByInstanceID, if_pos hlen,
        memory.operations.sortDeprovisioningByCreatedAtDesc]
      exact hr
    · intro op' hop' h1' h2'
      exact hmax ⟨op'⟩ ((hmem ⟨op'⟩).2 ⟨hop', h1', h2'⟩)
  · intro hnone
    have hnil : s.operations.values.filterMap (fun op =>
        if op.InstanceID = instanceID ∧ op.Type_ = OperationTypeDeprovision
        then some ({ Operation := op } : DeprovisioningOperation) else none) = [] := by
      rw [List.eq_nil_iff_forall_not_mem]
      intro p hp
      have := (mem_deprovisioning_result s instanceID p).1 hp
      exact hnone ⟨p.Operation, this.1, this.2.1, this.2.2⟩
    refine ⟨Err.NotFound ?m2, ?g2, rfl⟩
    case g2 =>
      simp only [memory.operations.GetDeprovisioningOperationByInstanceID, hnil]
      exact rfl

/-- Witness of C5: the example store holds operations of both Types for "inst-1" and
none for "inst-9". -/
theorem C5_latest_by_instance_witness :
    (∃ r, Example.store.GetProvisioningOperationByInstanceID "inst-1" = .ok r ∧
        r.Operation ∈ Example.store.operations.values ∧ r.Operation.InstanceID = "inst-1" ∧
        r.Operation.Type_ = OperationTypeProvision ∧
        ∀ op ∈ Example.store.operations.values, op.InstanceID = "inst-1" →
          op.Type_ = OperationTypeProvision → op.CreatedAt ≤ r.Operation.CreatedAt) ∧
    (∃ e, Example.store.GetProvisioningOperationByInstanceID "inst-9" = .error e ∧
        e.IsNotFound = true) ∧
    (∃ r, Example.store.GetDeprovisioningOperationByInstanceID "inst-1" = .ok r ∧
        r.Operation ∈ Example.store.operations.values ∧ r.Operation.InstanceID = "inst-1" ∧
        r.Operation.Type_ = OperationTypeDeprovision ∧
        ∀ op ∈ Example.store.operations.values, op.InstanceID = "inst-1" →
          op.Type_ = OperationTypeDeprovision → op.CreatedAt ≤ r.Operation.CreatedAt) ∧
    (∃ e, Example.store.GetDeprovisioningOperationByInstanceID "inst-2" = .error e ∧
        e.IsNotFound = true) :=
  ⟨(C5_latest_by_instance Example.store "inst-1").1
      ⟨Example.provisionOp, by decide, by decide, by decide⟩,
   (C5_latest_by_instance Example.store "inst-9").2.1 (by decide),
   (C5_latest_by_instance Example.store "inst-1").2.2.1
      ⟨Example.deprovisionOp, by decide, by decide, by decide⟩,
   (C5_latest_by_instance Example.store "inst-2").2.2.2 (by decide)⟩

/-! ## Grouping the operations of an instance by type -/

/-- C6, on the code: the in-memory `ListOperationsByInstanceIDGroupByType` never reads
its argument.  Asked for "inst-1" on the example store, it puts the provisioning
operation of "inst-2" in the provision list, and it leaves out the upgrade-cluster and
update operations of "inst-1", which are kept in the two other tables. -/
theorem C6_memory_grouping_ignores_instance_id :
    Example.store.ListOperationsByInstanceIDGroupByType "inst-1" =
      .ok { ProvisionOperations := [⟨Example.otherInstanceOp⟩, ⟨Example.provisionOp⟩]
            DeprovisionOperations := [⟨Example.deprovisionOp⟩]
            UpgradeClusterOperations := []
            UpdateOperations := [] } ∧
    Example.otherInstanceOp.InstanceID ≠ "inst-1" ∧
    Example.store.upgradeClusterOperations.get? "op-4" = some Example.upgradeOp ∧
    Example.upgradeOp.Operation.InstanceID = "inst-1" ∧
    (∀ (s : memory.operations) (instanceID other : String),
      s.ListOperationsByInstanceIDGroupByType instanceID =
        s.ListOperationsByInstanceIDGroupByType other) := by
  refine ⟨by decide, by decide, by decide, by decide, ?_⟩
  intro s instanceID other
  rfl


theorem toOperation_CreatedAt (c : postsql.Collaborators) (dto : postsql.OperationDTO)
    (existingOp o : Operation) (h : postsql.toOperation c dto existingOp = .ok o) :
    o.CreatedAt = dto.CreatedAt := by
  unfold postsql.toOperation at h
  simp only at h
  split at h
  · cases h
  · split at h
    · cases h
    · cases h
      rfl

theorem toProvisioningOperation_CreatedAt (c : postsql.Collaborators)
    (op : postsql.OperationDTO) (ret : ProvisioningOperation)
    (h : postsql.toProvisioningOperation c op = .ok ret) :
    ret.Operation.CreatedAt = op.CreatedAt := by
  unfold postsql.toProvisioningOperation at h
  split at h
  · cases h
  · split at h
    · cases h
    · split at h
      · cases h
      · rename_i operation hop
        cases h
        exact toOperation_CreatedAt c op _ _ hop

theorem toDeprovisioningOperation_CreatedAt (c : postsql.Collaborators)
    (op : postsql.OperationDTO) (ret : DeprovisioningOperation)
    (h : postsql.toDeprovisioningOperation c op = .ok ret) :
    ret.Operation.CreatedAt = op.CreatedAt := by
  unfold postsql.toDeprovisioningOperation at h
  split at h
  · cases h
  · split at h
    · cases h
    · split at h
      · cases h
      · rename_i operation hop
        cases h
        exact toOperation_CreatedAt c op _ _ hop

theorem toUpgradeClusterOperation_CreatedAt (c : postsql.Collaborators)
    (op : postsql.OperationDTO) (ret : UpgradeClusterOperation)
    (h : postsql.toUpgradeClusterOperation c op = .ok ret) :
    ret.Operation.CreatedAt = op.CreatedAt := by
  unfold postsql.toUpgradeClusterOperation at h
  split at h
  · cases h
  · split at h
    · cases h
    · split at h
      · cases h
      · rename_i operation hop
        cases h
        exact toOperation_CreatedAt c op _ _ hop

theorem toUpdateOperation_CreatedAt (c : postsql.Collaborators)
    (op : postsql.OperationDTO) (ret : UpdatingOperation)
    (h : postsql.toUpdateOperation c op = .ok ret) :
    ret.Operation.CreatedAt = op.CreatedAt := by
  unfold postsql.toUpdateOperation at h
  split at h
  · cases h
  · split at h
    · cases h
    · split at h
      · cases h
      · rename_i operation hop
        cases h
        exact toOperation_CreatedAt c op _ _ hop

/-- The Postgres grouping loop appends to each list the rows of its type, in the order
of the rows. -/
theorem postsql_groupByType_CreatedAt (c : postsql.Collaborators)
    (rows : List postsql.OperationDTO) (g0 g : GroupedOperations)
    (h : postsql.groupByType c rows g0 = .ok g) :
    g.ProvisionOperations.map (fun p => p.Operation.CreatedAt) =
      g0.ProvisionOperations.map (fun p => p.Operation.CreatedAt) ++
        (rows.filter (fun r => decide (r.Type_ = OperationTypeProvision))).map
          (fun r => r.CreatedAt) ∧
    g.DeprovisionOperations.map (fun p => p.Operation.CreatedAt) =
      g0.DeprovisionOperations.map (fun p => p.Operation.CreatedAt) ++
        (rows.filter (fun r => decide (r.Type_ = OperationTypeDeprovision))).map
          (fun r => r.CreatedAt) ∧
    g.UpgradeClusterOperations.map (fun p => p.Operation.CreatedAt) =
      g0.UpgradeClusterOperations.map (fun p => p.Operation.CreatedAt) ++
        (rows.filter (fun r => decide (r.Type_ = OperationTypeUpgradeCluster))).map
          (fun r => r.CreatedAt) ∧
    g.UpdateOperations.map (fun p => p.Operation.CreatedAt) =
      g0.UpdateOperations.map (fun p => p.Operation.CreatedAt) ++
        (rows.filter (fun r => decide (r.Type_ = OperationTypeUpdate))).map
          (fun r => r.CreatedAt) := by
  induction rows generalizing g0 with
  | nil =>
    simp only [postsql.groupByType, Except.ok.injEq] at h
    subst h
    simp
  | cons op rest ih =>
    unfold postsql.groupByType at h
    by_cases h1 : op.Type_ = OperationTypeProvision
    · rw [if_pos h1] at h
      cases hc : postsql.toProvisioningOperation c op with
      | error e => rw [hc] at h; cases h
      | ok ret =>
        rw [hc] at h
        have hret := toProvisioningOperation_CreatedAt c op ret hc
        have := ih _ h
        simp only [List.map_append, List.map_cons, List.map_nil, hret] at this
        simp [List.filter_cons, h1, this, OperationTypeProvision, OperationTypeDeprovision,
          OperationTypeUpgradeCluster, OperationTypeUpdate]
    · rw [if_neg h1] at h
      by_cases h2 : op.Type_ = OperationTypeDeprovision
      · rw [if_pos h2] at h
        cases hc : postsql.toDeprovisioningOperation c op with
        | error e => rw [hc] at h; cases h
        | ok ret =>
          rw [hc] at h
          have hret := toDeprovisioningOperation_CreatedAt c op ret hc
          have := ih _ h
          simp only [List.map_append, List.map_cons, List.map_nil, hret] at this
          simp [List.filter_cons, h2, this, OperationTypeProvision, OperationTypeDeprovision,
            OperationTypeUpgradeCluster, OperationTypeUpdate]
      · rw [if_neg h2] at h
        by_cases h3 : op.Type_ = OperationTypeUpgradeCluster
        · rw [if_pos h3] at h
          cases hc : postsql.toUpgradeClusterOperation c op with
          | error e => rw [hc] at h; cases h
          | ok ret =>
            rw [hc] at h
            have hret := toUpgradeClusterOperation_CreatedAt c op ret hc
            have := ih _ h
            simp only [List.map_append, List.map_cons, List.map_nil, hret] at this
            simp [List.filter_cons, h3, this, OperationTypeProvision,
              OperationTypeDeprovision, OperationTypeUpgradeCluster, OperationTypeUpdate]
        · rw [if_neg h3] at h
          by_cases h4 : op.Type_ = OperationTypeUpdate
          · rw [if_pos h4] at h
            cases hc : postsql.toUpdateOperation c op with
            | error e => rw [hc] at h; cases h
            | ok ret =>
              rw [hc] at h
              have hret := toUpdateOperation_CreatedAt c op ret hc
              have := ih _ h
              simp only [List.map_append, List.map_cons, List.map_nil, hret] at this
              simp [List.filter_cons, h4, this, OperationTypeProvision,
                OperationTypeDeprovision, OperationTypeUpgradeCluster, OperationTypeUpdate]
          · rw [if_neg h4] at h
            by_cases h5 : op.Type_ = OperationTypeUpgradeKyma
            · rw [if_pos h5] at h
              have := ih _ h
              simp [List.filter_cons, h1, h2, h3, h4, this]
            · rw [if_neg h5] at h
              cases h

/-- The in-memory grouping loop ends without a panic when every operation has one of the
four types of the `switch`. -/
theorem memory_groupByType_total (ops : List Operation) (g0 : GroupedOperations)
    (h : ∀ op ∈ ops, op.Type_ = OperationTypeProvision ∨ op.Type_ = OperationTypeDeprovision ∨
      op.Type_ = OperationTypeUpgradeCluster ∨ op.Type_ = OperationTypeUpdate) :
    ∃ g, memory.operations.groupByType ops g0 = .ok g := by
  induction ops generalizing g0 with
  | nil => exact ⟨g0, rfl⟩
  | cons op rest ih =>
    have hrest : ∀ op' ∈ rest, op'.Type_ = OperationTypeProvision ∨
        op'.Type_ = OperationTypeDeprovision ∨ op'.Type_ = OperationTypeUpgradeCluster ∨
        op'.Type_ = OperationTypeUpdate := fun op' hop' => h op' (List.mem_cons_of_mem _ hop')
    unfold memory.operations.groupByType
    by_cases h1 : op.Type_ = OperationTypeProvision
    · rw [if_pos h1]; exact ih _ hrest
    · rw [if_neg h1]
      by_cases h2 : op.Type_ = OperationTypeDeprovision
      · rw [if_pos h2]; exact ih _ hrest
      · rw [if_neg h2]
        by_cases h3 : op.Type_ = OperationTypeUpgradeCluster
        · rw [if_pos h3]; exact ih _ hrest
        · rw [if_neg h3]
          by_cases h4 : op.Type_ = OperationTypeUpdate
          · rw [if_pos h4]; exact ih _ hrest
          · rcases h op (List.mem_cons_self _ _) with h | h | h | h
            · exact absurd h h1
            · exact absurd h h2
            · exact absurd h h3
            · exact absurd h h4

/-- C7 as stated fails on the Postgres store, which does not sort: when the database
returns the rows oldest first the provision list is not newest-first, and when it
returns them newest first the upgrade-cluster list is not oldest-first. -/
theorem C7_postgres_order_counterexample :
    (∃ g, postsql.ListOperationsByInstanceIDGroupByType Example.collaborators Example.session 0
        [Example.provisionRowOld, Example.provisionRowNew, Example.upgradeRowOld,
         Example.upgradeRowNew] "inst-1" =
        (.ok g, [Example.provisionRowOld, Example.provisionRowNew, Example.upgradeRowOld,
          Example.upgradeRowNew]) ∧
      g.ProvisionOperations.map (fun p => p.Operation.CreatedAt) = [10, 20] ∧
      ¬ g.ProvisionOperations.Pairwise
          (fun a b => b.Operation.CreatedAt ≤ a.Operation.CreatedAt)) ∧
    (∃ g, postsql.ListOperationsByInstanceIDGroupByType Example.collaborators Example.session 0
        [Example.upgradeRowNew, Example.upgradeRowOld, Example.provisionRowNew,
         Example.provisionRowOld] "inst-1" =
        (.ok g, [Example.upgradeRowNew, Example.upgradeRowOld, Example.provisionRowNew,
          Example.provisionRowOld]) ∧
      g.UpgradeClusterOperations.map (fun p => p.Operation.CreatedAt) = [50, 40] ∧
      ¬ g.UpgradeClusterOperations.Pairwise
          (fun a b => a.Operation.CreatedAt ≤ b.Operation.CreatedAt)) := by
  refine ⟨⟨_, rfl, by decide, by decide⟩, ⟨_, rfl, by decide, by decide⟩⟩

/-- C7, amended: the in-memory `ListOperationsByInstanceIDGroupByType` returns a grouping
whenever every stored operation has one of the four types, and in every grouping it
returns the provision and deprovision lists are newest-first and the upgrade-cluster
and update lists oldest-first.  The Postgres store does not sort: in each of its four
lists the CreatedAt values are those of the rows of that type, in the order in which
the database returned the rows. -/
theorem C7_grouped_lists_order :
    (∀ (s : memory.operations) (instanceID : String),
      ((∀ op ∈ s.operations.values,
          op.Type_ = OperationTypeProvision ∨ op.Type_ = OperationTypeDeprovision ∨
          op.Type_ = OperationTypeUpgradeCluster ∨ op.Type_ = OperationTypeUpdate) →
        ∃ g, s.ListOperationsByInstanceIDGroupByType instanceID = .ok g) ∧
      (∀ g, s.ListOperationsByInstanceIDGroupByType instanceID = .ok g →
        g.ProvisionOperations.Pairwise
          (fun a b => b.Operation.CreatedAt ≤ a.Operation.CreatedAt) ∧
        g.DeprovisionOperations.Pairwise
          (fun a b => b.Operation.CreatedAt ≤ a.Operation.CreatedAt) ∧
        g.UpgradeClusterOperations.Pairwise
          (fun a b => a.Operation.CreatedAt ≤ b.Operation.CreatedAt) ∧
        g.UpdateOperations.Pairwise
          (fun a b => a.Operation.CreatedAt ≤ b.Operation.CreatedAt))) ∧
    (∀ (β : Type) (c : postsql.Collaborators) (session : postsql.ReadSession β)
        (retries : Nat) (db db' db'' : β) (instanceID : String)
        (rows : List postsql.OperationDTO) (g : GroupedOperations),
      postsql.listOperationsByInstanceId session retries db instanceID = ((rows, none), db') →
      postsql.ListOperationsByInstanceIDGroupByType c session retries db instanceID =
        (.ok g, db'') →
      g.ProvisionOperations.map (fun p => p.Operation.CreatedAt) =
        (rows.filter (fun r => decide (r.Type_ = OperationTypeProvision))).map
          (fun r => r.CreatedAt) ∧
      g.DeprovisionOperations.map (fun p => p.Operation.CreatedAt) =
        (rows.filter (fun r => decide (r.Type_ = OperationTypeDeprovision))).map
          (fun r => r.CreatedAt) ∧
      g.UpgradeClusterOperations.map (fun p => p.Operation.CreatedAt) =
        (rows.filter (fun r => decide (r.Type_ = OperationTypeUpgradeCluster))).map
          (fun r => r.CreatedAt) ∧
      g.UpdateOperations.map (fun p => p.Operation.CreatedAt) =
        (rows.filter (fun r => decide (r.Type_ = OperationTypeUpdate))).map
          (fun r => r.CreatedAt)) := by
  refine ⟨?_, ?_⟩
  · intro s instanceID
    constructor
    · intro h
      obtain ⟨g, hg⟩ := memory_groupByType_total s.operations.values {} h
      refine ⟨?w, ?p⟩
      case p =>
        simp only [memory.operations.ListOperationsByInstanceIDGroupByType, hg]
        exact rfl
    · intro g hg
      unfold memory.operations.ListOperationsByInstanceIDGroupByType at hg
      cases hgr : memory.operations.groupByType s.operations.values {} with
      | error e => rw [hgr] at hg; cases hg
      | ok grouped =>
        rw [hgr] at hg
        simp only [Except.ok.injEq] at hg
        subst hg
        exact ⟨sortSlice_After_pairwise (fun p : ProvisioningOperation => p.Operation.CreatedAt) _,
          sortSlice_After_pairwise (fun p : DeprovisioningOperation => p.Operation.CreatedAt) _,
          sortSlice_Before_pairwise
            (fun p : UpgradeClusterOperation => p.Operation.CreatedAt) _,
          sortSlice_Before_pairwise (fun p : UpdatingOperation => p.Operation.CreatedAt) _⟩
  · intro β c session retries db db' db'' instanceID rows g hlist hg
    simp only [postsql.ListOperationsByInstanceIDGroupByType, hlist, Prod.mk.injEq] at hg
    simpa using postsql_groupByType_CreatedAt c rows {} g hg.1

/-- The grouping that the in-memory store returns on the example store. -/
theorem example_store_grouping :
    Example.store.ListOperationsByInstanceIDGroupByType "inst-1" =
      .ok { ProvisionOperations := [⟨Example.otherInstanceOp⟩, ⟨Example.provisionOp⟩]
            DeprovisionOperations := [⟨Example.deprovisionOp⟩]
            UpgradeClusterOperations := []
            UpdateOperations := [] } := by
  decide

/-- Witness of the amended C7: the example store, and the example database returning
four rows oldest first. -/
theorem C7_grouped_lists_order_witness :
    (∃ g, Example.store.ListOperationsByInstanceIDGroupByType "inst-1" = .ok g) ∧
    ([(⟨Example.otherInstanceOp⟩ : ProvisioningOperation), ⟨Example.provisionOp⟩].Pairwise
        (fun a b => b.Operation.CreatedAt ≤ a.Operation.CreatedAt) ∧
      [(⟨Example.deprovisionOp⟩ : DeprovisioningOperation)].Pairwise
        (fun a b => b.Operation.CreatedAt ≤ a.Operation.CreatedAt) ∧
      ([] : List UpgradeClusterOperation).Pairwise
        (fun a b => a.Operation.CreatedAt ≤ b.Operation.CreatedAt) ∧
      ([] : List UpdatingOperation).Pairwise
        (fun a b => a.Operation.CreatedAt ≤ b.Operation.CreatedAt)) ∧
    (Example.groupedRows.ProvisionOperations.map (fun p => p.Operation.CreatedAt) =
        (Example.rowsOldestFirst.filter
          (fun r => decide (r.Type_ = OperationTypeProvision))).map (fun r => r.CreatedAt) ∧
      Example.groupedRows.DeprovisionOperations.map (fun p => p.Operation.CreatedAt) =
        (Example.rowsOldestFirst.filter
          (fun r => decide (r.Type_ = OperationTypeDeprovision))).map (fun r => r.CreatedAt) ∧
      Example.groupedRows.UpgradeClusterOperations.map (fun p => p.Operation.CreatedAt) =
        (Example.rowsOldestFirst.filter
          (fun r => decide (r.Type_ = OperationTypeUpgradeCluster))).map
            (fun r => r.CreatedAt) ∧
      Example.groupedRows.UpdateOperations.map (fun p => p.Operation.CreatedAt) =
        (Example.rowsOldestFirst.filter
          (fun r => decide (r.Type_ = OperationTypeUpdate))).map (fun r => r.CreatedAt)) :=
  ⟨(C7_grouped_lists_order.1 Example.store "inst-1").1 (by decide),
   (C7_grouped_lists_order.1 Example.store "inst-1").2 _ example_store_grouping,
   C7_grouped_lists_order.2 _ Example.collaborators Example.session 0
     Example.rowsOldestFirst Example.rowsOldestFirst Example.rowsOldestFirst "inst-1"
     Example.rowsOldestFirst Example.groupedRows (by decide) (by decide)⟩

/-! ## The last operation of an instance -/

theorem mem_foldl_types (op op' : Operation) (types : List OperationType)
    (rows : List Operation) :
    op' ∈ types.foldl (fun rows t => if op.Type_ = t then rows ++ [op] else rows) rows ↔
      op' ∈ rows ∨ (op' = op ∧ op.Type_ ∈ types) := by
  induction types generalizing rows with
  | nil => simp
  | cons t rest ih =>
    simp only [List.foldl_cons, List.mem_cons]
    rw [ih]
    by_cases ht : op.Type_ = t
    · simp only [if_pos ht, List.mem_append, List.mem_singleton]
      constructor
      · rintro ((h | h) | ⟨h1, h2⟩)
        · exact Or.inl h
        · exact Or.inr ⟨h, Or.inl ht⟩
        · exact Or.inr ⟨h1, Or.inr h2⟩
      · rintro (h | ⟨h1, h2 | h2⟩)
        · exact Or.inl (Or.inl h)
        · exact Or.inl (Or.inr h1)
        · exact Or.inr ⟨h1, h2⟩
    · simp only [if_neg ht]
      constructor
      · rintro (h | ⟨h1, h2⟩)
        · exact Or.inl h
        · exact Or.inr ⟨h1, Or.inr h2⟩
      · rintro (h | ⟨h1, h2 | h2⟩)
        · exact Or.inl h
        · exact absurd h2 ht
        · exact Or.inr ⟨h1, h2⟩

theorem mem_appendByTypes (instanceID : String) (types : List OperationType)
    (rows : List Operation) (op op' : Operation) :
    op' ∈ memory.operations.appendByTypes instanceID types rows op ↔
      op' ∈ rows ∨ (op' = op ∧ memory.operations.qualifies instanceID types op) := by
  unfold memory.operations.appendByTypes memory.operations.qualifies
  by_cases hc : op.InstanceID = instanceID ∧ op.State ≠ OperationStatePending
  · rw [if_pos hc]
    cases types with
    | nil => simp [hc.1, hc.2]
    | cons t rest =>
      have hlen : (t :: rest).length > 0 := by simp
      rw [if_pos hlen, mem_foldl_types]
      simp [hc.1, hc.2]
  · rw [if_neg hc]
    constructor
    · exact Or.inl
    · rintro (h | ⟨_, h1, h2, _⟩)
      · exact h
      · exact absurd ⟨h1, h2⟩ hc

theorem mem_foldl_appendByTypes (instanceID : String) (types : List OperationType)
    (ops rows : List Operation) (op' : Operation) :
    op' ∈ ops.foldl (memory.operations.appendByTypes instanceID types) rows ↔
      op' ∈ rows ∨ (op' ∈ ops ∧ memory.operations.qualifies instanceID types op') := by
  induction ops generalizing rows with
  | nil => simp
  | cons op rest ih =>
    simp only [List.foldl_cons, List.mem_cons]
    rw [ih, mem_appendByTypes]
    constructor
    · rintro ((h | ⟨h1, h2⟩) | ⟨h1, h2⟩)
      · exact Or.inl h
      · exact Or.inr ⟨Or.inl h1, h1 ▸ h2⟩
      · exact Or.inr ⟨Or.inr h1, h2⟩
    · rintro (h | ⟨h1 | h1, h2⟩)
      · exact Or.inl (Or.inl h)
      · exact Or.inl (Or.inr ⟨h1, h1 ▸ h2⟩)
      · exact Or.inr ⟨h1, h2⟩

/-- The rows collected by the three loops of `GetLastOperationByTypes` are the stored
operations that qualify. -/
theorem mem_lastOperation_rows (s : memory.operations) (instanceID : String)
    (types : List OperationType) (op' : Operation) :
    op' ∈ (s.updateOperations.values.map (fun op => op.Operation)).foldl
        (memory.operations.appendByTypes instanceID types)
        ((s.upgradeClusterOperations.values.map (fun op => op.Operation)).foldl
          (memory.operations.appendByTypes instanceID types)
          (s.operations.values.foldl (memory.operations.appendByTypes instanceID types) [])) ↔
      op' ∈ s.allOperations ∧ memory.operations.qualifies instanceID types op' := by
  simp only [mem_foldl_appendByTypes, memory.operations.allOperations, List.mem_append,
    List.not_mem_nil, false_or]
  tauto

theorem appendByTypes_nil (instanceID : String) :
    memory.operations.appendByTypes instanceID [] =
      memory.operations.appendNotPending instanceID := by
  funext rows op
  simp [memory.operations.appendByTypes, memory.operations.appendNotPending]

/-- C8: in the in-memory store `GetLastOperationByTypes` returns a stored operation that
belongs to the instance, is not Pending and has a Type of the list when the list is not
empty, with a CreatedAt not earlier than that of any stored operation meeting these
conditions; it returns NotFound exactly when no stored operation meets them; and
`GetLastOperation` is `GetLastOperationByTypes` with an empty list. -/
theorem C8_last_operation_by_types (s : memory.operations) (instanceID : String)
    (types : List OperationType) :
    ((∃ op ∈ s.allOperations, memory.operations.qualifies instanceID types op) →
      ∃ r, s.GetLastOperationByTypes instanceID types = .ok r ∧ r ∈ s.allOperations ∧
        memory.operations.qualifies instanceID types r ∧
        ∀ op ∈ s.allOperations, memory.operations.qualifies instanceID types op →
          op.CreatedAt ≤ r.CreatedAt) ∧
    ((∃ e, s.GetLastOperationByTypes instanceID types = .error e ∧ e.IsNotFound = true) ↔
      ¬ ∃ op ∈ s.allOperations, memory.operations.qualifies instanceID types op) ∧
    s.GetLastOperation instanceID = s.GetLastOperationByTypes instanceID [] := by
  have hmem := mem_lastOperation_rows s instanceID types
  have hfound : (∃ op ∈ s.allOperations, memory.operations.qualifies instanceID types op) →
      ∃ r, s.GetLastOperationByTypes instanceID types = .ok r ∧ r ∈ s.allOperations ∧
        memory.operations.qualifies instanceID types r ∧
        ∀ op ∈ s.allOperations, memory.operations.qualifies instanceID types op →
          op.CreatedAt ≤ r.CreatedAt := by
    rintro ⟨op, hop, hq⟩
    have hne := List.ne_nil_of_mem ((hmem op).2 ⟨hop, hq⟩)
    obtain ⟨r, hr, hrmem, hmax⟩ := firstOf_sortSlice_After (fun o : Operation => o.CreatedAt) _ hne
    have hlen := mt List.length_eq_zero.1 hne
    refine ⟨r, ?_, ((hmem r).1 hrmem).1, ((hmem r).1 hrmem).2, ?_⟩
    · simp only [memory.operations.GetLastOperationByTypes, if_neg hlen]
      exact hr
    · intro op' hop' hq'
      exact hmax op' ((hmem op').2 ⟨hop', hq'⟩)
  refine ⟨hfound, ?_, ?_⟩
  · constructor
    · rintro ⟨e, he, _⟩ hex
      obtain ⟨r, hr, _⟩ := hfound hex
      rw [hr] at he
      cases he
    · intro hnone
      have hnil : (s.updateOperations.values.map (fun op => op.Operation)).foldl
          (memory.operations.appendByTypes instanceID types)
          ((s.upgradeClusterOperations.values.map (fun op => op.Operation)).foldl
            (memory.operations.appendByTypes instanceID types)
            (s.operations.values.foldl
              (memory.operations.appendByTypes instanceID types) [])) = [] := by
        rw [List.eq_nil_iff_forall_not_mem]
        intro op hop
        exact hnone ⟨op, ((hmem op).1 hop).1, ((hmem op).1 hop).2⟩
      refine ⟨Err.NotFound ?m, ?g, rfl⟩
      case g =>
        simp only [memory.operations.GetLastOperationByTypes, hnil]
        exact rfl
  · simp only [memory.operations.GetLastOperation, memory.operations.GetLastOperationByTypes,
      appendByTypes_nil]

/-- Witness of C8: on the example store the last operation of "inst-1" among the types
provision and upgradeCluster exists, and "inst-9" has none. -/
theorem C8_last_operation_by_types_witness :
    (∃ r, Example.store.GetLastOperationByTypes "inst-1"
          [OperationTypeProvision, OperationTypeUpgradeCluster] = .ok r ∧
        r ∈ Example.store.allOperations ∧
        memory.operations.qualifies "inst-1"
          [OperationTypeProvision, OperationTypeUpgradeCluster] r ∧
        ∀ op ∈ Example.store.allOperations,
          memory.operations.qualifies "inst-1"
            [OperationTypeProvision, OperationTypeUpgradeCluster] op →
          op.CreatedAt ≤ r.CreatedAt) ∧
    (∃ e, Example.store.GetLastOperationByTypes "inst-9" [] = .error e ∧
        e.IsNotFound = true) :=
  ⟨(C8_last_operation_by_types Example.store "inst-1"
      [OperationTypeProvision, OperationTypeUpgradeCluster]).1
      ⟨Example.provisionOp, by decide, by decide⟩,
   (C8_last_operation_by_types Example.store "inst-9" []).2.1.2 (by decide)⟩

/-! ## Uniqueness of operation IDs -/

theorem GoMap.lookupEntries_assignEntries_isSome {V : Type} (es : List (String × V))
    (key key' : String) (val : V) (h : (GoMap.lookupEntries es key').isSome = true) :
    (GoMap.lookupEntries (GoMap.assignEntries es key val) key').isSome = true := by
  induction es with
  | nil => simp [GoMap.lookupEntries] at h
  | cons e rest ih =>
    obtain ⟨k, v⟩ := e
    by_cases hk : k = key
    · by_cases hk' : key = key'
      · simp [GoMap.assignEntries, GoMap.lookupEntries, hk, hk']
      · have hk'' : ¬ k = key' := fun h' => hk' (hk ▸ h')
        simp only [GoMap.lookupEntries, if_neg hk''] at h
        simpa [GoMap.assignEntries, GoMap.lookupEntries, hk, hk'] using h
    · by_cases hk' : k = key'
      · simp only [GoMap.assignEntries, if_neg hk, GoMap.lookupEntries, if_pos hk']
        rfl
      · simp only [GoMap.lookupEntries, if_neg hk'] at h
        simp only [GoMap.assignEntries, GoMap.lookupEntries, if_neg hk, if_neg hk']
        exact ih h

theorem GoMap.get?_set_isSome {V : Type} (m : GoMap V) (key key' : String) (val : V)
    (h : (m.get? key').isSome = true) : ((m.set key val).get? key').isSome = true :=
  GoMap.lookupEntries_assignEntries_isSome m.entries key key' val h

/-- No insert and no update removes an ID from a table. -/
theorem call_keeps_ids (s : memory.operations) (c : memory.Call) (i : String) :
    ((s.operations.get? i).isSome = true → ((s.call c).operations.get? i).isSome = true) ∧
    ((s.upgradeClusterOperations.get? i).isSome = true →
      ((s.call c).upgradeClusterOperations.get? i).isSome = true) ∧
    ((s.updateOperations.get? i).isSome = true →
      ((s.call c).updateOperations.get? i).isSome = true) := by
  cases c with
  | InsertOperation op =>
    simp only [memory.operations.call, memory.operations.InsertOperation]
    split
    · exact ⟨id, id, id⟩
    · exact ⟨GoMap.get?_set_isSome _ _ _ _, id, id⟩
  | InsertProvisioningOperation op =>
    simp only [memory.operations.call, memory.operations.InsertProvisioningOperation]
    split
    · exact ⟨id, id, id⟩
    · exact ⟨GoMap.get?_set_isSome _ _ _ _, id, id⟩
  | InsertDeprovisioningOperation op =>
    simp only [memory.operations.call, memory.operations.InsertDeprovisioningOperation]
    split
    · exact ⟨id, id, id⟩
    · exact ⟨GoMap.get?_set_isSome _ _ _ _, id, id⟩
  | InsertUpgradeClusterOperation op =>
    simp only [memory.operations.call, memory.operations.InsertUpgradeClusterOperation]
    split
    · exact ⟨id, id, id⟩
    · exact ⟨id, GoMap.get?_set_isSome _ _ _ _, id⟩
  | InsertUpdatingOperation op =>
    simp only [memory.operations.call, memory.operations.InsertUpdatingOperation]
    split
    · exact ⟨id, id, id⟩
    · exact ⟨id, id, GoMap.get?_set_isSome _ _ _ _⟩
  | UpdateOperation op =>
    simp only [memory.operations.call, memory.operations.UpdateOperation]
    split
    · exact ⟨id, id, id⟩
    · split
      · exact ⟨id, id, id⟩
      · exact ⟨GoMap.get?_set_isSome _ _ _ _, id, id⟩
  | UpdateProvisioningOperation op =>
    simp only [memory.operations.call, memory.operations.UpdateProvisioningOperation]
    split
    · exact ⟨id, id, id⟩
    · split
      · exact ⟨id, id, id⟩
      · exact ⟨GoMap.get?_set_isSome _ _ _ _, id, id⟩
  | UpdateDeprovisioningOperation op =>
    simp only [memory.operations.call, memory.operations.UpdateDeprovisioningOperation]
    split
    · exact ⟨id, id, id⟩
    · split
      · exact ⟨id, id, id⟩
      · exact ⟨GoMap.get?_set_isSome _ _ _ _, id, id⟩
  | UpdateUpgradeClusterOperation op =>
    simp only [memory.operations.call, memory.operations.UpdateUpgradeClusterOperation]
    split
    · exact ⟨id, id, id⟩
    · split
      · exact ⟨id, id, id⟩
      · exact ⟨id, GoMap.get?_set_isSome _ _ _ _, id⟩
  | UpdateUpdatingOperation op =>
    simp only [memory.operations.call, memory.operations.UpdateUpdatingOperation]
    split
    · exact ⟨id, id, id⟩
    · split
      · exact ⟨id, id, id⟩
      · exact ⟨id, id, GoMap.get?_set_isSome _ _ _ _⟩

theorem calls_keep_ids (s : memory.operations) (cs : List memory.Call) (i : String) :
    ((s.operations.get? i).isSome = true → ((s.calls cs).operations.get? i).isSome = true) ∧
    ((s.upgradeClusterOperations.get? i).isSome = true →
      ((s.calls cs).upgradeClusterOperations.get? i).isSome = true) ∧
    ((s.updateOperations.get? i).isSome = true →
      ((s.calls cs).updateOperations.get? i).isSome = true) := by
  induction cs generalizing s with
  | nil => exact ⟨id, id, id⟩
  | cons c rest ih =>
    have h1 := call_keeps_ids s c i
    have h2 := ih (s.call c)
    exact ⟨fun h => h2.1 (h1.1 h), fun h => h2.2.1 (h1.2.1 h), fun h => h2.2.2 (h1.2.2 h)⟩

theorem InsertOperation_present (s : memory.operations) (op : Operation)
    (h : (s.operations.get? op.ID).isSome = true) :
    ∃ e, s.InsertOperation op = (some e, s) ∧ e.IsAlreadyExists = true := by
  obtain ⟨old, hold⟩ := Option.isSome_iff_exists.1 h
  refine ⟨Err.AlreadyExists ?m, ?g, rfl⟩
  case g =>
    simp only [memory.operations.InsertOperation, hold]
    exact rfl

theorem InsertProvisioningOperation_present (s : memory.operations)
    (op : ProvisioningOperation) (h : (s.operations.get? op.Operation.ID).isSome = true) :
    ∃ e, s.InsertProvisioningOperation op = (some e, s) ∧ e.IsAlreadyExists = true := by
  obtain ⟨old, hold⟩ := Option.isSome_iff_exists.1 h
  refine ⟨Err.AlreadyExists ?m, ?g, rfl⟩
  case g =>
    simp only [memory.operations.InsertProvisioningOperation, hold]
    exact rfl

theorem InsertDeprovisioningOperation_present (s : memory.operations)
    (op : DeprovisioningOperation) (h : (s.operations.get? op.Operation.ID).isSome = true) :
    ∃ e, s.InsertDeprovisioningOperation op = (some e, s) ∧ e.IsAlreadyExists = true := by
  obtain ⟨old, hold⟩ := Option.isSome_iff_exists.1 h
  refine ⟨Err.AlreadyExists ?m, ?g, rfl⟩
  case g =>
    simp only [memory.operations.InsertDeprovisioningOperation, hold]
    exact rfl

theorem InsertUpgradeClusterOperation_present (s : memory.operations)
    (op : UpgradeClusterOperation)
    (h : (s.upgradeClusterOperations.get? op.Operation.ID).isSome = true) :
    ∃ e, s.InsertUpgradeClusterOperation op = (some e, s) ∧ e.IsAlreadyExists = true := by
  obtain ⟨old, hold⟩ := Option.isSome_iff_exists.1 h
  refine ⟨Err.AlreadyExists ?m, ?g, rfl⟩
  case g =>
    simp only [memory.operations.InsertUpgradeClusterOperation, hold]
    exact rfl

theorem InsertUpdatingOperation_present (s : memory.operations) (op : UpdatingOperation)
    (h : (s.updateOperations.get? op.Operation.ID).isSome = true) :
    ∃ e, s.InsertUpdatingOperation op = (some e, s) ∧ e.IsAlreadyExists = true := by
  obtain ⟨old, hold⟩ := Option.isSome_iff_exists.1 h
  refine ⟨Err.AlreadyExists ?m, ?g, rfl⟩
  case g =>
    simp only [memory.operations.InsertUpdatingOperation, hold]
    exact rfl

/-- C9 as stated fails: after `InsertProvisioningOperation` with ID "op-1" into the
empty store, `InsertUpgradeClusterOperation` and `InsertUpdatingOperation` with ID
"op-1" both succeed. -/
theorem C9_other_table_counterexample :
    (memory.NewOperation.InsertProvisioningOperation ⟨Example.provisionOp⟩).1 = none ∧
    ((memory.NewOperation.InsertProvisioningOperation
        ⟨Example.provisionOp⟩).2.InsertUpgradeClusterOperation
        ⟨{ ID := "op-1", Type_ := OperationTypeUpgradeCluster }⟩).1 = none ∧
    ((memory.NewOperation.InsertProvisioningOperation
        ⟨Example.provisionOp⟩).2.InsertUpdatingOperation
        ⟨{ ID := "op-1", Type_ := OperationTypeUpdate }⟩).1 = none := by
  decide

/-- C9, amended: in the in-memory store an operation ID is unique within a table.
`InsertOperation`, `InsertProvisioningOperation` and `InsertDeprovisioningOperation`
share one table: once one of them has inserted ID `i`, then after any sequence of
inserts and updates each of the three fails with AlreadyExists on ID `i` and leaves the
store as it is.  `InsertUpgradeClusterOperation` and `InsertUpdatingOperation` have a
table each, with the same property.  An insert succeeds whenever the table it writes
holds no operation with the ID, whatever the other tables hold. -/
theorem C9_id_unique_per_table (s s1 : memory.operations) (calls : List memory.Call) :
    (∀ first op2 : Operation,
      (s.InsertOperation first = (none, s1) ∨
        s.InsertProvisioningOperation ⟨first⟩ = (none, s1) ∨
        s.InsertDeprovisioningOperation ⟨first⟩ = (none, s1)) →
      op2.ID = first.ID →
      (∃ e, (s1.calls calls).InsertOperation op2 = (some e, s1.calls calls) ∧
        e.IsAlreadyExists = true) ∧
      (∃ e, (s1.calls calls).InsertProvisioningOperation ⟨op2⟩ = (some e, s1.calls calls) ∧
        e.IsAlreadyExists = true) ∧
      (∃ e, (s1.calls calls).InsertDeprovisioningOperation ⟨op2⟩ = (some e, s1.calls calls) ∧
        e.IsAlreadyExists = true)) ∧
    (∀ first op2 : UpgradeClusterOperation,
      s.InsertUpgradeClusterOperation first = (none, s1) →
      op2.Operation.ID = first.Operation.ID →
      ∃ e, (s1.calls calls).InsertUpgradeClusterOperation op2 = (some e, s1.calls calls) ∧
        e.IsAlreadyExists = true) ∧
    (∀ first op2 : UpdatingOperation,
      s.InsertUpdatingOperation first = (none, s1) →
      op2.Operation.ID = first.Operation.ID →
      ∃ e, (s1.calls calls).InsertUpdatingOperation op2 = (some e, s1.calls calls) ∧
        e.IsAlreadyExists = true) ∧
    (∀ op : Operation, s.operations.get? op.ID = none →
      (s.InsertOperation op).1 = none ∧ (s.InsertProvisioningOperation ⟨op⟩).1 = none ∧
      (s.InsertDeprovisioningOperation ⟨op⟩).1 = none) ∧
    (∀ op : UpgradeClusterOperation, s.upgradeClusterOperations.get? op.Operation.ID = none →
      (s.InsertUpgradeClusterOperation op).1 = none) ∧
    (∀ op : UpdatingOperation, s.updateOperations.get? op.Operation.ID = none →
      (s.InsertUpdatingOperation op).1 = none) := by
  refine ⟨?_, ?_, ?_, ?_, ?_, ?_⟩
  · intro first op2 hfirst hid
    have hst : s1.operations.get? first.ID = some first := by
      rcases hfirst with h | h | h
      · exact InsertOperation_stored s s1 first h
      · exact InsertProvisioningOperation_stored s s1 ⟨first⟩ h
      · exact InsertDeprovisioningOperation_stored s s1 ⟨first⟩ h
    have hpres : ((s1.calls calls).operations.get? op2.ID).isSome = true := by
      rw [hid]
      exact (calls_keep_ids s1 calls first.ID).1 (by rw [hst]; rfl)
    exact ⟨InsertOperation_present _ op2 hpres,
      InsertProvisioningOperation_present _ ⟨op2⟩ hpres,
      InsertDeprovisioningOperation_present _ ⟨op2⟩ hpres⟩
  · intro first op2 hfirst hid
    have hst := InsertUpgradeClusterOperation_stored s s1 first hfirst
    refine InsertUpgradeClusterOperation_present _ op2 ?_
    rw [hid]
    exact (calls_keep_ids s1 calls first.Operation.ID).2.1 (by rw [hst]; rfl)
  · intro first op2 hfirst hid
    have hst := InsertUpdatingOperation_stored s s1 first hfirst
    refine InsertUpdatingOperation_present _ op2 ?_
    rw [hid]
    exact (calls_keep_ids s1 calls first.Operation.ID).2.2 (by rw [hst]; rfl)
  · intro op h
    simp only [memory.operations.InsertOperation,
      memory.operations.InsertProvisioningOperation,
      memory.operations.InsertDeprovisioningOperation, h, and_self]
  · intro op h
    simp only [memory.operations.InsertUpgradeClusterOperation, h]
  · intro op h
    simp only [memory.operations.InsertUpdatingOperation, h]

/-- Witness of the amended C9: second inserts into each table of the example stores after
`laterCalls`, and first inserts of ID "op-1" into the two tables that do not hold it. -/
theorem C9_id_unique_per_table_witness :
    ((∃ e, (Example.afterProvisioning.calls Example.laterCalls).InsertOperation
          { ID := "op-1", Type_ := OperationTypeDeprovision } =
          (some e, Example.afterProvisioning.calls Example.laterCalls) ∧
        e.IsAlreadyExists = true) ∧
      (∃ e, (Example.afterProvisioning.calls Example.laterCalls).InsertProvisioningOperation
          ⟨{ ID := "op-1", Type_ := OperationTypeDeprovision }⟩ =
          (some e, Example.afterProvisioning.calls Example.laterCalls) ∧
        e.IsAlreadyExists = true) ∧
      (∃ e, (Example.afterProvisioning.calls Example.laterCalls).InsertDeprovisioningOperation
          ⟨{ ID := "op-1", Type_ := OperationTypeDeprovision }⟩ =
          (some e, Example.afterProvisioning.calls Example.laterCalls) ∧
        e.IsAlreadyExists = true)) ∧
    (∃ e, (Example.afterUpgrade.calls Example.laterCalls).InsertUpgradeClusterOperation
        ⟨{ ID := "op-4" }⟩ = (some e, Example.afterUpgrade.calls Example.laterCalls) ∧
      e.IsAlreadyExists = true) ∧
    (∃ e, (Example.afterUpdating.calls Example.laterCalls).InsertUpdatingOperation
        ⟨{ ID := "op-5" }⟩ = (some e, Example.afterUpdating.calls Example.laterCalls) ∧
      e.IsAlreadyExists = true) ∧
    ((Example.afterUpgrade.InsertOperation { ID := "op-4" }).1 = none ∧
      (Example.afterUpgrade.InsertProvisioningOperation ⟨{ ID := "op-4" }⟩).1 = none ∧
      (Example.afterUpgrade.InsertDeprovisioningOperation ⟨{ ID := "op-4" }⟩).1 = none) ∧
    (Example.afterProvisioning.InsertUpgradeClusterOperation ⟨{ ID := "op-1" }⟩).1 = none ∧
    (Example.afterProvisioning.InsertUpdatingOperation ⟨{ ID := "op-1" }⟩).1 = none :=
  ⟨(C9_id_unique_per_table memory.NewOperation Example.afterProvisioning
      Example.laterCalls).1 Example.provisionOp
      { ID := "op-1", Type_ := OperationTypeDeprovision } (Or.inr (Or.inl (by decide))) rfl,
   (C9_id_unique_per_table memory.NewOperation Example.afterUpgrade
      Example.laterCalls).2.1 Example.upgradeOp ⟨{ ID := "op-4" }⟩ (by decide) rfl,
   (C9_id_unique_per_table memory.NewOperation Example.afterUpdating
      Example.laterCalls).2.2.1 Example.updateOp ⟨{ ID := "op-5" }⟩ (by decide) rfl,
   (C9_id_unique_per_table Example.afterUpgrade Example.afterUpgrade []).2.2.2.1
      { ID := "op-4" } (by decide),
   (C9_id_unique_per_table Example.afterProvisioning Example.afterProvisioning []).2.2.2.2.1
      ⟨{ ID := "op-1" }⟩ (by decide),
   (C9_id_unique_per_table Example.afterProvisioning Example.afterProvisioning []).2.2.2.2.2
      ⟨{ ID := "op-1" }⟩ (by decide)⟩

/-! ## The instance-removal step -/

/-- C10: when the lookup at the start of `Run` reports NotFound, `Run` returns the
operation it was given, a zero backoff and no error, whatever the operation is; the
lookup is the only call it makes on the storages, so nothing is written; and a second
run in which the lookup reports NotFound again returns the same result. -/
theorem C10_run_on_absent_instance {σ : Type} (s : deprovisioning.RemoveInstanceStep σ)
    (w : deprovisioning.World σ) (operation : Operation) (e : Err) (st : σ)
    (hget : s.GetByID w.state operation.InstanceID = (.error e, st))
    (he : e.IsNotFound = true) :
    s.Run w operation = ((operation, 0, none),
      { state := st,
        trace := w.trace ++ [deprovisioning.StorageCall.InstanceGetByID operation.InstanceID] }) ∧
    (∀ call ∈ (s.Run w operation).2.trace, call ∈ w.trace ∨ call.isWrite = false) ∧
    (∀ (e' : Err) (st' : σ), s.GetByID st operation.InstanceID = (.error e', st') →
      e'.IsNotFound = true →
      (s.Run (s.Run w operation).2 (s.Run w operation).1.1).1 = (s.Run w operation).1) := by
  have hrun : ∀ (w : deprovisioning.World σ) (e : Err) (st : σ),
      s.GetByID w.state operation.InstanceID = (.error e, st) → e.IsNotFound = true →
      s.Run w operation = ((operation, 0, none),
        { state := st,
          trace := w.trace ++
            [deprovisioning.StorageCall.InstanceGetByID operation.InstanceID] }) := by
    intro w e st hget he
    simp [deprovisioning.RemoveInstanceStep.Run,
      deprovisioning.RemoveInstanceStep.instanceGetByID, hget, he]
  have h1 := hrun w e st hget he
  refine ⟨h1, ?_, ?_⟩
  · intro call hcall
    rw [h1] at hcall
    simp only [List.mem_append, List.mem_singleton] at hcall
    rcases hcall with h | h
    · exact Or.inl h
    · exact Or.inr (by rw [h]; rfl)
  · intro e' st' hget' he'
    rw [h1]
    have h2 := hrun { state := st, trace := w.trace ++
      [deprovisioning.StorageCall.InstanceGetByID operation.InstanceID] } e' st' hget' he'
    show (s.Run { state := st, trace := w.trace ++
      [deprovisioning.StorageCall.InstanceGetByID operation.InstanceID] } operation).1 =
        (operation, 0, none)
    rw [h2]

/-- Witness of C10: the deprovisioning operation of "inst-1" on storages that hold only
"inst-2". -/
theorem C10_run_on_absent_instance_witness :
    Example.step.Run Example.worldWithoutInstance Example.deprovisionOp =
      ((Example.deprovisionOp, 0, none),
        { state := [{ InstanceID := "inst-2", RuntimeID := "abc" }],
          trace := Example.worldWithoutInstance.trace ++
            [deprovisioning.StorageCall.InstanceGetByID Example.deprovisionOp.InstanceID] }) ∧
    (∀ call ∈ (Example.step.Run Example.worldWithoutInstance Example.deprovisionOp).2.trace,
      call ∈ Example.worldWithoutInstance.trace ∨ call.isWrite = false) ∧
    (∀ (e' : Err) (st' : List deprovisioning.Instance),
      Example.step.GetByID [{ InstanceID := "inst-2", RuntimeID := "abc" }]
        Example.deprovisionOp.InstanceID = (.error e', st') →
      e'.IsNotFound = true →
      (Example.step.Run
        (Example.step.Run Example.worldWithoutInstance Example.deprovisionOp).2
        (Example.step.Run Example.worldWithoutInstance Example.deprovisionOp).1.1).1 =
      (Example.step.Run Example.worldWithoutInstance Example.deprovisionOp).1) :=
  C10_run_on_absent_instance Example.step Example.worldWithoutInstance Example.deprovisionOp
    (Err.NotFound ("Instance with id " ++ "inst-1" ++ " not exist"))
    [{ InstanceID := "inst-2", RuntimeID := "abc" }] (by decide) rfl

/-! ## The branches of the instance-removal step -/

/-- C11: for an operation with the Temporary flag whose instance exists, when the two
lookups, the instance update and the operation update succeed, `Run` sends the
instance with RuntimeID "" to the instance storage, returns the operation as the
operation storage saved it, with RuntimeID "", a zero backoff and no error, and does
not call `Delete`. -/
theorem C11_temporary_removal_clears_runtime_id {σ : Type}
    (s : deprovisioning.RemoveInstanceStep σ) (storage : process.Operations σ)
    (retry : Duration) (w : deprovisioning.World σ) (operation : Operation)
    (found inst saved : deprovisioning.Instance) (st1 st2 st3 st4 : σ) (t : Time)
    (hmgr : s.UpdateOperation = process.OperationManager.UpdateOperation storage retry)
    (htemp : operation.Temporary = true)
    (hget1 : s.GetByID w.state operation.InstanceID = (.ok found, st1))
    (hget2 : s.GetByID st1 operation.InstanceID = (.ok inst, st2))
    (hupd : s.Update st2 { inst with RuntimeID := "" } = (.ok saved, st3))
    (hop : storage.UpdateOperation st3 { operation with RuntimeID := "" } =
      (.ok { operation with RuntimeID := "", Version := operation.Version + 1, UpdatedAt := t },
        st4)) :
    s.Run w operation =
      (({ operation with RuntimeID := "", Version := operation.Version + 1, UpdatedAt := t },
          0, none),
        { state := st4,
          trace := w.trace ++
            [deprovisioning.StorageCall.InstanceGetByID operation.InstanceID,
             deprovisioning.StorageCall.InstanceGetByID operation.InstanceID,
             deprovisioning.StorageCall.InstanceUpdate { inst with RuntimeID := "" },
             deprovisioning.StorageCall.OperationUpdate operation] }) ∧
    (s.Run w operation).1.1.RuntimeID = "" ∧
    (∀ instanceID, deprovisioning.StorageCall.InstanceDelete instanceID ∈
        (s.Run w operation).2.trace →
      deprovisioning.StorageCall.InstanceDelete instanceID ∈ w.trace) := by
  have hrun : s.Run w operation =
      (({ operation with RuntimeID := "", Version := operation.Version + 1, UpdatedAt := t },
          0, none),
        { state := st4,
          trace := w.trace ++
            [deprovisioning.StorageCall.InstanceGetByID operation.InstanceID,
             deprovisioning.StorageCall.InstanceGetByID operation.InstanceID,
             deprovisioning.StorageCall.InstanceUpdate { inst with RuntimeID := "" },
             deprovisioning.StorageCall.OperationUpdate operation] }) := by
    simp only [deprovisioning.RemoveInstanceStep.Run,
      deprovisioning.RemoveInstanceStep.instanceGetByID,
      deprovisioning.RemoveInstanceStep.removeRuntimeIDFromInstance,
      deprovisioning.RemoveInstanceStep.instanceUpdate,
      deprovisioning.RemoveInstanceStep.managerUpdateOperation,
      process.OperationManager.UpdateOperation, hget1, hget2, hupd, hmgr, if_pos htemp,
      ne_eq, not_true_eq_false, if_false, hop, List.append_assoc, List.cons_append,
      List.nil_append]
  refine ⟨hrun, ?_, ?_⟩
  · rw [hrun]
  · intro instanceID h
    rw [hrun] at h
    simpa using h

/-- Witness of C11: the suspension operation of "inst-1", whose RuntimeID is "abc", on
storages that never fail. -/
theorem C11_temporary_removal_clears_runtime_id_witness :
    (Example.managedStep.Run Example.managedWorld Example.suspensionOp).1 =
      ({ Example.suspensionOp with RuntimeID := "", Version := 4 + 1, UpdatedAt := 0 },
        0, none) ∧
    (Example.managedStep.Run Example.managedWorld Example.suspensionOp).1.1.RuntimeID = "" ∧
    (∀ instanceID, deprovisioning.StorageCall.InstanceDelete instanceID ∈
        (Example.managedStep.Run Example.managedWorld Example.suspensionOp).2.trace →
      deprovisioning.StorageCall.InstanceDelete instanceID ∈ Example.managedWorld.trace) := by
  have h := C11_temporary_removal_clears_runtime_id Example.managedStep
    Example.operationStorage (60 * Second) Example.managedWorld Example.suspensionOp
    { InstanceID := "inst-1", RuntimeID := "abc", Version := 5 }
    { InstanceID := "inst-1", RuntimeID := "abc", Version := 5 }
    { InstanceID := "inst-1", RuntimeID := "", Version := 6 }
    (Example.instances, Example.removalStore) (Example.instances, Example.removalStore)
    ([{ InstanceID := "inst-1", RuntimeID := "", Version := 6 },
      { InstanceID := "inst-2", RuntimeID := "def" }], Example.removalStore)
    ([{ InstanceID := "inst-1", RuntimeID := "", Version := 6 },
      { InstanceID := "inst-2", RuntimeID := "def" }],
      (Example.removalStore.UpdateOperation { Example.suspensionOp with RuntimeID := "" }).2)
    0 rfl rfl (by decide) (by decide) (by decide) (by decide)
  exact ⟨congrArg Prod.fst h.1, h.2.1, h.2.2⟩

theorem Second_ne_zero : Second ≠ 0 := by decide

theorem ten_Second_ne_zero : 10 * Second ≠ 0 := by decide

/-- Counterexample to C12 as stated: the suspension operation has the Temporary flag, the
read of its instance at the start of `Run` fails with NotFound, and `Run` returns the
operation with a zero backoff, not with one second. -/
theorem C12_not_found_counterexample :
    Example.suspensionOp.Temporary = true ∧
    (Example.step.GetByID Example.worldWithoutInstance.state
        Example.suspensionOp.InstanceID).1 =
      .error (Err.NotFound "Instance with id inst-1 not exist") ∧
    (Example.step.Run Example.worldWithoutInstance Example.suspensionOp).1 =
      (Example.suspensionOp, 0, none) ∧
    (Example.step.Run Example.worldWithoutInstance Example.suspensionOp).1.2.1 ≠ Second := by
  refine ⟨by decide, by decide, by decide, by decide⟩

/-- C12, amended: for an operation with the Temporary flag, when the lookup at the start
of `Run` fails with an error other than NotFound, or the lookup or the update inside
`removeRuntimeIDFromInstance` fails with any error, `Run` returns the operation it was
given, a backoff of one second and no error, and makes no call after the failed one: the
operation is not written.  When the lookup at the start fails with NotFound, `Run`
returns the operation it was given, a zero backoff and no error, and makes no further
call. -/
theorem C12_temporary_removal_storage_failure {σ : Type}
    (s : deprovisioning.RemoveInstanceStep σ) (w : deprovisioning.World σ)
    (operation : Operation) (htemp : operation.Temporary = true) :
    (∀ (e : Err) (st1 : σ), s.GetByID w.state operation.InstanceID = (.error e, st1) →
      e.IsNotFound = false →
      s.Run w operation = ((operation, Second, none),
        { state := st1,
          trace := w.trace ++
            [deprovisioning.StorageCall.InstanceGetByID operation.InstanceID] })) ∧
    (∀ (found : deprovisioning.Instance) (e : Err) (st1 st2 : σ),
      s.GetByID w.state operation.InstanceID = (.ok found, st1) →
      s.GetByID st1 operation.InstanceID = (.error e, st2) →
      s.Run w operation = ((operation, Second, none),
        { state := st2,
          trace := w.trace ++
            [deprovisioning.StorageCall.InstanceGetByID operation.InstanceID,
             deprovisioning.StorageCall.InstanceGetByID operation.InstanceID] })) ∧
    (∀ (found inst : deprovisioning.Instance) (e : Err) (st1 st2 st3 : σ),
      s.GetByID w.state operation.InstanceID = (.ok found, st1) →
      s.GetByID st1 operation.InstanceID = (.ok inst, st2) →
      s.Update st2 { inst with RuntimeID := "" } = (.error e, st3) →
      s.Run w operation = ((operation, Second, none),
        { state := st3,
          trace := w.trace ++
            [deprovisioning.StorageCall.InstanceGetByID operation.InstanceID,
             deprovisioning.StorageCall.InstanceGetByID operation.InstanceID,
             deprovisioning.StorageCall.InstanceUpdate { inst with RuntimeID := "" }] })) ∧
    (∀ (e : Err) (st1 : σ), s.GetByID w.state operation.InstanceID = (.error e, st1) →
      e.IsNotFound = true →
      s.Run w operation = ((operation, 0, none),
        { state := st1,
          trace := w.trace ++
            [deprovisioning.StorageCall.InstanceGetByID operation.InstanceID] })) := by
  refine ⟨?_, ?_, ?_, ?_⟩
  · intro e st1 hget1 he
    simp [deprovisioning.RemoveInstanceStep.Run,
      deprovisioning.RemoveInstanceStep.instanceGetByID, hget1, he]
  · intro found e st1 st2 hget1 hget2
    simp only [deprovisioning.RemoveInstanceStep.Run,
      deprovisioning.RemoveInstanceStep.instanceGetByID,
      deprovisioning.RemoveInstanceStep.removeRuntimeIDFromInstance, hget1, hget2,
      if_pos htemp, if_pos Second_ne_zero, List.append_assoc, List.cons_append,
      List.nil_append]
  · intro found inst e st1 st2 st3 hget1 hget2 hupd
    simp only [deprovisioning.RemoveInstanceStep.Run,
      deprovisioning.RemoveInstanceStep.instanceGetByID,
      deprovisioning.RemoveInstanceStep.removeRuntimeIDFromInstance,
      deprovisioning.RemoveInstanceStep.instanceUpdate, hget1, hget2, hupd,
      if_pos htemp, if_pos Second_ne_zero, List.append_assoc, List.cons_append,
      List.nil_append]
  · intro e st1 hget1 he
    simp [deprovisioning.RemoveInstanceStep.Run,
      deprovisioning.RemoveInstanceStep.instanceGetByID, hget1, he]

/-- Witness of the amended C12: the suspension operation on an instance storage that
fails every call, on one that reads but refuses the update, on one that loses the
instance after the first lookup, and on one that does not hold the instance. -/
theorem C12_temporary_removal_storage_failure_witness :
    Example.brokenStep.Run Example.world Example.suspensionOp =
      ((Example.suspensionOp, Second, none),
        { state := Example.instances,
          trace := Example.world.trace ++
            [deprovisioning.StorageCall.InstanceGetByID Example.suspensionOp.InstanceID] }) ∧
    Example.readOnlyStep.Run Example.world Example.suspensionOp =
      ((Example.suspensionOp, Second, none),
        { state := Example.instances,
          trace := Example.world.trace ++
            [deprovisioning.StorageCall.InstanceGetByID Example.suspensionOp.InstanceID,
             deprovisioning.StorageCall.InstanceGetByID Example.suspensionOp.InstanceID,
             deprovisioning.StorageCall.InstanceUpdate
               { InstanceID := "inst-1", RuntimeID := "", Version := 5 }] }) ∧
    Example.vanishingStep.Run { state := 0 } Example.suspensionOp =
      ((Example.suspensionOp, Second, none),
        { state := 2,
          trace := [] ++
            [deprovisioning.StorageCall.InstanceGetByID Example.suspensionOp.InstanceID,
             deprovisioning.StorageCall.InstanceGetByID Example.suspensionOp.InstanceID] }) ∧
    Example.step.Run Example.worldWithoutInstance Example.suspensionOp =
      ((Example.suspensionOp, 0, none),
        { state := [{ InstanceID := "inst-2", RuntimeID := "abc" }],
          trace := Example.worldWithoutInstance.trace ++
            [deprovisioning.StorageCall.InstanceGetByID Example.suspensionOp.InstanceID] }) :=
  ⟨(C12_temporary_removal_storage_failure Example.brokenStep Example.world
      Example.suspensionOp rfl).1 (Err.Internal "connection refused") Example.instances
      (by decide) rfl,
   (C12_temporary_removal_storage_failure Example.readOnlyStep Example.world
      Example.suspensionOp rfl).2.2.1
      { InstanceID := "inst-1", RuntimeID := "abc", Version := 5 }
      { InstanceID := "inst-1", RuntimeID := "abc", Version := 5 }
      (Err.Internal "read-only transaction") Example.instances Example.instances
      Example.instances (by decide) (by decide) (by decide),
   (C12_temporary_removal_storage_failure Example.vanishingStep { state := 0 }
      Example.suspensionOp rfl).2.1 { InstanceID := "inst-1", RuntimeID := "abc" }
      (Err.NotFound ("Instance with id " ++ "inst-1" ++ " not exist")) 1 2
      (by decide) (by decide),
   (C12_temporary_removal_storage_failure Example.step Example.worldWithoutInstance
      Example.suspensionOp rfl).2.2.2
      (Err.NotFound ("Instance with id " ++ "inst-1" ++ " not exist"))
      [{ InstanceID := "inst-2", RuntimeID := "abc" }] (by decide) rfl⟩

/-- Counterexample to C13 as stated: the replay operation has Temporary false and a
non-nil ExcutedButNotCompleted list, its instance exists and is found by both lookups,
and the instance storage refuses the write of the instance with DeletedAt set: `Run`
returns the operation with a backoff of one second, not with a zero backoff. -/
theorem C13_refused_write_counterexample :
    Example.replayOp.Temporary = false ∧
    Example.replayOp.ExcutedButNotCompleted ≠ none ∧
    (Example.readOnlyStep.GetByID Example.world.state Example.replayOp.InstanceID).1 =
      .ok { InstanceID := "inst-1", RuntimeID := "abc", Version := 5 } ∧
    (Example.readOnlyStep.Run Example.world Example.replayOp).1 =
      (Example.replayOp, Second, none) ∧
    (Example.readOnlyStep.Run Example.world Example.replayOp).2.trace =
      [deprovisioning.StorageCall.InstanceGetByID "inst-1",
       deprovisioning.StorageCall.InstanceGetByID "inst-1",
       deprovisioning.StorageCall.InstanceUpdate
         { InstanceID := "inst-1", RuntimeID := "abc", Version := 5, DeletedAt := 1000 }] ∧
    (Example.readOnlyStep.Run Example.world Example.replayOp).2.state = Example.instances ∧
    (Example.readOnlyStep.Run Example.world Example.replayOp).1.2.1 ≠ 0 := by
  refine ⟨by decide, by decide, by decide, by decide, by decide, by decide, by decide⟩

/-- C13, amended: for an operation with Temporary false and a non-nil
ExcutedButNotCompleted list whose instance exists, `Run` sends the instance with
DeletedAt set to the current time to the instance storage, without calling `Delete` and
without an operation update, and returns the operation unchanged and no error, with a
zero backoff when the write succeeds and a backoff of one second when the write fails;
when the lookup inside the branch reports NotFound, `Run` returns the operation with a
zero backoff and no error, and when it fails with another error, with a backoff of one
second and no error. -/
theorem C13_incomplete_removal_marks_instance {σ : Type}
    (s : deprovisioning.RemoveInstanceStep σ) (w : deprovisioning.World σ)
    (operation : Operation) (found : deprovisioning.Instance) (st1 : σ)
    (htemp : operation.Temporary = false)
    (hsteps : operation.ExcutedButNotCompleted ≠ none)
    (hget1 : s.GetByID w.state operation.InstanceID = (.ok found, st1)) :
    (∀ (inst saved : deprovisioning.Instance) (st2 st3 : σ),
      s.GetByID st1 operation.InstanceID = (.ok inst, st2) →
      s.Update st2 { inst with DeletedAt := s.Now st2 } = (.ok saved, st3) →
      s.Run w operation = ((operation, 0, none),
        { state := st3,
          trace := w.trace ++
            [deprovisioning.StorageCall.InstanceGetByID operation.InstanceID,
             deprovisioning.StorageCall.InstanceGetByID operation.InstanceID,
             deprovisioning.StorageCall.InstanceUpdate
               { inst with DeletedAt := s.Now st2 }] })) ∧
    (∀ (e : Err) (st2 : σ),
      s.GetByID st1 operation.InstanceID = (.error e, st2) → e.IsNotFound = true →
      s.Run w operation = ((operation, 0, none),
        { state := st2,
          trace := w.trace ++
            [deprovisioning.StorageCall.InstanceGetByID operation.InstanceID,
             deprovisioning.StorageCall.InstanceGetByID operation.InstanceID] })) ∧
    (∀ (inst : deprovisioning.Instance) (e : Err) (st2 st3 : σ),
      s.GetByID st1 operation.InstanceID = (.ok inst, st2) →
      s.Update st2 { inst with DeletedAt := s.Now st2 } = (.error e, st3) →
      s.Run w operation = ((operation, Second, none),
        { state := st3,
          trace := w.trace ++
            [deprovisioning.StorageCall.InstanceGetByID operation.InstanceID,
             deprovisioning.StorageCall.InstanceGetByID operation.InstanceID,
             deprovisioning.StorageCall.InstanceUpdate
               { inst with DeletedAt := s.Now st2 }] })) ∧
    (∀ (e : Err) (st2 : σ),
      s.GetByID st1 operation.InstanceID = (.error e, st2) → e.IsNotFound = false →
      s.Run w operation = ((operation, Second, none),
        { state := st2,
          trace := w.trace ++
            [deprovisioning.StorageCall.InstanceGetByID operation.InstanceID,
             deprovisioning.StorageCall.InstanceGetByID operation.InstanceID] })) := by
  have htemp' : ¬ operation.Temporary = true := by simp [htemp]
  refine ⟨?_, ?_, ?_, ?_⟩
  · intro inst saved st2 st3 hget2 hupd
    simp only [deprovisioning.RemoveInstanceStep.Run,
      deprovisioning.RemoveInstanceStep.instanceGetByID,
      deprovisioning.RemoveInstanceStep.markInstanceNeedsRetrySomeSteps,
      deprovisioning.RemoveInstanceStep.instanceUpdate, hget1, hget2, hupd,
      if_neg htemp', if_pos hsteps, ne_eq, not_true_eq_false, if_false,
      List.append_assoc, List.cons_append, List.nil_append]
  · intro e st2 hget2 he
    simp only [deprovisioning.RemoveInstanceStep.Run,
      deprovisioning.RemoveInstanceStep.instanceGetByID,
      deprovisioning.RemoveInstanceStep.markInstanceNeedsRetrySomeSteps, hget1, hget2, he,
      if_neg htemp', if_pos hsteps, ne_eq, not_true_eq_false, if_false, if_true,
      List.append_assoc, List.cons_append, List.nil_append]
  · intro inst e st2 st3 hget2 hupd
    simp only [deprovisioning.RemoveInstanceStep.Run,
      deprovisioning.RemoveInstanceStep.instanceGetByID,
      deprovisioning.RemoveInstanceStep.markInstanceNeedsRetrySomeSteps,
      deprovisioning.RemoveInstanceStep.instanceUpdate, hget1, hget2, hupd,
      if_neg htemp', if_pos hsteps, if_pos Second_ne_zero,
      List.append_assoc, List.cons_append, List.nil_append]
  · intro e st2 hget2 he
    simp [deprovisioning.RemoveInstanceStep.Run,
      deprovisioning.RemoveInstanceStep.instanceGetByID,
      deprovisioning.RemoveInstanceStep.markInstanceNeedsRetrySomeSteps, hget1, hget2, he,
      htemp, hsteps, Second_ne_zero]

/-- Witness of the amended C13: the replay operation on storages that never fail, on an
instance storage that reports NotFound at the lookup inside the branch, and on one that
reads but refuses the write. -/
theorem C13_incomplete_removal_marks_instance_witness :
    Example.step.Run Example.world Example.replayOp =
      ((Example.replayOp, 0, none),
        { state := [{ InstanceID := "inst-1", RuntimeID := "abc", Version := 6,
                      DeletedAt := 1000 },
                    { InstanceID := "inst-2", RuntimeID := "def" }],
          trace := Example.world.trace ++
            [deprovisioning.StorageCall.InstanceGetByID Example.replayOp.InstanceID,
             deprovisioning.StorageCall.InstanceGetByID Example.replayOp.InstanceID,
             deprovisioning.StorageCall.InstanceUpdate
               { InstanceID := "inst-1", RuntimeID := "abc", Version := 5,
                 DeletedAt := Example.step.Now Example.instances }] }) ∧
    Example.vanishingStep.Run { state := 0 } Example.replayOp =
      ((Example.replayOp, 0, none),
        { state := 2,
          trace := [] ++
            [deprovisioning.StorageCall.InstanceGetByID Example.replayOp.InstanceID,
             deprovisioning.StorageCall.InstanceGetByID Example.replayOp.InstanceID] }) ∧
    Example.readOnlyStep.Run Example.world Example.replayOp =
      ((Example.replayOp, Second, none),
        { state := Example.instances,
          trace := Example.world.trace ++
            [deprovisioning.StorageCall.InstanceGetByID Example.replayOp.InstanceID,
             deprovisioning.StorageCall.InstanceGetByID Example.replayOp.InstanceID,
             deprovisioning.StorageCall.InstanceUpdate
               { InstanceID := "inst-1", RuntimeID := "abc", Version := 5,
                 DeletedAt := Example.readOnlyStep.Now Example.instances }] }) :=
  ⟨(C13_incomplete_removal_marks_instance Example.step Example.world Example.replayOp
      { InstanceID := "inst-1", RuntimeID := "abc", Version := 5 } Example.instances
      rfl (by decide) (by decide)).1
      { InstanceID := "inst-1", RuntimeID := "abc", Version := 5 }
      { InstanceID := "inst-1", RuntimeID := "abc", Version := 6, DeletedAt := 1000 }
      Example.instances
      [{ InstanceID := "inst-1", RuntimeID := "abc", Version := 6, DeletedAt := 1000 },
       { InstanceID := "inst-2", RuntimeID := "def" }] (by decide) (by decide),
   (C13_incomplete_removal_marks_instance Example.vanishingStep { state := 0 }
      Example.replayOp { InstanceID := "inst-1", RuntimeID := "abc" } 1
      rfl (by decide) (by decide)).2.1
      (Err.NotFound ("Instance with id " ++ "inst-1" ++ " not exist")) 2 (by decide) rfl,
   (C13_incomplete_removal_marks_instance Example.readOnlyStep Example.world
      Example.replayOp { InstanceID := "inst-1", RuntimeID := "abc", Version := 5 }
      Example.instances rfl (by decide) (by decide)).2.2.1
      { InstanceID := "inst-1", RuntimeID := "abc", Version := 5 }
      (Err.Internal "read-only transaction") Example.instances Example.instances
      (by decide) (by decide)⟩

/-- C14: for an operation with Temporary false and a nil ExcutedButNotCompleted list
whose instance exists: when `Delete` succeeds and the operation update succeeds, `Run`
returns the operation as the operation storage saved it, with the UserID of its
provisioning parameters set to "", and a zero backoff; when `Delete` fails, `Run`
returns the operation it was given with a backoff of ten seconds and does not call the
operation manager. -/
theorem C14_permanent_removal {σ : Type}
    (s : deprovisioning.RemoveInstanceStep σ) (w : deprovisioning.World σ)
    (operation : Operation) (found : deprovisioning.Instance) (st1 : σ)
    (htemp : operation.Temporary = false)
    (hsteps : operation.ExcutedButNotCompleted = none)
    (hget1 : s.GetByID w.state operation.InstanceID = (.ok found, st1)) :
    (∀ (storage : process.Operations σ) (retry : Duration) (st2 st3 : σ) (t : Time),
      s.UpdateOperation = process.OperationManager.UpdateOperation storage retry →
      s.Delete st1 operation.InstanceID = (none, st2) →
      storage.UpdateOperation st2
          { operation with ProvisioningParameters :=
              { operation.ProvisioningParameters with ErsContext :=
                  { operation.ProvisioningParameters.ErsContext with UserID := "" } } } =
        (.ok { operation with
                ProvisioningParameters :=
                  { operation.ProvisioningParameters with ErsContext :=
                      { operation.ProvisioningParameters.ErsContext with UserID := "" } }
                Version := operation.Version + 1
                UpdatedAt := t }, st3) →
      s.Run w operation =
        (({ operation with
              ProvisioningParameters :=
                { operation.ProvisioningParameters with ErsContext :=
                    { operation.ProvisioningParameters.ErsContext with UserID := "" } }
              Version := operation.Version + 1
              UpdatedAt := t }, 0, none),
          { state := st3,
            trace := w.trace ++
              [deprovisioning.StorageCall.InstanceGetByID operation.InstanceID,
               deprovisioning.StorageCall.InstanceDelete operation.InstanceID,
               deprovisioning.StorageCall.OperationUpdate operation] }) ∧
      (s.Run w operation).1.1.ProvisioningParameters.ErsContext.UserID = "") ∧
    (∀ (e : Err) (st2 : σ), s.Delete st1 operation.InstanceID = (some e, st2) →
      s.Run w operation = ((operation, 10 * Second, none),
        { state := st2,
          trace := w.trace ++
            [deprovisioning.StorageCall.InstanceGetByID operation.InstanceID,
             deprovisioning.StorageCall.InstanceDelete operation.InstanceID] })) := by
  have htemp' : ¬ operation.Temporary = true := by simp [htemp]
  have hsteps' : ¬ operation.ExcutedButNotCompleted ≠ none := by simp [hsteps]
  refine ⟨?_, ?_⟩
  · intro storage retry st2 st3 t hmgr hdel hop
    have hrun : s.Run w operation =
        (({ operation with
              ProvisioningParameters :=
                { operation.ProvisioningParameters with ErsContext :=
                    { operation.ProvisioningParameters.ErsContext with UserID := "" } }
              Version := operation.Version + 1
              UpdatedAt := t }, 0, none),
          { state := st3,
            trace := w.trace ++
              [deprovisioning.StorageCall.InstanceGetByID operation.InstanceID,
               deprovisioning.StorageCall.InstanceDelete operation.InstanceID,
               deprovisioning.StorageCall.OperationUpdate operation] }) := by
      simp only [deprovisioning.RemoveInstanceStep.Run,
        deprovisioning.RemoveInstanceStep.instanceGetByID,
        deprovisioning.RemoveInstanceStep.removeInstancePermanently,
        deprovisioning.RemoveInstanceStep.instanceDelete,
        deprovisioning.RemoveInstanceStep.managerUpdateOperation,
        process.OperationManager.UpdateOperation, hget1, hdel, hmgr, if_neg htemp',
        if_neg hsteps', ne_eq, not_true_eq_false, if_false, hop, List.append_assoc,
        List.cons_append, List.nil_append]
    exact ⟨hrun, by rw [hrun]⟩
  · intro e st2 hdel
    simp only [deprovisioning.RemoveInstanceStep.Run,
      deprovisioning.RemoveInstanceStep.instanceGetByID,
      deprovisioning.RemoveInstanceStep.removeInstancePermanently,
      deprovisioning.RemoveInstanceStep.instanceDelete, hget1, hdel, if_neg htemp',
      if_neg hsteps', if_pos ten_Second_ne_zero, List.append_assoc, List.cons_append,
      List.nil_append]

/-- Witness of C14: the permanent removal operation of "inst-1" on storages that never
fail, after which only "inst-2" is stored, and on an instance storage that refuses the
delete. -/
theorem C14_permanent_removal_witness :
    (Example.managedStep.Run Example.managedWorld Example.permanentOp =
        (({ Example.permanentOp with
              ProvisioningParameters := { ErsContext := { UserID := "" } }
              Version := 2 + 1
              UpdatedAt := 0 }, 0, none),
          { state := ([{ InstanceID := "inst-2", RuntimeID := "def" }],
              (Example.removalStore.UpdateOperation
                { Example.permanentOp with
                  ProvisioningParameters := { ErsContext := { UserID := "" } } }).2),
            trace := Example.managedWorld.trace ++
              [deprovisioning.StorageCall.InstanceGetByID Example.permanentOp.InstanceID,
               deprovisioning.StorageCall.InstanceDelete Example.permanentOp.InstanceID,
               deprovisioning.StorageCall.OperationUpdate Example.permanentOp] }) ∧
      (Example.managedStep.Run Example.managedWorld
        Example.permanentOp).1.1.ProvisioningParameters.ErsContext.UserID = "") ∧
    Example.readOnlyStep.Run Example.world Example.permanentOp =
      ((Example.permanentOp, 10 * Second, none),
        { state := Example.instances,
          trace := Example.world.trace ++
            [deprovisioning.StorageCall.InstanceGetByID Example.permanentOp.InstanceID,
             deprovisioning.StorageCall.InstanceDelete Example.permanentOp.InstanceID] }) :=
  ⟨(C14_permanent_removal Example.managedStep Example.managedWorld Example.permanentOp
      { InstanceID := "inst-1", RuntimeID := "abc", Version := 5 }
      (Example.instances, Example.removalStore) rfl rfl (by decide)).1
      Example.operationStorage (60 * Second)
      ([{ InstanceID := "inst-2", RuntimeID := "def" }], Example.removalStore)
      ([{ InstanceID := "inst-2", RuntimeID := "def" }],
        (Example.removalStore.UpdateOperation
          { Example.permanentOp with
            ProvisioningParameters := { ErsContext := { UserID := "" } } }).2)
      0 rfl (by decide) (by decide),
   (C14_permanent_removal Example.readOnlyStep Example.world Example.permanentOp
      { InstanceID := "inst-1", RuntimeID := "abc", Version := 5 } Example.instances
      rfl rfl (by decide)).2 (Err.Internal "read-only transaction") Example.instances
      (by decide)⟩

/-! ## Calls that never delete -/

theorem instanceGetByID_undeleted {σ : Type} (s : deprovisioning.RemoveInstanceStep σ)
    (P : σ → Prop) (hget : ∀ st instanceID, P st → P (s.GetByID st instanceID).2)
    (w0 w : deprovisioning.World σ) (instanceID : String)
    (h : deprovisioning.World.undeleted P w0 w) :
    deprovisioning.World.undeleted P w0 (s.instanceGetByID w instanceID).2 := by
  refine ⟨?_, hget _ _ h.2⟩
  intro i hi
  simp only [deprovisioning.RemoveInstanceStep.instanceGetByID, List.mem_append,
    List.mem_singleton] at hi
  rcases hi with hi | hi
  · exact h.1 i hi
  · cases hi

theorem instanceUpdate_undeleted {σ : Type} (s : deprovisioning.RemoveInstanceStep σ)
    (P : σ → Prop) (hupd : ∀ st inst, P st → P (s.Update st inst).2)
    (w0 w : deprovisioning.World σ) (inst : deprovisioning.Instance)
    (h : deprovisioning.World.undeleted P w0 w) :
    deprovisioning.World.undeleted P w0 (s.instanceUpdate w inst).2 := by
  refine ⟨?_, hupd _ _ h.2⟩
  intro i hi
  simp only [deprovisioning.RemoveInstanceStep.instanceUpdate, List.mem_append,
    List.mem_singleton] at hi
  rcases hi with hi | hi
  · exact h.1 i hi
  · cases hi

theorem managerUpdateOperation_undeleted {σ : Type} (s : deprovisioning.RemoveInstanceStep σ)
    (P : σ → Prop) (hmgr : ∀ st op update, P st → P (s.UpdateOperation st op update).2)
    (w0 w : deprovisioning.World σ) (operation : Operation) (update : Operation → Operation)
    (h : deprovisioning.World.undeleted P w0 w) :
    deprovisioning.World.undeleted P w0 (s.managerUpdateOperation w operation update).2 := by
  refine ⟨?_, hmgr _ _ _ h.2⟩
  intro i hi
  simp only [deprovisioning.RemoveInstanceStep.managerUpdateOperation, List.mem_append,
    List.mem_singleton] at hi
  rcases hi with hi | hi
  · exact h.1 i hi
  · cases hi

theorem removeRuntimeIDFromInstance_undeleted {σ : Type}
    (s : deprovisioning.RemoveInstanceStep σ) (P : σ → Prop)
    (hget : ∀ st instanceID, P st → P (s.GetByID st instanceID).2)
    (hupd : ∀ st inst, P st → P (s.Update st inst).2)
    (w0 w : deprovisioning.World σ) (instanceID : String)
    (h : deprovisioning.World.undeleted P w0 w) :
    deprovisioning.World.undeleted P w0 (s.removeRuntimeIDFromInstance w instanceID).2 := by
  have h1 := instanceGetByID_undeleted s P hget w0 w instanceID h
  unfold deprovisioning.RemoveInstanceStep.removeRuntimeIDFromInstance
  rcases hg : s.instanceGetByID w instanceID with ⟨r, w1⟩
  rw [hg] at h1
  cases r with
  | error e => exact h1
  | ok inst =>
    have h2 := instanceUpdate_undeleted s P hupd w0 w1 { inst with RuntimeID := "" } h1
    simp only
    rcases hu : s.instanceUpdate w1 { inst with RuntimeID := "" } with ⟨r2, w2⟩
    rw [hu] at h2
    cases r2 <;> exact h2

theorem markInstanceNeedsRetrySomeSteps_undeleted {σ : Type}
    (s : deprovisioning.RemoveInstanceStep σ) (P : σ → Prop)
    (hget : ∀ st instanceID, P st → P (s.GetByID st instanceID).2)
    (hupd : ∀ st inst, P st → P (s.Update st inst).2)
    (w0 w : deprovisioning.World σ) (instanceID : String)
    (h : deprovisioning.World.undeleted P w0 w) :
    deprovisioning.World.undeleted P w0
      (s.markInstanceNeedsRetrySomeSteps w instanceID).2 := by
  have h1 := instanceGetByID_undeleted s P hget w0 w instanceID h
  unfold deprovisioning.RemoveInstanceStep.markInstanceNeedsRetrySomeSteps
  rcases hg : s.instanceGetByID w instanceID with ⟨r, w1⟩
  rw [hg] at h1
  cases r with
  | error e =>
    simp only
    split <;> exact h1
  | ok inst =>
    have h2 := instanceUpdate_undeleted s P hupd w0 w1
      { inst with DeletedAt := s.Now w1.state } h1
    simp only
    rcases hu : s.instanceUpdate w1 { inst with DeletedAt := s.Now w1.state } with ⟨r2, w2⟩
    rw [hu] at h2
    cases r2 <;> exact h2

/-- C15: for an operation with the Temporary flag, or with a non-nil
ExcutedButNotCompleted list (an empty one included), `Run` makes no call of `Delete`,
whatever the storages answer; and whatever holds of the storages and is kept by the
lookup, the instance update and the operation update, such as the presence of an
instance, still holds after `Run`. -/
theorem C15_no_delete_unless_permanent {σ : Type} (s : deprovisioning.RemoveInstanceStep σ)
    (w : deprovisioning.World σ) (operation : Operation)
    (h : operation.Temporary = true ∨ operation.ExcutedButNotCompleted ≠ none) :
    (∀ instanceID, deprovisioning.StorageCall.InstanceDelete instanceID ∈
        (s.Run w operation).2.trace →
      deprovisioning.StorageCall.InstanceDelete instanceID ∈ w.trace) ∧
    (∀ P : σ → Prop, (∀ st instanceID, P st → P (s.GetByID st instanceID).2) →
      (∀ st inst, P st → P (s.Update st inst).2) →
      (∀ st op update, P st → P (s.UpdateOperation st op update).2) →
      P w.state → P (s.Run w operation).2.state) := by
  have key : ∀ P : σ → Prop, (∀ st instanceID, P st → P (s.GetByID st instanceID).2) →
      (∀ st inst, P st → P (s.Update st inst).2) →
      (∀ st op update, P st → P (s.UpdateOperation st op update).2) →
      P w.state → deprovisioning.World.undeleted P w (s.Run w operation).2 := by
    intro P hget hupd hmgr hP
    have h0 : deprovisioning.World.undeleted P w w := ⟨fun _ hi => hi, hP⟩
    have h1 := instanceGetByID_undeleted s P hget w w operation.InstanceID h0
    unfold deprovisioning.RemoveInstanceStep.Run
    rcases hg : s.instanceGetByID w operation.InstanceID with ⟨r, w1⟩
    rw [hg] at h1
    cases r with
    | error e =>
      simp only
      split <;> exact h1
    | ok found =>
      simp only
      by_cases htemp : operation.Temporary = true
      · rw [if_pos htemp]
        have h2 := removeRuntimeIDFromInstance_undeleted s P hget hupd w w1
          operation.InstanceID h1
        rcases hr : s.removeRuntimeIDFromInstance w1 operation.InstanceID with ⟨backoff, w2⟩
        rw [hr] at h2
        simp only
        split
        · exact h2
        · exact managerUpdateOperation_undeleted s P hmgr w w2 operation _ h2
      · rw [if_neg htemp]
        have hsteps : operation.ExcutedButNotCompleted ≠ none := by
          rcases h with h | h
          · exact absurd h htemp
          · exact h
        rw [if_pos hsteps]
        have h2 := markInstanceNeedsRetrySomeSteps_undeleted s P hget hupd w w1
          operation.InstanceID h1
        rcases hr : s.markInstanceNeedsRetrySomeSteps w1 operation.InstanceID with
          ⟨backoff, w2⟩
        rw [hr] at h2
        simp only
        split <;> exact h2
  refine ⟨?_, ?_⟩
  · exact (key (fun _ => True) (fun _ _ _ => trivial) (fun _ _ _ => trivial)
      (fun _ _ _ _ => trivial) trivial).1
  · intro P hget hupd hmgr hP
    exact (key P hget hupd hmgr hP).2

/-- Witness of C15: on storages that never fail, a removal operation with an empty,
non-nil list of steps makes no call of `Delete`, and after the suspension operation the
instance "inst-1" is still stored. -/
theorem C15_no_delete_unless_permanent_witness :
    (∀ instanceID, deprovisioning.StorageCall.InstanceDelete instanceID ∈
        (Example.step.Run Example.world
          { Example.permanentOp with ExcutedButNotCompleted := some [] }).2.trace →
      deprovisioning.StorageCall.InstanceDelete instanceID ∈ Example.world.trace) ∧
    (∃ i ∈ (Example.step.Run Example.world Example.suspensionOp).2.state,
      i.InstanceID = "inst-1") := by
  refine ⟨(C15_no_delete_unless_permanent Example.step Example.world
      { Example.permanentOp with ExcutedButNotCompleted := some [] }
      (Or.inr (by decide))).1, ?_⟩
  refine (C15_no_delete_unless_permanent Example.step Example.world Example.suspensionOp
    (Or.inl rfl)).2 (fun st => ∃ i ∈ st, i.InstanceID = "inst-1") ?_ ?_ ?_ ?_
  · intro st instanceID hst
    simp only [Example.step]
    split <;> exact hst
  · rintro st inst ⟨i, hi, hid⟩
    simp only [Example.step]
    by_cases hc : i.InstanceID = inst.InstanceID
    · refine ⟨{ inst with Version := inst.Version + 1 }, ?_, ?_⟩
      · rw [List.mem_map]
        exact ⟨i, hi, by rw [if_pos hc]⟩
      · show inst.InstanceID = "inst-1"
        rw [← hc, hid]
    · refine ⟨i, ?_, hid⟩
      rw [List.mem_map]
      exact ⟨i, hi, by rw [if_neg hc]⟩
  · intro st op update hst
    exact hst
  · exact ⟨{ InstanceID := "inst-1", RuntimeID := "abc", Version := 5 }, by decide, rfl⟩

/-! ## One iteration of the label updater -/

/-- C16: in an iteration of `Run` that dequeues an item, when listing the resources
labelled with the subaccount of the item fails, the calls of the iteration are the
extraction, the listing and one insertion of the very item: no resource is updated. -/
theorem C16_list_failure_requeues_item {σ : Type} (u : kymacustomresource.Updater σ)
    (w : kymacustomresource.World σ) (item : kymacustomresource.QueueElement) (e : Err)
    (st1 st2 : σ) (hextract : u.Extract w.state = (some item, st1))
    (hlist : u.List st1 (kymacustomresource.subaccountIdLabelFormat item.SubaccountID) =
      (.error e, st2)) :
    u.iteration w =
      { state := u.Insert st2 item,
        trace := w.trace ++
          [kymacustomresource.Call.Extract,
           kymacustomresource.Call.List
             (kymacustomresource.subaccountIdLabelFormat item.SubaccountID),
           kymacustomresource.Call.Insert item] } := by
  simp only [kymacustomresource.Updater.iteration, kymacustomresource.Updater.queueExtract,
    kymacustomresource.Updater.clientList, kymacustomresource.Updater.queueInsert,
    hextract, hlist, List.append_assoc, List.cons_append, List.nil_append]

/-- Witness of C16: the item of subaccount "S1" on a cluster that cannot be reached. -/
theorem C16_list_failure_requeues_item_witness :
    Example.offlineUpdater.iteration { state := ([Example.queueItem], [Example.kymaS1]) } =
      { state := Example.offlineUpdater.Insert ([], [Example.kymaS1]) Example.queueItem,
        trace := [] ++
          [kymacustomresource.Call.Extract,
           kymacustomresource.Call.List
             (kymacustomresource.subaccountIdLabelFormat Example.queueItem.SubaccountID),
           kymacustomresource.Call.Insert Example.queueItem] } :=
  C16_list_failure_requeues_item Example.offlineUpdater
    { state := ([Example.queueItem], [Example.kymaS1]) } Example.queueItem
    (Err.Internal "connection refused") ([], [Example.kymaS1]) ([], [Example.kymaS1])
    (by decide) (by decide)

/-- C17: in an iteration of `Run` that dequeues an item, when the listing succeeds and
returns no resource, the calls of the iteration are the extraction and the listing: the
item is not inserted back and no resource is updated. -/
theorem C17_no_resource_drops_item {σ : Type} (u : kymacustomresource.Updater σ)
    (w : kymacustomresource.World σ) (item : kymacustomresource.QueueElement)
    (st1 st2 : σ) (hextract : u.Extract w.state = (some item, st1))
    (hlist : u.List st1 (kymacustomresource.subaccountIdLabelFormat item.SubaccountID) =
      (.ok [], st2)) :
    u.iteration w =
      { state := st2,
        trace := w.trace ++
          [kymacustomresource.Call.Extract,
           kymacustomresource.Call.List
             (kymacustomresource.subaccountIdLabelFormat item.SubaccountID)] } := by
  simp only [kymacustomresource.Updater.iteration, kymacustomresource.Updater.queueExtract,
    kymacustomresource.Updater.clientList, hextract, hlist, List.length_nil, if_true,
    List.append_assoc, List.cons_append, List.nil_append]

/-- Witness of C17: the item of subaccount "S1" on a cluster that holds a resource of
subaccount "S2" only. -/
theorem C17_no_resource_drops_item_witness :
    Example.updater.iteration { state := ([Example.queueItem], [Example.kymaS2]) } =
      { state := ([], [Example.kymaS2]),
        trace := [] ++
          [kymacustomresource.Call.Extract,
           kymacustomresource.Call.List
             (kymacustomresource.subaccountIdLabelFormat Example.queueItem.SubaccountID)] } :=
  C17_no_resource_drops_item Example.updater
    { state := ([Example.queueItem], [Example.kymaS2]) } Example.queueItem
    ([], [Example.kymaS2]) ([], [Example.kymaS2]) (by decide) (by decide)

/-- One result per listed resource. -/
theorem updateEveryResource_length {σ : Type} (u : kymacustomresource.Updater σ)
    (item : kymacustomresource.QueueElement) (items : kymacustomresource.UnstructuredList)
    (st : σ) : (kymacustomresource.updateEveryResource u item items st).1.length = items.length := by
  induction items generalizing st with
  | nil => rfl
  | cons un rest ih =>
    simp only [kymacustomresource.updateEveryResource, List.length_cons, ih]

/-- The loop of `Run` over the listed resources makes the calls of `updateEveryResource`,
records each with what it returned, and raises the flag when one of them returned an
error. -/
theorem updateAll_eq {σ : Type} (u : kymacustomresource.Updater σ)
    (item : kymacustomresource.QueueElement) (items : kymacustomresource.UnstructuredList)
    (retryRequired : Bool) (w : kymacustomresource.World σ) :
    u.updateAll item items retryRequired w =
      (retryRequired || (kymacustomresource.updateEveryResource u item items w.state).1.any Option.isSome,
        { state := (kymacustomresource.updateEveryResource u item items w.state).2,
          trace := w.trace ++ List.zipWith
            (fun un r => kymacustomresource.Call.Update
              (kymacustomresource.labelled un item.BetaEnabled item.UsedForProduction) r)
            items (kymacustomresource.updateEveryResource u item items w.state).1 }) := by
  induction items generalizing retryRequired w with
  | nil => simp [kymacustomresource.Updater.updateAll,
      kymacustomresource.updateEveryResource]
  | cons un rest ih =>
    unfold kymacustomresource.Updater.updateAll
    simp only [kymacustomresource.Updater.updateLabels,
      kymacustomresource.Updater.clientUpdate,
      kymacustomresource.updateEveryResource]
    cases hr : (u.Update w.state
        (kymacustomresource.labelled un item.BetaEnabled item.UsedForProduction)).1 with
    | none =>
      simp only [ih]
      simp [hr]
    | some e =>
      simp only [ih]
      simp [hr]

/-- C18: in an iteration of `Run` that dequeues an item and lists a non-empty list of
resources, the client method `Update` is called once for every listed resource, in the
order of the list, on the resource with the labels of the item and in the state left by
the update before it, whatever the earlier updates returned; the calls of the iteration
are the extraction, the listing, these updates with what they returned, and then one
insertion of the item if some update returned an error and no insertion otherwise; the
state after the iteration is the state after the last update, with the item inserted
back in the first case. -/
theorem C18_updates_all_and_requeues_on_failure {σ : Type}
    (u : kymacustomresource.Updater σ) (w : kymacustomresource.World σ)
    (item : kymacustomresource.QueueElement) (items : kymacustomresource.UnstructuredList)
    (st1 st2 : σ) (hextract : u.Extract w.state = (some item, st1))
    (hlist : u.List st1 (kymacustomresource.subaccountIdLabelFormat item.SubaccountID) =
      (.ok items, st2))
    (hitems : items ≠ []) :
    (kymacustomresource.updateEveryResource u item items st2).1.length = items.length ∧
    (u.iteration w).trace =
      w.trace ++
        [kymacustomresource.Call.Extract,
         kymacustomresource.Call.List
           (kymacustomresource.subaccountIdLabelFormat item.SubaccountID)] ++
        List.zipWith
          (fun un r => kymacustomresource.Call.Update
            (kymacustomresource.labelled un item.BetaEnabled item.UsedForProduction) r)
          items (kymacustomresource.updateEveryResource u item items st2).1 ++
        (if (kymacustomresource.updateEveryResource u item items st2).1.any Option.isSome
          then [kymacustomresource.Call.Insert item] else []) ∧
    (u.iteration w).state =
      (if (kymacustomresource.updateEveryResource u item items st2).1.any Option.isSome
        then u.Insert (kymacustomresource.updateEveryResource u item items st2).2 item
        else (kymacustomresource.updateEveryResource u item items st2).2) := by
  have hlen : ¬ items.length = 0 := fun h => hitems (List.length_eq_zero.1 h)
  refine ⟨updateEveryResource_length u item items st2, ?_, ?_⟩
  · simp only [kymacustomresource.Updater.iteration, kymacustomresource.Updater.queueExtract,
      kymacustomresource.Updater.clientList, hextract, hlist, if_neg hlen, updateAll_eq,
      Bool.false_or]
    split <;> simp [kymacustomresource.Updater.queueInsert]
  · simp only [kymacustomresource.Updater.iteration, kymacustomresource.Updater.queueExtract,
      kymacustomresource.Updater.clientList, hextract, hlist, if_neg hlen, updateAll_eq,
      Bool.false_or]
    split <;> simp [kymacustomresource.Updater.queueInsert]

/-- Witness of C18: the item of subaccount "S1" on a cluster with two resources of that
subaccount, the second of which rejects its update: both resources are sent an update,
the first one is stored with the labels of the item, and the item is back in the
queue. -/
theorem C18_updates_all_and_requeues_on_failure_witness :
    (kymacustomresource.updateEveryResource Example.updater Example.queueItem
        [Example.kymaS1, Example.kymaLocked]
        ([], [Example.kymaS1, Example.kymaLocked, Example.kymaS2])).1.length = 2 ∧
    (Example.updater.iteration
        { state := ([Example.queueItem],
            [Example.kymaS1, Example.kymaLocked, Example.kymaS2]) }).trace =
      [kymacustomresource.Call.Extract,
       kymacustomresource.Call.List "kyma-project.io/subaccount-id=S1",
       kymacustomresource.Call.Update
         (kymacustomresource.labelled Example.kymaS1 "true" "false") none,
       kymacustomresource.Call.Update
         (kymacustomresource.labelled Example.kymaLocked "true" "false")
         (some (Err.Conflict "the object has been modified")),
       kymacustomresource.Call.Insert Example.queueItem] ∧
    (Example.updater.iteration
        { state := ([Example.queueItem],
            [Example.kymaS1, Example.kymaLocked, Example.kymaS2]) }).state =
      ([Example.queueItem],
        [kymacustomresource.labelled Example.kymaS1 "true" "false", Example.kymaLocked,
         Example.kymaS2]) := by
  have h := C18_updates_all_and_requeues_on_failure Example.updater
    { state := ([Example.queueItem],
        [Example.kymaS1, Example.kymaLocked, Example.kymaS2]) }
    Example.queueItem [Example.kymaS1, Example.kymaLocked]
    ([], [Example.kymaS1, Example.kymaLocked, Example.kymaS2])
    ([], [Example.kymaS1, Example.kymaLocked, Example.kymaS2])
    (by decide) (by decide) (by decide)
  exact ⟨h.1, h.2.1.trans (by decide), h.2.2.trans (by decide)⟩

/-- The iteration without a failure: on a cluster whose only resource of subaccount "S1"
accepts its update, the resource is stored with the labels of the item and the queue
stays empty. -/
theorem example_iteration_without_failure :
    (Example.updater.iteration { state := ([Example.queueItem], [Example.kymaS1]) }).trace =
      [kymacustomresource.Call.Extract,
       kymacustomresource.Call.List "kyma-project.io/subaccount-id=S1",
       kymacustomresource.Call.Update
         (kymacustomresource.labelled Example.kymaS1 "true" "false") none] ∧
    (Example.updater.iteration { state := ([Example.queueItem], [Example.kymaS1]) }).state =
      ([], [kymacustomresource.labelled Example.kymaS1 "true" "false"]) := by
  decide

/-- The calls of the iteration on the cluster with a resource that rejects its update:
both resources are sent an update and the item is inserted back once. -/
theorem example_iteration_with_rejected_update :
    (Example.updater.iteration
      { state := ([Example.queueItem],
          [Example.kymaS1, Example.kymaLocked, Example.kymaS2]) }).trace =
      [kymacustomresource.Call.Extract,
       kymacustomresource.Call.List "kyma-project.io/subaccount-id=S1",
       kymacustomresource.Call.Update
         (kymacustomresource.labelled Example.kymaS1 "true" "false") none,
       kymacustomresource.Call.Update
         (kymacustomresource.labelled Example.kymaLocked "true" "false")
         (some (Err.Conflict "the object has been modified")),
       kymacustomresource.Call.Insert Example.queueItem] := by
  decide

/-! ## The labels sent by the updater -/

theorem splitChars_of_not_mem (sep : Char) (w : List Char) (hw : sep ∉ w) :
    postsql.splitChars sep w = [w] := by
  induction w with
  | nil => rfl
  | cons c cs ih =>
    have hc : ¬ c = sep := fun h => hw (h ▸ List.mem_cons_self c cs)
    have hcs : sep ∉ cs := fun h => hw (List.mem_cons_of_mem c h)
    simp only [postsql.splitChars, if_neg hc, ih hcs]

theorem splitChars_append_sep (sep : Char) (w tail : List Char) (hw : sep ∉ w) :
    postsql.splitChars sep (w ++ sep :: tail) = w :: postsql.splitChars sep tail := by
  induction w with
  | nil => simp [postsql.splitChars]
  | cons c cs ih =>
    have hc : ¬ c = sep := fun h => hw (h ▸ List.mem_cons_self c cs)
    have hcs : sep ∉ cs := fun h => hw (List.mem_cons_of_mem c h)
    simp only [List.cons_append, postsql.splitChars, if_neg hc, List.append_eq, ih hcs]

theorem splitChars_joinChars (sep : Char) (ws : List (List Char)) (hne : ws ≠ [])
    (hws : ∀ w ∈ ws, sep ∉ w) : postsql.splitChars sep (postsql.joinChars sep ws) = ws := by
  induction ws with
  | nil => exact absurd rfl hne
  | cons w rest ih =>
    cases rest with
    | nil => exact splitChars_of_not_mem sep w (hws w (List.mem_cons_self _ _))
    | cons w' rest' =>
      simp only [postsql.joinChars]
      rw [splitChars_append_sep sep w _ (hws w (List.mem_cons_self _ _)),
        ih (List.cons_ne_nil _ _) (fun x hx => hws x (List.mem_cons_of_mem _ hx))]

/-- Joining with "," and splitting on "," gives the list back when no element contains a
comma; the empty list comes back as one empty string. -/
theorem stringsSplitComma_stringsJoinComma (elems : List String)
    (h : ∀ e ∈ elems, ',' ∉ e.data) :
    postsql.stringsSplitComma (postsql.stringsJoinComma elems) =
      if elems = [] then [""] else elems := by
  by_cases hnil : elems = []
  · subst hnil
    rfl
  · rw [if_neg hnil]
    have hne : elems.map String.data ≠ [] := fun h' => hnil (List.map_eq_nil_iff.1 h')
    have hws : ∀ w ∈ elems.map String.data, ',' ∉ w := by
      intro w hw
      obtain ⟨e, he, rfl⟩ := List.mem_map.1 hw
      exact h e he
    simp only [postsql.stringsSplitComma, postsql.stringsJoinComma]
    rw [splitChars_joinChars ',' _ hne hws, List.map_map]
    exact List.map_id'' (fun e => rfl) elems

theorem toOperation_FinishedStages (c : postsql.Collaborators) (dto : postsql.OperationDTO)
    (existingOp o : Operation) (h : postsql.toOperation c dto existingOp = .ok o) :
    o.FinishedStages =
      (postsql.stringsSplitComma (c.SQLNullStringToString dto.FinishedStages)).filter
        (fun s => decide (s ≠ "")) := by
  unfold postsql.toOperation at h
  simp only at h
  split at h
  · cases h
  · split at h
    · cases h
    · cases h
      rfl

theorem operationToDB_FinishedStages (c : postsql.WriteCollaborators) (op : Operation)
    (dto : postsql.OperationDTO) (h : postsql.operationToDB c op = .ok dto) :
    dto.FinishedStages =
      c.StringToSQLNullString (postsql.stringsJoinComma op.FinishedStages) := by
  unfold postsql.operationToDB at h
  split at h
  · cases h
  · split at h
    · cases h
    · split at h
      · cases h
      · cases h
        rfl

/-- C20 as stated fails: an operation whose finished stages are "start", "" and
"check,kyma" is converted to its stored form and back without an error, and comes back
with the stages "start", "check" and "kyma". -/
theorem C20_round_trip_counterexample :
    ∃ dto op', postsql.operationToDB Example.writeCollaborators Example.oddStagedOp = .ok dto ∧
      dto.FinishedStages = { String := "start,,check,kyma", Valid := true } ∧
      postsql.toOperation Example.collaborators dto {} = .ok op' ∧
      op'.FinishedStages = ["start", "check", "kyma"] ∧
      op'.FinishedStages ≠ Example.oddStagedOp.FinishedStages := by
  refine ⟨_, _, rfl, by decide, rfl, by decide, by decide⟩

/-- C20, amended: when an operation is converted to its stored form by `operationToDB`
and back by `toOperation`, its FinishedStages come back as the pieces, other than the
empty ones, of the stage names joined with ","; they come back as the same list, in
the same order, when no stage name is empty or contains a comma. -/
theorem C20_finished_stages_round_trip (wc : postsql.WriteCollaborators)
    (c : postsql.Collaborators) (op existingOp op' : Operation) (dto : postsql.OperationDTO)
    (hnull : ∀ s, c.SQLNullStringToString (wc.StringToSQLNullString s) = s)
    (hdb : postsql.operationToDB wc op = .ok dto)
    (hback : postsql.toOperation c dto existingOp = .ok op') :
    op'.FinishedStages =
      (postsql.stringsSplitComma (postsql.stringsJoinComma op.FinishedStages)).filter
        (fun s => decide (s ≠ "")) ∧
    ((∀ stage ∈ op.FinishedStages, stage ≠ "" ∧ ',' ∉ stage.data) →
      op'.FinishedStages = op.FinishedStages) := by
  have hstages : op'.FinishedStages =
      (postsql.stringsSplitComma (postsql.stringsJoinComma op.FinishedStages)).filter
        (fun s => decide (s ≠ "")) := by
    rw [toOperation_FinishedStages c dto existingOp op' hback,
      operationToDB_FinishedStages wc op dto hdb, hnull]
  refine ⟨hstages, ?_⟩
  intro h
  rw [hstages, stringsSplitComma_stringsJoinComma _ (fun e he => (h e he).2)]
  by_cases hnil : op.FinishedStages = []
  · rw [if_pos hnil, hnil]
    rfl
  · rw [if_neg hnil, List.filter_eq_self]
    intro stage hstage
    simpa using (h stage hstage).1

/-- Witness of the amended C20: an operation with the stages "start", "create_runtime"
and "check_kyma". -/
theorem C20_finished_stages_round_trip_witness :
    Example.stagedOp.FinishedStages =
      (postsql.stringsSplitComma
        (postsql.stringsJoinComma Example.stagedOp.FinishedStages)).filter
        (fun s => decide (s ≠ "")) ∧
    ((∀ stage ∈ Example.stagedOp.FinishedStages, stage ≠ "" ∧ ',' ∉ stage.data) →
      Example.stagedOp.FinishedStages = Example.stagedOp.FinishedStages) :=
  C20_finished_stages_round_trip Example.writeCollaborators Example.collaborators
    Example.stagedOp {}
    { ID := "op-10", InstanceID := "inst-1", Type_ := OperationTypeProvision,
      FinishedStages := ["start", "create_runtime", "check_kyma"] }
    { ID := "op-10", InstanceID := "inst-1", Type_ := OperationTypeProvision,
      ProvisioningParameters := { String := "{}", Valid := true },
      FinishedStages := { String := "start,create_runtime,check_kyma", Valid := true } }
    (by intro s; by_cases h : s = "" <;> simp [Example.collaborators,
      Example.writeCollaborators, h])
    (by decide) (by decide)

/-! ## Decryption failures on the read path -/

/-- C21 as stated fails: for a row whose provisioning parameters parse and whose
credentials the cipher cannot decrypt, `toOperation` and `toInstance` return the error
of the decryption, wrapped, and no record. -/
theorem C21_credentials_decryption_counterexample :
    Example.plainCredentialsCollaborators.unmarshalParameters
        Example.legacyRow.ProvisioningParameters.String = .ok {} ∧
    postsql.toOperation Example.plainCredentialsCollaborators Example.legacyRow {} =
      .error (Err.Wrapped "while decrypting basic auth"
        (Err.Plain "cipher: message authentication failed")) ∧
    (Example.instanceStore Example.plainCredentialsCollaborators).toInstance
        Example.legacyInstanceRow =
      .error (Err.Wrapped "while decrypting parameters"
        (Err.Plain "cipher: message authentication failed")) := by
  refine ⟨rfl, by decide, by decide⟩

/-- C21, amended: for an operation row and an instance row whose provisioning parameters
parse, a failure of the kubeconfig decryption is tolerated: when the credentials
decrypt, `toOperation` and `toInstance` return the record, with the parameters as the
kubeconfig decryption left them, whether it failed or not.  A failure of the credentials
decryption is not tolerated: the conversion returns its error, wrapped. -/
theorem C21_decryption_failures_on_read {β : Type} (c : postsql.Collaborators)
    (dto : postsql.OperationDTO) (existingOp : Operation) (s : postsql.Instance β)
    (row : postsql.InstanceDTO) (params rowParams : ProvisioningParameters)
    (hparse : (if dto.ProvisioningParameters.Valid then
        c.unmarshalParameters dto.ProvisioningParameters.String else .ok {}) = .ok params)
    (hrow : s.decoding.unmarshalParameters row.ProvisioningParameters = .ok rowParams) :
    (∀ decrypted, c.DecryptSMCreds params = (none, decrypted) →
      ∃ op, postsql.toOperation c dto existingOp = .ok op ∧
        op.ProvisioningParameters = (c.DecryptKubeconfig decrypted).2) ∧
    (∀ e left, c.DecryptSMCreds params = (some e, left) →
      postsql.toOperation c dto existingOp =
        .error (Err.Wrapped "while decrypting basic auth" e)) ∧
    (∀ decrypted, s.decoding.DecryptSMCreds rowParams = (none, decrypted) →
      ∃ inst, s.toInstance row = .ok inst ∧
        inst.Parameters = (s.decoding.DecryptKubeconfig decrypted).2) ∧
    (∀ e left, s.decoding.DecryptSMCreds rowParams = (some e, left) →
      s.toInstance row = .error (Err.Wrapped "while decrypting parameters" e)) := by
  have hpp : (if dto.ProvisioningParameters.Valid = true then
      (match c.unmarshalParameters dto.ProvisioningParameters.String with
        | .error err => Except.error (Err.Wrapped "while unmarshal provisioning parameters" err)
        | .ok pp => Except.ok pp)
      else Except.ok {}) = Except.ok params := by
    by_cases hv : dto.ProvisioningParameters.Valid = true
    · rw [if_pos hv] at hparse ⊢
      rw [hparse]
    · rw [if_neg hv] at hparse ⊢
      exact hparse
  refine ⟨?_, ?_, ?_, ?_⟩
  · intro decrypted hd
    unfold postsql.toOperation
    simp only [hpp, hd]
    exact ⟨_, rfl, rfl⟩
  · intro e left hd
    unfold postsql.toOperation
    simp only [hpp, hd]
  · intro decrypted hd
    unfold postsql.Instance.toInstance
    simp only [hrow, hd]
    exact ⟨_, rfl, rfl⟩
  · intro e left hd
    unfold postsql.Instance.toInstance
    simp only [hrow, hd]

/-- Witness of the amended C21: an operation row and an instance row whose kubeconfig the
cipher cannot decrypt are returned with the parameters decoded from their text "{}". -/
theorem C21_decryption_failures_on_read_witness :
    (Example.plainKubeconfigCollaborators.DecryptKubeconfig {}).1 =
      some (Err.Plain "illegal base64 data at input byte 0") ∧
    (∃ op, postsql.toOperation Example.plainKubeconfigCollaborators Example.legacyRow {} =
        .ok op ∧ op.ProvisioningParameters = {}) ∧
    (∃ inst, (Example.instanceStore Example.plainKubeconfigCollaborators).toInstance
        Example.legacyInstanceRow = .ok inst ∧ inst.Parameters = {}) := by
  have h := @C21_decryption_failures_on_read (List postsql.InstanceWithOperationDTO)
    Example.plainKubeconfigCollaborators Example.legacyRow {}
    (Example.instanceStore Example.plainKubeconfigCollaborators) Example.legacyInstanceRow
    {} {} (by decide) (by decide)
  obtain ⟨op, h1, h2⟩ := h.1 {} rfl
  obtain ⟨inst, h3, h4⟩ := h.2.2.1 {} rfl
  exact ⟨rfl, ⟨op, h1, h2⟩, ⟨inst, h3, h4⟩⟩

/-! ## The write path of the Postgres operation store: what reaches the backend -/

/-- What holds of the state before a poll loop and is kept by each try holds of the state
after the loop. -/
theorem PollUntilContextTimeout_invariant {σ : Type}
    (condition : σ → (Bool × Option Err) × σ) (P : σ → Prop)
    (hstep : ∀ st, P st → P (condition st).2) (retries : Nat) (st : σ) (h : P st) :
    P (postsql.PollUntilContextTimeout condition retries st).2 := by
  induction retries generalizing st with
  | zero =>
    unfold postsql.PollUntilContextTimeout
    have hs := hstep st h
    rcases hc : condition st with ⟨⟨ok, err⟩, st1⟩
    rw [hc] at hs
    cases err with
    | some e => cases ok <;> exact hs
    | none => cases ok <;> exact hs
  | succ n ih =>
    unfold postsql.PollUntilContextTimeout
    have hs := hstep st h
    rcases hc : condition st with ⟨⟨ok, err⟩, st1⟩
    rw [hc] at hs
    cases err with
    | some e => cases ok <;> exact hs
    | none =>
      cases ok with
      | true => exact hs
      | false => exact ih st1 hs

/-- The poll loop of `insert` hands no other row to the backend than the one it was
given. -/
theorem insert_calls {β : Type} (s : postsql.operations β) (b : postsql.Backend β)
    (dto : postsql.OperationDTO) :
    ∀ call ∈ (s.insert b dto).2.calls,
      call ∈ b.calls ∨ call = postsql.BackendCall.InsertOperation dto := by
  have key := PollUntilContextTimeout_invariant (s.insertCondition dto)
    (fun st => ∀ call ∈ st.backend.calls,
      call ∈ b.calls ∨ call = postsql.BackendCall.InsertOperation dto)
    (by
      intro st hst call hcall
      unfold postsql.operations.insertCondition postsql.operations.sessionInsertOperation
        at hcall
      cases hr : (s.writeSession.InsertOperation st.backend.db dto).1 <;>
        simp only [hr, List.mem_append, List.mem_singleton] at hcall <;>
        rcases hcall with hcall | hcall
      · exact hst call hcall
      · exact Or.inr hcall
      · exact hst call hcall
      · exact Or.inr hcall)
    s.retries { backend := b } (fun call hcall => Or.inl hcall)
  intro call hcall
  unfold postsql.operations.insert at hcall
  exact key call hcall

/-- A try of the poll loop of `update` adds to the log the update of the row it was given
and, at most, one lookup. -/
theorem updateCondition_calls {β : Type} (s : postsql.operations β)
    (dto : postsql.OperationDTO) (st : postsql.WriteState β) :
    (s.updateCondition dto st).2.backend.calls =
        st.backend.calls ++ [postsql.BackendCall.UpdateOperation dto] ∨
      (s.updateCondition dto st).2.backend.calls =
        st.backend.calls ++ [postsql.BackendCall.UpdateOperation dto,
          postsql.BackendCall.GetOperationByID dto.ID] := by
  unfold postsql.operations.updateCondition
  rcases hu : s.sessionUpdateOperation st.backend dto with ⟨r, b1⟩
  have hb1 : b1.calls = st.backend.calls ++ [postsql.BackendCall.UpdateOperation dto] := by
    have h := congrArg (fun x => x.2.calls) hu
    exact h.symm
  cases r with
  | none => exact Or.inl hb1
  | some e =>
    simp only
    by_cases he : e.IsNotFound = true
    · rw [if_pos he]
      rcases hg : s.sessionGetOperationByID b1 dto.ID with ⟨⟨row, r2⟩, b2⟩
      have hb2 : b2.calls = st.backend.calls ++ [postsql.BackendCall.UpdateOperation dto,
          postsql.BackendCall.GetOperationByID dto.ID] := by
        have h := congrArg (fun x => x.2.calls) hg
        simp only [postsql.operations.sessionGetOperationByID, hb1, List.append_assoc,
          List.cons_append, List.nil_append] at h
        exact h.symm
      cases r2 with
      | none => exact Or.inr hb2
      | some e2 =>
        simp only
        split <;> exact Or.inr hb2
    · rw [if_neg he]
      exact Or.inl hb1

/-- The poll loop of `update` hands no other row to the backend than the one it was
given; its other calls are lookups. -/
theorem update_calls {β : Type} (s : postsql.operations β) (b : postsql.Backend β)
    (dto : postsql.OperationDTO) :
    ∀ call ∈ (s.update b dto).2.calls,
      call ∈ b.calls ∨ call = postsql.BackendCall.UpdateOperation dto ∨
        ∃ id, call = postsql.BackendCall.GetOperationByID id := by
  have key := PollUntilContextTimeout_invariant (s.updateCondition dto)
    (fun st => ∀ call ∈ st.backend.calls,
      call ∈ b.calls ∨ call = postsql.BackendCall.UpdateOperation dto ∨
        ∃ id, call = postsql.BackendCall.GetOperationByID id)
    (by
      intro st hst call hcall
      rcases updateCondition_calls s dto st with h | h <;> rw [h] at hcall <;>
        simp only [List.mem_append, List.mem_cons, List.mem_singleton, List.mem_nil_iff,
          or_false] at hcall
      · rcases hcall with hcall | hcall
        · exact hst call hcall
        · exact Or.inr (Or.inl hcall)
      · rcases hcall with hcall | hcall | hcall
        · exact hst call hcall
        · exact Or.inr (Or.inl hcall)
        · exact Or.inr (Or.inr ⟨_, hcall⟩))
    s.retries { backend := b } (fun call hcall => Or.inl hcall)
  intro call hcall
  unfold postsql.operations.update at hcall
  exact key call hcall

/-- A try of the poll loop of `UpdateUpdatingOperation` adds to the log the update of the
row and, at most, one lookup. -/
theorem updateUpdatingCondition_calls {β : Type} (s : postsql.operations β)
    (dto : postsql.OperationDTO) (operation : UpdatingOperation) (st : postsql.WriteState β) :
    (s.updateUpdatingCondition dto operation st).2.backend.calls =
        st.backend.calls ++ [postsql.BackendCall.UpdateOperation dto] ∨
      (s.updateUpdatingCondition dto operation st).2.backend.calls =
        st.backend.calls ++ [postsql.BackendCall.UpdateOperation dto,
          postsql.BackendCall.GetOperationByID operation.Operation.ID] := by
  unfold postsql.operations.updateUpdatingCondition
  rcases hu : s.sessionUpdateOperation st.backend dto with ⟨r, b1⟩
  have hb1 : b1.calls = st.backend.calls ++ [postsql.BackendCall.UpdateOperation dto] := by
    have h := congrArg (fun x => x.2.calls) hu
    exact h.symm
  cases r with
  | none => exact Or.inl hb1
  | some e =>
    simp only
    by_cases he : e.IsNotFound = true
    · rw [if_pos he]
      rcases hg : s.sessionGetOperationByID b1 operation.Operation.ID with ⟨⟨row, r2⟩, b2⟩
      have hb2 : b2.calls = st.backend.calls ++ [postsql.BackendCall.UpdateOperation dto,
          postsql.BackendCall.GetOperationByID operation.Operation.ID] := by
        have h := congrArg (fun x => x.2.calls) hg
        simp only [postsql.operations.sessionGetOperationByID, hb1, List.append_assoc,
          List.cons_append, List.nil_append] at h
        exact h.symm
      cases r2 with
      | none => exact Or.inr hb2
      | some e2 => exact Or.inr hb2
    · rw [if_neg he]
      exact Or.inl hb1

/-- A try of the poll loop of `UpdateUpgradeClusterOperation` adds to the log the update
of the row and, at most, one lookup. -/
theorem updateUpgradeClusterCondition_calls {β : Type} (s : postsql.operations β)
    (dto : postsql.OperationDTO) (operation : UpgradeClusterOperation)
    (st : postsql.WriteState β) :
    (s.updateUpgradeClusterCondition dto operation st).2.backend.calls =
        st.backend.calls ++ [postsql.BackendCall.UpdateOperation dto] ∨
      (s.updateUpgradeClusterCondition dto operation st).2.backend.calls =
        st.backend.calls ++ [postsql.BackendCall.UpdateOperation dto,
          postsql.BackendCall.GetOperationByID operation.Operation.ID] := by
  unfold postsql.operations.updateUpgradeClusterCondition
  rcases hu : s.sessionUpdateOperation st.backend dto with ⟨r, b1⟩
  have hb1 : b1.calls = st.backend.calls ++ [postsql.BackendCall.UpdateOperation dto] := by
    have h := congrArg (fun x => x.2.calls) hu
    exact h.symm
  cases r with
  | none => exact Or.inl hb1
  | some e =>
    simp only
    by_cases he : e.IsNotFound = true
    · rw [if_pos he]
      rcases hg : s.sessionGetOperationByID b1 operation.Operation.ID with ⟨⟨row, r2⟩, b2⟩
      have hb2 : b2.calls = st.backend.calls ++ [postsql.BackendCall.UpdateOperation dto,
          postsql.BackendCall.GetOperationByID operation.Operation.ID] := by
        have h := congrArg (fun x => x.2.calls) hg
        simp only [postsql.operations.sessionGetOperationByID, hb1, List.append_assoc,
          List.cons_append, List.nil_append] at h
        exact h.symm
      cases r2 with
      | none => exact Or.inr hb2
      | some e2 => exact Or.inr hb2
    · rw [if_neg he]
      exact Or.inl hb1

/-- A poll loop each try of which logs the update of one row and at most one lookup hands
no other row to the backend. -/
theorem poll_update_calls {β : Type}
    (condition : postsql.WriteState β → (Bool × Option Err) × postsql.WriteState β)
    (dto : postsql.OperationDTO) (id : String)
    (hcond : ∀ st, (condition st).2.backend.calls =
        st.backend.calls ++ [postsql.BackendCall.UpdateOperation dto] ∨
      (condition st).2.backend.calls =
        st.backend.calls ++ [postsql.BackendCall.UpdateOperation dto,
          postsql.BackendCall.GetOperationByID id])
    (retries : Nat) (b : postsql.Backend β) :
    ∀ call ∈ (postsql.PollUntilContextTimeout condition retries
        { backend := b }).2.backend.calls,
      call ∈ b.calls ∨ call = postsql.BackendCall.UpdateOperation dto ∨
        ∃ id, call = postsql.BackendCall.GetOperationByID id := by
  exact PollUntilContextTimeout_invariant condition
    (fun st => ∀ call ∈ st.backend.calls,
      call ∈ b.calls ∨ call = postsql.BackendCall.UpdateOperation dto ∨
        ∃ id, call = postsql.BackendCall.GetOperationByID id)
    (by
      intro st hst call hcall
      rcases hcond st with h | h <;> rw [h] at hcall <;>
        simp only [List.mem_append, List.mem_cons, List.mem_singleton, List.mem_nil_iff,
          or_false] at hcall
      · rcases hcall with hcall | hcall
        · exact hst call hcall
        · exact Or.inr (Or.inl hcall)
      · rcases hcall with hcall | hcall | hcall
        · exact hst call hcall
        · exact Or.inr (Or.inl hcall)
        · exact Or.inr (Or.inr ⟨_, hcall⟩))
    retries { backend := b } (fun call hcall => Or.inl hcall)

/-- A row built by `operationToDB` holds the provisioning parameters after both
encryption steps. -/
theorem operationToDB_encrypted (c : postsql.WriteCollaborators) (op : Operation)
    (row : postsql.OperationDTO) (h : postsql.operationToDB c op = .ok row) :
    ∃ pp1 pp2 text, c.EncryptSMCreds op.ProvisioningParameters = (none, pp1) ∧
      c.EncryptKubeconfig pp1 = (none, pp2) ∧ c.marshalParameters pp2 = .ok text ∧
      row.ProvisioningParameters = c.StringToSQLNullString text := by
  unfold postsql.operationToDB at h
  rcases h1 : c.EncryptSMCreds op.ProvisioningParameters with ⟨e1, pp1⟩
  rw [h1] at h
  cases e1 with
  | some e => cases h
  | none =>
    simp only at h
    rcases h2 : c.EncryptKubeconfig pp1 with ⟨e2, pp2⟩
    rw [h2] at h
    cases e2 with
    | some e => cases h
    | none =>
      simp only at h
      cases h3 : c.marshalParameters pp2 with
      | error e => rw [h3] at h; cases h
      | ok text =>
        rw [h3] at h
        simp only [Except.ok.injEq] at h
        exact ⟨pp1, pp2, text, rfl, h2, h3, by rw [← h]⟩

/-- When an encryption step fails, `operationToDB` returns an error. -/
theorem operationToDB_error (c : postsql.WriteCollaborators) (op : Operation)
    (h : (c.EncryptSMCreds op.ProvisioningParameters).1 ≠ none ∨
      (c.EncryptKubeconfig (c.EncryptSMCreds op.ProvisioningParameters).2).1 ≠ none) :
    ∃ e, postsql.operationToDB c op = .error e := by
  unfold postsql.operationToDB
  rcases h1 : c.EncryptSMCreds op.ProvisioningParameters with ⟨e1, pp1⟩
  rw [h1] at h
  cases e1 with
  | some e => exact ⟨_, rfl⟩
  | none =>
    simp only [ne_eq, not_true_eq_false, false_or] at h
    simp only
    rcases h2 : c.EncryptKubeconfig pp1 with ⟨e2, pp2⟩
    rw [h2] at h
    cases e2 with
    | some e => exact ⟨_, rfl⟩
    | none => exact absurd rfl h

/-- The row of `operationToDB`, column by column: the provisioning parameters enter it
after the two encryption steps, marshalled. -/
theorem operationToDB_row (c : postsql.WriteCollaborators) (op : Operation)
    (row : postsql.OperationDTO) (h : postsql.operationToDB c op = .ok row) :
    ∃ pp1 pp2 text, c.EncryptSMCreds op.ProvisioningParameters = (none, pp1) ∧
      c.EncryptKubeconfig pp1 = (none, pp2) ∧ c.marshalParameters pp2 = .ok text ∧
      row = { ID := op.ID
              Type_ := op.Type_
              TargetOperationID := op.ProvisionerOperationID
              State := op.State
              Description := op.Description
              UpdatedAt := op.UpdatedAt
              CreatedAt := op.CreatedAt
              Version := op.Version
              InstanceID := op.InstanceID
              ProvisioningParameters := c.StringToSQLNullString text
              FinishedStages :=
                c.StringToSQLNullString (postsql.stringsJoinComma op.FinishedStages) } := by
  unfold postsql.operationToDB at h
  rcases h1 : c.EncryptSMCreds op.ProvisioningParameters with ⟨e1, pp1⟩
  rw [h1] at h
  cases e1 with
  | some e => cases h
  | none =>
    simp only at h
    rcases h2 : c.EncryptKubeconfig pp1 with ⟨e2, pp2⟩
    rw [h2] at h
    cases e2 with
    | some e => cases h
    | none =>
      simp only at h
      cases h3 : c.marshalParameters pp2 with
      | error e => rw [h3] at h; cases h
      | ok text =>
        rw [h3] at h
        simp only [Except.ok.injEq] at h
        exact ⟨pp1, pp2, text, rfl, h2, h3, h.symm⟩

/-- The row that a call of the write path builds is the row of `operationToDB` for the
operation given (with UpdatedAt set to the current time by an update), with `Data` set to
`json.Marshal` of that operation and `Type` kept or set to the type of the kind. -/
theorem rowOf_shape {β : Type} (s : postsql.operations β) (b : postsql.Backend β)
    (call : postsql.WriteCall) (dto : postsql.OperationDTO) (h : s.rowOf b call = .ok dto) :
    ∃ op row serialized,
      (op = call.operation ∨ op = { call.operation with UpdatedAt := s.Now b.db }) ∧
      postsql.operationToDB s.encoding op = .ok row ∧
      s.marshalOperation op = .ok serialized ∧
      (dto.Type_ = row.Type_ ∨ dto.Type_ = OperationTypeProvision ∨
        dto.Type_ = OperationTypeDeprovision ∨ dto.Type_ = OperationTypeUpgradeCluster ∨
        dto.Type_ = OperationTypeUpdate) ∧
      dto = { row with Data := serialized, Type_ := dto.Type_ } := by
  cases call <;>
    simp only [postsql.operations.rowOf, postsql.operations.operationToDTO,
      postsql.operations.provisioningOperationToDTO,
      postsql.operations.deprovisioningOperationToDTO,
      postsql.operations.upgradeClusterOperationToDTO,
      postsql.operations.updateOperationToDTO] at h <;>
    split at h <;> try cases h
  all_goals
    rename_i serialized hser
    split at h
    · cases h
    · rename_i row hrow
      simp only [Except.ok.injEq] at h
      subst h
      refine ⟨_, row, serialized, ?_, hrow, hser, ?_, rfl⟩
      · first
        | exact Or.inl rfl
        | exact Or.inr rfl
      · first
        | exact Or.inl rfl
        | exact Or.inr (Or.inl rfl)
        | exact Or.inr (Or.inr (Or.inl rfl))
        | exact Or.inr (Or.inr (Or.inr (Or.inl rfl)))
        | exact Or.inr (Or.inr (Or.inr (Or.inr rfl)))

/-- When an encryption step fails, the conversion with which a call of the write path
starts returns an error. -/
theorem rowOf_error {β : Type} (s : postsql.operations β) (b : postsql.Backend β)
    (call : postsql.WriteCall)
    (h : (s.encoding.EncryptSMCreds call.operation.ProvisioningParameters).1 ≠ none ∨
      (s.encoding.EncryptKubeconfig
        (s.encoding.EncryptSMCreds call.operation.ProvisioningParameters).2).1 ≠ none) :
    ∃ e, s.rowOf b call = .error e := by
  cases call <;>
    simp only [postsql.operations.rowOf, postsql.operations.operationToDTO,
      postsql.operations.provisioningOperationToDTO,
      postsql.operations.deprovisioningOperationToDTO,
      postsql.operations.upgradeClusterOperationToDTO,
      postsql.operations.updateOperationToDTO] <;>
    split <;> try exact ⟨_, rfl⟩
  all_goals
    split
    · exact ⟨_, rfl⟩
    · rename_i ret hret
      obtain ⟨pp1, pp2, text, h1, h2, _, _⟩ := operationToDB_encrypted s.encoding _ ret hret
      exfalso
      simp only [postsql.WriteCall.operation] at h
      try simp only at h1
      rw [h1] at h
      simp only [ne_eq, not_true_eq_false, false_or] at h
      rw [h2] at h
      exact h rfl

/-- When its conversion fails, a call of the write path returns an error and makes no
call on the backend. -/
theorem write_of_rowOf_error {β : Type} (s : postsql.operations β) (b : postsql.Backend β)
    (call : postsql.WriteCall) (e : Err) (h : s.rowOf b call = .error e) :
    (∃ e', (s.write b call).1 = some e') ∧ (s.write b call).2 = b := by
  cases call <;> simp only [postsql.operations.rowOf] at h <;>
    simp only [postsql.operations.write, postsql.operations.InsertOperation,
      postsql.operations.InsertProvisioningOperation,
      postsql.operations.InsertDeprovisioningOperation,
      postsql.operations.InsertUpgradeClusterOperation,
      postsql.operations.InsertUpdatingOperation, postsql.operations.UpdateOperation,
      postsql.operations.UpdateProvisioningOperation,
      postsql.operations.UpdateDeprovisioningOperation,
      postsql.operations.UpdateUpgradeClusterOperation,
      postsql.operations.UpdateUpdatingOperation, h] <;>
    exact ⟨⟨_, rfl⟩, trivial⟩

/-- When its conversion gives a row, a call of the write path hands no other row to the
backend; its other calls are lookups. -/
theorem write_calls {β : Type} (s : postsql.operations β) (b : postsql.Backend β)
    (call : postsql.WriteCall) (dto : postsql.OperationDTO) (h : s.rowOf b call = .ok dto) :
    ∀ c ∈ (s.write b call).2.calls,
      c ∈ b.calls ∨ c = postsql.BackendCall.InsertOperation dto ∨
        c = postsql.BackendCall.UpdateOperation dto ∨
        ∃ id, c = postsql.BackendCall.GetOperationByID id := by
  intro c hc
  have hins : ∀ c ∈ (s.insert b dto).2.calls,
      c ∈ b.calls ∨ c = postsql.BackendCall.InsertOperation dto ∨
        c = postsql.BackendCall.UpdateOperation dto ∨
        ∃ id, c = postsql.BackendCall.GetOperationByID id := by
    intro c hc
    rcases insert_calls s b dto c hc with h1 | h1
    · exact Or.inl h1
    · exact Or.inr (Or.inl h1)
  have hupd : ∀ c ∈ (s.update b dto).2.calls,
      c ∈ b.calls ∨ c = postsql.BackendCall.InsertOperation dto ∨
        c = postsql.BackendCall.UpdateOperation dto ∨
        ∃ id, c = postsql.BackendCall.GetOperationByID id := by
    intro c hc
    rcases update_calls s b dto c hc with h1 | h1
    · exact Or.inl h1
    · exact Or.inr (Or.inr h1)
  cases call with
  | InsertOperation operation =>
    simp only [postsql.operations.rowOf] at h
    simp only [postsql.operations.write, postsql.operations.InsertOperation, h] at hc
    exact hins c hc
  | InsertProvisioningOperation operation =>
    simp only [postsql.operations.rowOf] at h
    simp only [postsql.operations.write, postsql.operations.InsertProvisioningOperation, h] at hc
    exact hins c hc
  | InsertDeprovisioningOperation operation =>
    simp only [postsql.operations.rowOf] at h
    simp only [postsql.operations.write, postsql.operations.InsertDeprovisioningOperation,
      h] at hc
    exact hins c hc
  | InsertUpgradeClusterOperation operation =>
    simp only [postsql.operations.rowOf] at h
    simp only [postsql.operations.write, postsql.operations.InsertUpgradeClusterOperation,
      h] at hc
    exact hins c hc
  | InsertUpdatingOperation operation =>
    simp only [postsql.operations.rowOf] at h
    simp only [postsql.operations.write, postsql.operations.InsertUpdatingOperation, h] at hc
    exact hins c hc
  | UpdateOperation op =>
    simp only [postsql.operations.rowOf] at h
    simp only [postsql.operations.write, postsql.operations.UpdateOperation, h] at hc
    exact hupd c hc
  | UpdateProvisioningOperation op =>
    simp only [postsql.operations.rowOf] at h
    simp only [postsql.operations.write, postsql.operations.UpdateProvisioningOperation, h] at hc
    exact hupd c hc
  | UpdateDeprovisioningOperation operation =>
    simp only [postsql.operations.rowOf] at h
    simp only [postsql.operations.write, postsql.operations.UpdateDeprovisioningOperation,
      h] at hc
    exact hupd c hc
  | UpdateUpgradeClusterOperation operation =>
    simp only [postsql.operations.rowOf] at h
    simp only [postsql.operations.write, postsql.operations.UpdateUpgradeClusterOperation,
      h] at hc
    rcases poll_update_calls _ dto _
        (updateUpgradeClusterCondition_calls s dto _) s.retries b c hc with h1 | h1
    · exact Or.inl h1
    · exact Or.inr (Or.inr h1)
  | UpdateUpdatingOperation operation =>
    simp only [postsql.operations.rowOf] at h
    simp only [postsql.operations.write, postsql.operations.UpdateUpdatingOperation, h] at hc
    rcases poll_update_calls _ dto _
        (updateUpdatingCondition_calls s dto _) s.retries b c hc with h1 | h1
    · exact Or.inl h1
    · exact Or.inr (Or.inr h1)

/-- C22: on every write path of the Postgres operation store (the five
`Insert<Kind>Operation` and the five `Update<Kind>`), a row handed to the backend is the
row that the call built through `operationToDB` from the operation it was given (with
UpdatedAt set to the current time by an update), after the credentials encryption and
the kubeconfig encryption of its provisioning parameters.  Every column of the row is
pinned: the column of the provisioning parameters is the marshalled result of the two
encryption steps; the column `Data` is `json.Marshal` of the operation, which for a
`json.Marshal` with the property `payloadOmitsParameters` is the payload of the
operation with its provisioning parameters blanked; the column `Type` is the type of the
operation or of a kind; and the other columns are fields of the operation other than its
provisioning parameters.  So the provisioning parameters reach the row through the two
encryption steps only.  When either encryption step fails, the call returns an error and
makes no call on the backend. -/
theorem C22_rows_written_are_encrypted {β : Type} (s : postsql.operations β)
    (b : postsql.Backend β) (call : postsql.WriteCall) :
    (∀ dto, postsql.BackendCall.InsertOperation dto ∈ (s.write b call).2.calls ∨
        postsql.BackendCall.UpdateOperation dto ∈ (s.write b call).2.calls →
      (postsql.BackendCall.InsertOperation dto ∈ b.calls ∨
        postsql.BackendCall.UpdateOperation dto ∈ b.calls) ∨
      (s.rowOf b call = .ok dto ∧
        ∃ op row pp1 pp2 text serialized,
          (op = call.operation ∨ op = { call.operation with UpdatedAt := s.Now b.db }) ∧
          postsql.operationToDB s.encoding op = .ok row ∧
          s.encoding.EncryptSMCreds call.operation.ProvisioningParameters = (none, pp1) ∧
          s.encoding.EncryptKubeconfig pp1 = (none, pp2) ∧
          s.encoding.marshalParameters pp2 = .ok text ∧
          s.marshalOperation op = .ok serialized ∧
          (s.payloadOmitsParameters →
            s.marshalOperation { op with ProvisioningParameters := {} } = .ok serialized) ∧
          (dto.Type_ = op.Type_ ∨ dto.Type_ = OperationTypeProvision ∨
            dto.Type_ = OperationTypeDeprovision ∨
            dto.Type_ = OperationTypeUpgradeCluster ∨ dto.Type_ = OperationTypeUpdate) ∧
          dto = { row with Data := serialized, Type_ := dto.Type_ } ∧
          dto = { ID := op.ID
                  Version := op.Version
                  CreatedAt := op.CreatedAt
                  UpdatedAt := op.UpdatedAt
                  InstanceID := op.InstanceID
                  TargetOperationID := op.ProvisionerOperationID
                  State := op.State
                  Description := op.Description
                  Type_ := dto.Type_
                  Data := serialized
                  ProvisioningParameters := s.encoding.StringToSQLNullString text
                  FinishedStages :=
                    s.encoding.StringToSQLNullString
                      (postsql.stringsJoinComma op.FinishedStages) })) ∧
    ((s.encoding.EncryptSMCreds call.operation.ProvisioningParameters).1 ≠ none ∨
        (s.encoding.EncryptKubeconfig
          (s.encoding.EncryptSMCreds call.operation.ProvisioningParameters).2).1 ≠ none →
      (∃ e, (s.write b call).1 = some e) ∧ (s.write b call).2 = b) := by
  constructor
  · intro dto hdto
    cases hrow : s.rowOf b call with
    | error e =>
      rw [(write_of_rowOf_error s b call e hrow).2] at hdto
      exact Or.inl hdto
    | ok dto0 =>
      have hcalls := write_calls s b call dto0 hrow
      have hsame : (postsql.BackendCall.InsertOperation dto ∈ b.calls ∨
          postsql.BackendCall.UpdateOperation dto ∈ b.calls) ∨ dto = dto0 := by
        rcases hdto with hdto | hdto
        · rcases hcalls _ hdto with h1 | h1 | h1 | ⟨id, h1⟩
          · exact Or.inl (Or.inl h1)
          · exact Or.inr (postsql.BackendCall.InsertOperation.inj h1)
          · cases h1
          · cases h1
        · rcases hcalls _ hdto with h1 | h1 | h1 | ⟨id, h1⟩
          · exact Or.inl (Or.inr h1)
          · cases h1
          · exact Or.inr (postsql.BackendCall.UpdateOperation.inj h1)
          · cases h1
      rcases hsame with hold | hnew
      · exact Or.inl hold
      · subst hnew
        obtain ⟨op, row, serialized, hop, hdb, hser, hty, hdto⟩ := rowOf_shape s b call dto hrow
        obtain ⟨pp1, pp2, text, h1, h2, h3, h4⟩ := operationToDB_row s.encoding op row hdb
        have hpp : op.ProvisioningParameters = call.operation.ProvisioningParameters := by
          rcases hop with hop | hop <;> rw [hop]
        rw [hpp] at h1
        have hty' : dto.Type_ = op.Type_ ∨ dto.Type_ = OperationTypeProvision ∨
            dto.Type_ = OperationTypeDeprovision ∨
            dto.Type_ = OperationTypeUpgradeCluster ∨ dto.Type_ = OperationTypeUpdate := by
          rw [h4] at hty
          exact hty
        refine Or.inr ⟨rfl, op, row, pp1, pp2, text, serialized, hop, hdb, h1, h2, h3, hser,
          ?_, hty', hdto, ?_⟩
        · intro hdata
          rw [hdata op {}]
          exact hser
        · rw [h4] at hdto
          exact hdto
  · intro hfail
    obtain ⟨e, he⟩ := rowOf_error s b call hfail
    exact write_of_rowOf_error s b call e he

/-- Witness of C22: the row of an inserted suspension operation on a database that never
fails and a store whose `json.Marshal` leaves the provisioning parameters out of the
payload; and an update on a store whose cipher cannot encrypt a kubeconfig. -/
theorem C22_rows_written_are_encrypted_witness :
    (Example.database 3).payloadOmitsParameters ∧
    postsql.BackendCall.InsertOperation
        { ID := "op-70", Version := 4, InstanceID := "inst-1", State := "in progress",
          Type_ := OperationTypeDeprovision, Data := "\x7b\"temporary\":true\x7d",
          ProvisioningParameters := { String := "{}", Valid := true } } ∈
      ((Example.database 3).write { db := [] }
        (postsql.WriteCall.InsertDeprovisioningOperation
          { Operation := Example.staleSuspensionOp })).2.calls ∧
    ((Example.database 3).rowOf { db := [] }
        (postsql.WriteCall.InsertDeprovisioningOperation
          { Operation := Example.staleSuspensionOp }) =
      .ok { ID := "op-70", Version := 4, InstanceID := "inst-1", State := "in progress",
            Type_ := OperationTypeDeprovision, Data := "\x7b\"temporary\":true\x7d",
            ProvisioningParameters := { String := "{}", Valid := true } } ∧
      ∃ op row pp1 pp2 text serialized,
        (op = Example.staleSuspensionOp ∨
          op = { Example.staleSuspensionOp with UpdatedAt := (Example.database 3).Now [] }) ∧
        postsql.operationToDB (Example.database 3).encoding op = .ok row ∧
        (Example.database 3).encoding.EncryptSMCreds
          Example.staleSuspensionOp.ProvisioningParameters = (none, pp1) ∧
        (Example.database 3).encoding.EncryptKubeconfig pp1 = (none, pp2) ∧
        (Example.database 3).encoding.marshalParameters pp2 = .ok text ∧
        (Example.database 3).marshalOperation op = .ok serialized ∧
        ((Example.database 3).payloadOmitsParameters →
          (Example.database 3).marshalOperation { op with ProvisioningParameters := {} } =
            .ok serialized) ∧
        (OperationTypeDeprovision = op.Type_ ∨
          OperationTypeDeprovision = OperationTypeProvision ∨
          OperationTypeDeprovision = OperationTypeDeprovision ∨
          OperationTypeDeprovision = OperationTypeUpgradeCluster ∨
          OperationTypeDeprovision = OperationTypeUpdate) ∧
        ({ ID := "op-70", Version := 4, InstanceID := "inst-1", State := "in progress",
           Type_ := OperationTypeDeprovision, Data := "\x7b\"temporary\":true\x7d",
           ProvisioningParameters := { String := "{}", Valid := true } } :
            postsql.OperationDTO) =
          { row with Data := serialized, Type_ := OperationTypeDeprovision } ∧
        ({ ID := "op-70", Version := 4, InstanceID := "inst-1", State := "in progress",
           Type_ := OperationTypeDeprovision, Data := "\x7b\"temporary\":true\x7d",
           ProvisioningParameters := { String := "{}", Valid := true } } :
            postsql.OperationDTO) =
          { ID := op.ID
            Version := op.Version
            CreatedAt := op.CreatedAt
            UpdatedAt := op.UpdatedAt
            InstanceID := op.InstanceID
            TargetOperationID := op.ProvisionerOperationID
            State := op.State
            Description := op.Description
            Type_ := OperationTypeDeprovision
            Data := serialized
            ProvisioningParameters :=
              (Example.database 3).encoding.StringToSQLNullString text
            FinishedStages :=
              (Example.database 3).encoding.StringToSQLNullString
                (postsql.stringsJoinComma op.FinishedStages) }) ∧
    ((∃ e, ((Example.keylessDatabase 3).write { db := [] }
        (postsql.WriteCall.UpdateOperation Example.provisionOp)).1 = some e) ∧
      ((Example.keylessDatabase 3).write { db := [] }
        (postsql.WriteCall.UpdateOperation Example.provisionOp)).2 = { db := [] }) :=
  ⟨fun _ _ => rfl, by decide,
   ((C22_rows_written_are_encrypted (Example.database 3) { db := [] }
      (postsql.WriteCall.InsertDeprovisioningOperation
        { Operation := Example.staleSuspensionOp })).1
      { ID := "op-70", Version := 4, InstanceID := "inst-1", State := "in progress",
        Type_ := OperationTypeDeprovision, Data := "\x7b\"temporary\":true\x7d",
        ProvisioningParameters := { String := "{}", Valid := true } }
      (Or.inl (by decide))).resolve_left (by decide),
   (C22_rows_written_are_encrypted (Example.keylessDatabase 3) { db := [] }
      (postsql.WriteCall.UpdateOperation Example.provisionOp)).2 (Or.inr (by decide))⟩

/-! ## Updates of an absent operation -/

/-- When the update and the lookup that follows it both report NotFound, the poll loop of
`update` ends at its first try and leaves the error of the lookup. -/
theorem update_stops_on_absent_id {β : Type} (s : postsql.operations β)
    (b : postsql.Backend β) (dto row : postsql.OperationDTO) (e1 e2 : Err) (db1 db2 : β)
    (hupd : s.writeSession.UpdateOperation b.db dto = (some e1, db1))
    (he1 : e1.IsNotFound = true)
    (hget : s.readSession.GetOperationByID db1 dto.ID = ((row, some e2), db2))
    (he2 : e2.IsNotFound = true) :
    s.update b dto =
      (some e2, { db := db2,
                  calls := b.calls ++ [postsql.BackendCall.UpdateOperation dto,
                    postsql.BackendCall.GetOperationByID dto.ID] }) := by
  unfold postsql.operations.update
  cases s.retries <;>
    simp only [postsql.PollUntilContextTimeout, postsql.operations.updateCondition,
      postsql.operations.sessionUpdateOperation, postsql.operations.sessionGetOperationByID,
      hupd, he1, hget, he2, if_true, List.append_assoc, List.cons_append, List.nil_append]

/-- The calls of `tries` tries each of which is an update of `dto` followed by a lookup
of `id`. -/
theorem length_flatten_replicate_pair (tries : Nat) (dto : postsql.OperationDTO)
    (id : String) :
    ((List.replicate tries [postsql.BackendCall.UpdateOperation dto,
      postsql.BackendCall.GetOperationByID id]).flatten).length = 2 * tries := by
  induction tries with
  | zero => rfl
  | succ n ih =>
    simp only [List.replicate_succ, List.flatten_cons, List.length_append, ih,
      List.length_cons, List.length_nil]
    omega

/-- A poll loop of the write path each try of which leaves the database as it is, logs
the calls `step`, leaves the error `e` and asks for another try: it makes every try that
fits before the timeout. -/
theorem poll_until_timeout {β : Type}
    (condition : postsql.WriteState β → (Bool × Option Err) × postsql.WriteState β)
    (db : β) (step : List postsql.BackendCall) (e : Err)
    (hcond : ∀ (lastErr : Option Err) (calls : List postsql.BackendCall),
      condition { lastErr := lastErr, backend := { db := db, calls := calls } } =
        ((false, none),
          { lastErr := some e, backend := { db := db, calls := calls ++ step } }))
    (retries : Nat) (lastErr : Option Err) (calls : List postsql.BackendCall) :
    postsql.PollUntilContextTimeout condition retries
        { lastErr := lastErr, backend := { db := db, calls := calls } } =
      (some (Err.Plain "context deadline exceeded"),
        { lastErr := some e,
          backend := { db := db,
                       calls := calls ++ (List.replicate (retries + 1) step).flatten } }) := by
  induction retries generalizing lastErr calls with
  | zero =>
    unfold postsql.PollUntilContextTimeout
    rw [hcond]
    simp
  | succ n ih =>
    unfold postsql.PollUntilContextTimeout
    rw [hcond]
    simp only
    rw [ih]
    simp [List.replicate_succ]

/-- `UpdateOperation` on an ID that the backend reports as absent: one update, one
lookup, and the NotFound of the lookup. -/
theorem UpdateOperation_absent_id {β : Type} (s : postsql.operations β)
    (b : postsql.Backend β) (op : Operation) (dto row : postsql.OperationDTO) (e1 e2 : Err)
    (db1 db2 : β)
    (hdto : s.rowOf b (postsql.WriteCall.UpdateOperation op) = .ok dto)
    (hupd : s.writeSession.UpdateOperation b.db dto = (some e1, db1))
    (he1 : e1.IsNotFound = true)
    (hget : s.readSession.GetOperationByID db1 dto.ID = ((row, some e2), db2))
    (he2 : e2.IsNotFound = true) :
    (s.UpdateOperation b op).1.2 = some e2 ∧
    (s.UpdateOperation b op).2 =
      { db := db2,
        calls := b.calls ++ [postsql.BackendCall.UpdateOperation dto,
          postsql.BackendCall.GetOperationByID dto.ID] } := by
  simp only [postsql.operations.rowOf] at hdto
  simp only [postsql.operations.UpdateOperation, hdto,
    update_stops_on_absent_id s b dto row e1 e2 db1 db2 hupd he1 hget he2, and_self]

/-- `UpdateProvisioningOperation` on an ID that the backend reports as absent. -/
theorem UpdateProvisioningOperation_absent_id {β : Type} (s : postsql.operations β)
    (b : postsql.Backend β) (op : ProvisioningOperation) (dto row : postsql.OperationDTO)
    (e1 e2 : Err) (db1 db2 : β)
    (hdto : s.rowOf b (postsql.WriteCall.UpdateProvisioningOperation op) = .ok dto)
    (hupd : s.writeSession.UpdateOperation b.db dto = (some e1, db1))
    (he1 : e1.IsNotFound = true)
    (hget : s.readSession.GetOperationByID db1 dto.ID = ((row, some e2), db2))
    (he2 : e2.IsNotFound = true) :
    (s.UpdateProvisioningOperation b op).1.2 = some e2 ∧
    (s.UpdateProvisioningOperation b op).2 =
      { db := db2,
        calls := b.calls ++ [postsql.BackendCall.UpdateOperation dto,
          postsql.BackendCall.GetOperationByID dto.ID] } := by
  simp only [postsql.operations.rowOf] at hdto
  simp only [postsql.operations.UpdateProvisioningOperation, hdto,
    update_stops_on_absent_id s b dto row e1 e2 db1 db2 hupd he1 hget he2, and_self]

/-- `UpdateDeprovisioningOperation` on an ID that the backend reports as absent. -/
theorem UpdateDeprovisioningOperation_absent_id {β : Type} (s : postsql.operations β)
    (b : postsql.Backend β) (operation : DeprovisioningOperation)
    (dto row : postsql.OperationDTO) (e1 e2 : Err) (db1 db2 : β)
    (hdto : s.rowOf b (postsql.WriteCall.UpdateDeprovisioningOperation operation) = .ok dto)
    (hupd : s.writeSession.UpdateOperation b.db dto = (some e1, db1))
    (he1 : e1.IsNotFound = true)
    (hget : s.readSession.GetOperationByID db1 dto.ID = ((row, some e2), db2))
    (he2 : e2.IsNotFound = true) :
    (s.UpdateDeprovisioningOperation b operation).1.2 = some e2 ∧
    (s.UpdateDeprovisioningOperation b operation).2 =
      { db := db2,
        calls := b.calls ++ [postsql.BackendCall.UpdateOperation dto,
          postsql.BackendCall.GetOperationByID dto.ID] } := by
  simp only [postsql.operations.rowOf] at hdto
  simp only [postsql.operations.UpdateDeprovisioningOperation, hdto,
    update_stops_on_absent_id s b dto row e1 e2 db1 db2 hupd he1 hget he2, and_self]

/-- `UpdateUpdatingOperation` on an ID that the backend reports as absent at every try:
the loop makes every try that fits before the timeout, each an update and a lookup, and
the call returns the NotFound of the last lookup. -/
theorem UpdateUpdatingOperation_absent_id {β : Type} (s : postsql.operations β)
    (b : postsql.Backend β) (operation : UpdatingOperation) (dto row : postsql.OperationDTO)
    (e1 e2 : Err)
    (hdto : s.rowOf b (postsql.WriteCall.UpdateUpdatingOperation operation) = .ok dto)
    (hupd : s.writeSession.UpdateOperation b.db dto = (some e1, b.db))
    (he1 : e1.IsNotFound = true)
    (hget : s.readSession.GetOperationByID b.db operation.Operation.ID =
      ((row, some e2), b.db)) :
    (s.UpdateUpdatingOperation b operation).1.2 = some e2 ∧
    (s.UpdateUpdatingOperation b operation).2 =
      { db := b.db,
        calls := b.calls ++ (List.replicate (s.retries + 1)
          [postsql.BackendCall.UpdateOperation dto,
           postsql.BackendCall.GetOperationByID operation.Operation.ID]).flatten } := by
  obtain ⟨db, calls⟩ := b
  simp only [postsql.operations.rowOf] at hdto
  simp only at hupd hget
  have hpoll := poll_until_timeout
    (s.updateUpdatingCondition dto
      { operation with Operation := { operation.Operation with UpdatedAt := s.Now db } })
    db [postsql.BackendCall.UpdateOperation dto,
      postsql.BackendCall.GetOperationByID operation.Operation.ID] e2
    (by
      intro lastErr calls
      simp only [postsql.operations.updateUpdatingCondition,
        postsql.operations.sessionUpdateOperation,
        postsql.operations.sessionGetOperationByID, hupd, he1, hget, if_true,
        List.append_assoc, List.cons_append, List.nil_append])
    s.retries none calls
  simp only [postsql.operations.UpdateUpdatingOperation, hdto, hpoll, and_self]

/-- `UpdateUpgradeClusterOperation` on an ID that the backend reports as absent at every
try: the loop makes every try that fits before the timeout. -/
theorem UpdateUpgradeClusterOperation_absent_id {β : Type} (s : postsql.operations β)
    (b : postsql.Backend β) (operation : UpgradeClusterOperation)
    (dto row : postsql.OperationDTO) (e1 e2 : Err)
    (hdto : s.rowOf b (postsql.WriteCall.UpdateUpgradeClusterOperation operation) = .ok dto)
    (hupd : s.writeSession.UpdateOperation b.db dto = (some e1, b.db))
    (he1 : e1.IsNotFound = true)
    (hget : s.readSession.GetOperationByID b.db operation.Operation.ID =
      ((row, some e2), b.db)) :
    (s.UpdateUpgradeClusterOperation b operation).1.2 = some e2 ∧
    (s.UpdateUpgradeClusterOperation b operation).2 =
      { db := b.db,
        calls := b.calls ++ (List.replicate (s.retries + 1)
          [postsql.BackendCall.UpdateOperation dto,
           postsql.BackendCall.GetOperationByID operation.Operation.ID]).flatten } := by
  obtain ⟨db, calls⟩ := b
  simp only [postsql.operations.rowOf] at hdto
  simp only at hupd hget
  have hpoll := poll_until_timeout
    (s.updateUpgradeClusterCondition dto
      { operation with Operation := { operation.Operation with UpdatedAt := s.Now db } })
    db [postsql.BackendCall.UpdateOperation dto,
      postsql.BackendCall.GetOperationByID operation.Operation.ID] e2
    (by
      intro lastErr calls
      simp only [postsql.operations.updateUpgradeClusterCondition,
        postsql.operations.sessionUpdateOperation,
        postsql.operations.sessionGetOperationByID, hupd, he1, hget, if_true,
        List.append_assoc, List.cons_append, List.nil_append])
    s.retries none calls
  simp only [postsql.operations.UpdateUpgradeClusterOperation, hdto, hpoll, and_self]

/-- C23 on the code: on an empty operations table, where the update and the lookup of
every ID report NotFound, `UpdateOperation`, `UpdateProvisioningOperation` and
`UpdateDeprovisioningOperation` return NotFound after one update and one lookup, while
`UpdateUpdatingOperation` and `UpdateUpgradeClusterOperation` repeat the update and the
lookup at every try that fits before the timeout, `retries + 1` times, and return
NotFound only then. -/
theorem C23_absent_id_polled_until_timeout (retries : Nat) :
    (∃ dto, (Example.database retries).rowOf { db := [] }
        (postsql.WriteCall.UpdateUpdatingOperation Example.updateOp) = .ok dto ∧
      ((Example.database retries).UpdateUpdatingOperation { db := [] }
        Example.updateOp).1.2 = some (Err.NotFound "Cannot find Operation") ∧
      ((Example.database retries).UpdateUpdatingOperation { db := [] }
        Example.updateOp).2.calls =
        (List.replicate (retries + 1) [postsql.BackendCall.UpdateOperation dto,
          postsql.BackendCall.GetOperationByID "op-5"]).flatten ∧
      ((Example.database retries).UpdateUpdatingOperation { db := [] }
        Example.updateOp).2.calls.length = 2 * (retries + 1)) ∧
    (∃ dto, (Example.database retries).rowOf { db := [] }
        (postsql.WriteCall.UpdateUpgradeClusterOperation Example.upgradeOp) = .ok dto ∧
      ((Example.database retries).UpdateUpgradeClusterOperation { db := [] }
        Example.upgradeOp).1.2 = some (Err.NotFound "Cannot find Operation") ∧
      ((Example.database retries).UpdateUpgradeClusterOperation { db := [] }
        Example.upgradeOp).2.calls =
        (List.replicate (retries + 1) [postsql.BackendCall.UpdateOperation dto,
          postsql.BackendCall.GetOperationByID "op-4"]).flatten ∧
      ((Example.database retries).UpdateUpgradeClusterOperation { db := [] }
        Example.upgradeOp).2.calls.length = 2 * (retries + 1)) ∧
    (∃ dto, (Example.database retries).rowOf { db := [] }
        (postsql.WriteCall.UpdateOperation Example.provisionOp) = .ok dto ∧
      ((Example.database retries).UpdateOperation { db := [] } Example.provisionOp).1.2 =
        some (Err.NotFound "Cannot find Operation") ∧
      ((Example.database retries).UpdateOperation { db := [] } Example.provisionOp).2.calls =
        [postsql.BackendCall.UpdateOperation dto,
         postsql.BackendCall.GetOperationByID "op-1"]) ∧
    (∃ dto, (Example.database retries).rowOf { db := [] }
        (postsql.WriteCall.UpdateProvisioningOperation
          { Operation := Example.provisionOp }) = .ok dto ∧
      ((Example.database retries).UpdateProvisioningOperation { db := [] }
        { Operation := Example.provisionOp }).1.2 =
        some (Err.NotFound "Cannot find Operation") ∧
      ((Example.database retries).UpdateProvisioningOperation { db := [] }
        { Operation := Example.provisionOp }).2.calls =
        [postsql.BackendCall.UpdateOperation dto,
         postsql.BackendCall.GetOperationByID "op-1"]) ∧
    (∃ dto, (Example.database retries).rowOf { db := [] }
        (postsql.WriteCall.UpdateDeprovisioningOperation
          { Operation := Example.deprovisionOp }) = .ok dto ∧
      ((Example.database retries).UpdateDeprovisioningOperation { db := [] }
        { Operation := Example.deprovisionOp }).1.2 =
        some (Err.NotFound "Cannot find Operation") ∧
      ((Example.database retries).UpdateDeprovisioningOperation { db := [] }
        { Operation := Example.deprovisionOp }).2.calls =
        [postsql.BackendCall.UpdateOperation dto,
         postsql.BackendCall.GetOperationByID "op-2"]) := by
  refine ⟨?_, ?_, ?_, ?_, ?_⟩
  · obtain ⟨h1, h2⟩ := UpdateUpdatingOperation_absent_id (Example.database retries)
      { db := [] } Example.updateOp _ {} (Err.NotFound "Cannot find Operation")
      (Err.NotFound "Cannot find Operation") rfl rfl rfl rfl
    refine ⟨_, rfl, h1, ?_, ?_⟩
    · rw [h2]
      exact List.nil_append _
    · rw [h2]
      exact (congrArg List.length (List.nil_append _)).trans
        (length_flatten_replicate_pair _ _ _)
  · obtain ⟨h1, h2⟩ := UpdateUpgradeClusterOperation_absent_id (Example.database retries)
      { db := [] } Example.upgradeOp _ {} (Err.NotFound "Cannot find Operation")
      (Err.NotFound "Cannot find Operation") rfl rfl rfl rfl
    refine ⟨_, rfl, h1, ?_, ?_⟩
    · rw [h2]
      exact List.nil_append _
    · rw [h2]
      exact (congrArg List.length (List.nil_append _)).trans
        (length_flatten_replicate_pair _ _ _)
  · obtain ⟨h1, h2⟩ := UpdateOperation_absent_id (Example.database retries)
      { db := [] } Example.provisionOp _ {} (Err.NotFound "Cannot find Operation")
      (Err.NotFound "Cannot find Operation") [] [] rfl rfl rfl rfl rfl
    refine ⟨_, rfl, h1, ?_⟩
    rw [h2]
    rfl
  · obtain ⟨h1, h2⟩ := UpdateProvisioningOperation_absent_id (Example.database retries)
      { db := [] } { Operation := Example.provisionOp } _ {}
      (Err.NotFound "Cannot find Operation") (Err.NotFound "Cannot find Operation") [] []
      rfl rfl rfl rfl rfl
    refine ⟨_, rfl, h1, ?_⟩
    rw [h2]
    rfl
  · obtain ⟨h1, h2⟩ := UpdateDeprovisioningOperation_absent_id (Example.database retries)
      { db := [] } { Operation := Example.deprovisionOp } _ {}
      (Err.NotFound "Cannot find Operation") (Err.NotFound "Cannot find Operation") [] []
      rfl rfl rfl rfl rfl
    refine ⟨_, rfl, h1, ?_⟩
    rw [h2]
    rfl

/-! ## Inserts of a stored operation -/

theorem flatten_replicate_singleton {α : Type} (tries : Nat) (x : α) :
    (List.replicate tries [x]).flatten = List.replicate tries x := by
  induction tries with
  | zero => rfl
  | succ n ih => simp only [List.replicate_succ, List.flatten_cons, ih, List.singleton_append]

/-- When the backend rejects the insert of a row and keeps its state, the poll loop of
`insert` repeats the insert at every try that fits before the timeout and leaves the
error of the backend. -/
theorem insert_until_timeout {β : Type} (s : postsql.operations β) (b : postsql.Backend β)
    (dto : postsql.OperationDTO) (e : Err)
    (hdup : s.writeSession.InsertOperation b.db dto = (some e, b.db)) :
    s.insert b dto =
      (some e, { db := b.db,
                 calls := b.calls ++
                   List.replicate (s.retries + 1) (postsql.BackendCall.InsertOperation dto) }) := by
  obtain ⟨db, calls⟩ := b
  simp only at hdup
  have hpoll := poll_until_timeout (s.insertCondition dto) db
    [postsql.BackendCall.InsertOperation dto] e
    (by
      intro lastErr calls
      simp only [postsql.operations.insertCondition,
        postsql.operations.sessionInsertOperation, hdup])
    s.retries none calls
  simp only [postsql.operations.insert, hpoll, flatten_replicate_singleton]

/-- C24 as stated fails: on a table that holds the row "op-1", with three further tries
before the timeout, the insert of a provisioning operation "op-1" returns AlreadyExists
after four attempts on the backend. -/
theorem C24_duplicate_insert_counterexample :
    ((Example.database 3).InsertProvisioningOperation { db := [Example.provisionRowOld] }
        { Operation := Example.provisionOp }).1 =
      some (Err.AlreadyExists "duplicate key value violates unique constraint") ∧
    ((Example.database 3).InsertProvisioningOperation { db := [Example.provisionRowOld] }
        { Operation := Example.provisionOp }).2.calls.length = 4 ∧
    ((Example.database 3).InsertProvisioningOperation { db := [Example.provisionRowOld] }
        { Operation := Example.provisionOp }).2.calls.length ≠ 1 := by
  refine ⟨by decide, by decide, by decide⟩

/-- C24, amended: for every `Insert<Kind>Operation` of the Postgres operation store, when
the backend reports AlreadyExists for the insert of the row and keeps its state, the
insert is repeated at every try that fits before the timeout, the first try and
`retries` more, and the call then returns the AlreadyExists of the backend. -/
theorem C24_duplicate_insert_is_retried {β : Type} (s : postsql.operations β)
    (b : postsql.Backend β) (call : postsql.WriteCall) (dto : postsql.OperationDTO) (e : Err)
    (hins : call.isInsert = true) (hrow : s.rowOf b call = .ok dto)
    (hdup : s.writeSession.InsertOperation b.db dto = (some e, b.db))
    (he : e.IsAlreadyExists = true) :
    (∃ e', (s.write b call).1 = some e' ∧ e'.IsAlreadyExists = true) ∧
    (s.write b call).2 =
      { db := b.db,
        calls := b.calls ++
          List.replicate (s.retries + 1) (postsql.BackendCall.InsertOperation dto) } := by
  have h := insert_until_timeout s b dto e hdup
  cases call <;> try exact Bool.noConfusion hins
  all_goals
    simp only [postsql.operations.rowOf] at hrow
    simp only [postsql.operations.write, postsql.operations.InsertOperation,
      postsql.operations.InsertProvisioningOperation,
      postsql.operations.InsertDeprovisioningOperation,
      postsql.operations.InsertUpgradeClusterOperation,
      postsql.operations.InsertUpdatingOperation, hrow, h]
    exact ⟨⟨e, rfl, he⟩, trivial⟩

/-- Witness of the amended C24: the insert of the provisioning operation "op-1" on a table
that holds the row "op-1", with three further tries before the timeout. -/
theorem C24_duplicate_insert_is_retried_witness :
    (∃ e', ((Example.database 3).write { db := [Example.provisionRowOld] }
        (postsql.WriteCall.InsertProvisioningOperation
          { Operation := Example.provisionOp })).1 = some e' ∧
      e'.IsAlreadyExists = true) ∧
    ((Example.database 3).write { db := [Example.provisionRowOld] }
        (postsql.WriteCall.InsertProvisioningOperation
          { Operation := Example.provisionOp })).2 =
      { db := [Example.provisionRowOld],
        calls := [] ++ List.replicate (3 + 1) (postsql.BackendCall.InsertOperation
          { ID := "op-1", Version := 3, CreatedAt := 10, InstanceID := "inst-1",
            State := "succeeded", Type_ := OperationTypeProvision, Data := "{}",
            ProvisioningParameters := { String := "{}", Valid := true } }) } :=
  C24_duplicate_insert_is_retried (Example.database 3) { db := [Example.provisionRowOld] }
    (postsql.WriteCall.InsertProvisioningOperation { Operation := Example.provisionOp })
    { ID := "op-1", Version := 3, CreatedAt := 10, InstanceID := "inst-1",
      State := "succeeded", Type_ := OperationTypeProvision, Data := "{}",
      ProvisioningParameters := { String := "{}", Valid := true } }
    (Err.AlreadyExists "duplicate key value violates unique constraint")
    rfl (by decide) (by decide) rfl

/-! ## Listing the deprovisioning operations -/

/-- When the backend fails a listing and keeps its state, the poll loop of
`listOperationsByType` repeats the listing at every try that fits before the timeout,
and the function returns the error of the backend. -/
theorem listOperationsByType_until_timeout {β : Type} (s : postsql.operations β)
    (b : postsql.Backend β) (operationType : OperationType)
    (rows : List postsql.OperationDTO) (e : Err)
    (hfail : s.ListOperationsByType b.db operationType = ((rows, some e), b.db)) :
    s.listOperationsByType b operationType =
      (([], some e),
        { db := b.db,
          calls := b.calls ++ List.replicate (s.retries + 1)
            (postsql.BackendCall.ListOperationsByType operationType) }) := by
  obtain ⟨db, calls⟩ := b
  simp only at hfail
  have hpoll : ∀ (retries : Nat) (ops : List postsql.OperationDTO) (lastErr : Option Err)
      (calls : List postsql.BackendCall),
      postsql.PollUntilContextTimeout (s.listCondition operationType) retries
          { operations := ops, lastErr := lastErr, backend := { db := db, calls := calls } } =
        (some (Err.Plain "context deadline exceeded"),
          { operations := rows, lastErr := some e,
            backend := { db := db,
                         calls := calls ++ List.replicate (retries + 1)
                           (postsql.BackendCall.ListOperationsByType operationType) } }) := by
    intro retries
    induction retries with
    | zero =>
      intro ops lastErr calls
      simp [postsql.PollUntilContextTimeout, postsql.operations.listCondition,
        postsql.operations.sessionListOperationsByType, hfail]
    | succ n ih =>
      intro ops lastErr calls
      unfold postsql.PollUntilContextTimeout
      simp only [postsql.operations.listCondition,
        postsql.operations.sessionListOperationsByType, hfail]
      rw [ih]
      simp [List.replicate_succ]
  simp only [postsql.operations.listOperationsByType, hpoll]

/-- For every store and every backend, the error that `ListDeprovisioningOperations`
returns is nil or the error of a conversion: an error of the listing never reaches the
caller. -/
theorem ListDeprovisioningOperations_error {β : Type} (s : postsql.operations β)
    (b : postsql.Backend β) :
    (s.ListDeprovisioningOperations b).1.2 = none ∨
      ∃ e, (s.ListDeprovisioningOperations b).1.2 =
        some (Err.Wrapped "while converting DTO to Operation" e) := by
  unfold postsql.operations.ListDeprovisioningOperations
  rcases s.listOperationsByType b OperationTypeDeprovision with ⟨⟨rows, err⟩, b1⟩
  cases err with
  | some e => exact Or.inl rfl
  | none =>
    simp only
    cases postsql.toDeprovisioningOperationList s.decoding rows [] with
    | error e => exact Or.inr ⟨e, rfl⟩
    | ok ret => exact Or.inl rfl

/-- C25 on the code: when every listing fails, with any number of tries before the
timeout, `listOperationsByType` returns the error of the backend, and
`ListDeprovisioningOperations` returns the nil slice with the nil error. -/
theorem C25_listing_failure_returns_nil_nil (retries : Nat) :
    ((Example.offlineDatabase retries).listOperationsByType { db := [] }
        OperationTypeDeprovision).1 = ([], some (Err.Internal "connection refused")) ∧
    ((Example.offlineDatabase retries).ListDeprovisioningOperations { db := [] }).1 =
      (none, none) ∧
    ((Example.offlineDatabase retries).ListDeprovisioningOperations { db := [] }).2.calls =
      List.replicate (retries + 1)
        (postsql.BackendCall.ListOperationsByType OperationTypeDeprovision) := by
  have h := listOperationsByType_until_timeout (Example.offlineDatabase retries)
    { db := [] } OperationTypeDeprovision [] (Err.Internal "connection refused") rfl
  refine ⟨?_, ?_, ?_⟩
  · rw [h]
  · simp only [postsql.operations.ListDeprovisioningOperations, h]
  · simp only [postsql.operations.ListDeprovisioningOperations, h]
    exact List.nil_append _

/-! ## The Postgres grouping by type, row by row -/

theorem toProvisioningOperation_other_type (c : postsql.Collaborators)
    (r : postsql.OperationDTO) (h : r.Type_ ≠ OperationTypeProvision) :
    (postsql.toProvisioningOperation c r).toOption = none := by
  simp only [postsql.toProvisioningOperation, if_pos h, Except.toOption]

theorem toDeprovisioningOperation_other_type (c : postsql.Collaborators)
    (r : postsql.OperationDTO) (h : r.Type_ ≠ OperationTypeDeprovision) :
    (postsql.toDeprovisioningOperation c r).toOption = none := by
  simp only [postsql.toDeprovisioningOperation, if_pos h, Except.toOption]

theorem toUpgradeClusterOperation_other_type (c : postsql.Collaborators)
    (r : postsql.OperationDTO) (h : r.Type_ ≠ OperationTypeUpgradeCluster) :
    (postsql.toUpgradeClusterOperation c r).toOption = none := by
  simp only [postsql.toUpgradeClusterOperation, if_pos h, Except.toOption]

theorem toUpdateOperation_other_type (c : postsql.Collaborators)
    (r : postsql.OperationDTO) (h : r.Type_ ≠ OperationTypeUpdate) :
    (postsql.toUpdateOperation c r).toOption = none := by
  simp only [postsql.toUpdateOperation, if_pos h, Except.toOption]

/-- The grouping loop appends to each list the conversions of the rows of its type, in
the order of the rows, and nothing else. -/
theorem groupByType_lists (c : postsql.Collaborators) (rows : List postsql.OperationDTO)
    (g0 g : GroupedOperations) (h : postsql.groupByType c rows g0 = .ok g) :
    g.ProvisionOperations = g0.ProvisionOperations ++
      rows.filterMap (fun r => (postsql.toProvisioningOperation c r).toOption) ∧
    g.DeprovisionOperations = g0.DeprovisionOperations ++
      rows.filterMap (fun r => (postsql.toDeprovisioningOperation c r).toOption) ∧
    g.UpgradeClusterOperations = g0.UpgradeClusterOperations ++
      rows.filterMap (fun r => (postsql.toUpgradeClusterOperation c r).toOption) ∧
    g.UpdateOperations = g0.UpdateOperations ++
      rows.filterMap (fun r => (postsql.toUpdateOperation c r).toOption) := by
  have d12 : OperationTypeProvision ≠ OperationTypeDeprovision := by decide
  have d13 : OperationTypeProvision ≠ OperationTypeUpgradeCluster := by decide
  have d14 : OperationTypeProvision ≠ OperationTypeUpdate := by decide
  have d23 : OperationTypeDeprovision ≠ OperationTypeUpgradeCluster := by decide
  have d24 : OperationTypeDeprovision ≠ OperationTypeUpdate := by decide
  have d34 : OperationTypeUpgradeCluster ≠ OperationTypeUpdate := by decide
  induction rows generalizing g0 with
  | nil =>
    simp only [postsql.groupByType, Except.ok.injEq] at h
    subst h
    simp
  | cons op rest ih =>
    unfold postsql.groupByType at h
    by_cases h1 : op.Type_ = OperationTypeProvision
    · rw [if_pos h1] at h
      cases hc : postsql.toProvisioningOperation c op with
      | error e => rw [hc] at h; cases h
      | ok ret =>
        rw [hc] at h
        have hs : (postsql.toProvisioningOperation c op).toOption = some ret := by
          rw [hc]
          rfl
        have := ih _ h
        simp only [List.filterMap_cons, hs,
          toDeprovisioningOperation_other_type c op (h1 ▸ d12),
          toUpgradeClusterOperation_other_type c op (h1 ▸ d13),
          toUpdateOperation_other_type c op (h1 ▸ d14)]
        simpa using this
    · rw [if_neg h1] at h
      by_cases h2 : op.Type_ = OperationTypeDeprovision
      · rw [if_pos h2] at h
        cases hc : postsql.toDeprovisioningOperation c op with
        | error e => rw [hc] at h; cases h
        | ok ret =>
          rw [hc] at h
          have hs : (postsql.toDeprovisioningOperation c op).toOption = some ret := by
            rw [hc]
            rfl
          have := ih _ h
          simp only [List.filterMap_cons, hs,
            toProvisioningOperation_other_type c op h1,
            toUpgradeClusterOperation_other_type c op (h2 ▸ d23),
            toUpdateOperation_other_type c op (h2 ▸ d24)]
          simpa using this
      · rw [if_neg h2] at h
        by_cases h3 : op.Type_ = OperationTypeUpgradeCluster
        · rw [if_pos h3] at h
          cases hc : postsql.toUpgradeClusterOperation c op with
          | error e => rw [hc] at h; cases h
          | ok ret =>
            rw [hc] at h
            have hs : (postsql.toUpgradeClusterOperation c op).toOption = some ret := by
              rw [hc]
              rfl
            have := ih _ h
            simp only [List.filterMap_cons, hs,
              toProvisioningOperation_other_type c op h1,
              toDeprovisioningOperation_other_type c op h2,
              toUpdateOperation_other_type c op (h3 ▸ d34)]
            simpa using this
        · rw [if_neg h3] at h
          by_cases h4 : op.Type_ = OperationTypeUpdate
          · rw [if_pos h4] at h
            cases hc : postsql.toUpdateOperation c op with
            | error e => rw [hc] at h; cases h
            | ok ret =>
              rw [hc] at h
              have hs : (postsql.toUpdateOperation c op).toOption = some ret := by
                rw [hc]
                rfl
              have := ih _ h
              simp only [List.filterMap_cons, hs,
                toProvisioningOperation_other_type c op h1,
                toDeprovisioningOperation_other_type c op h2,
                toUpgradeClusterOperation_other_type c op h3]
              simpa using this
          · rw [if_neg h4] at h
            by_cases h5 : op.Type_ = OperationTypeUpgradeKyma
            · rw [if_pos h5] at h
              have := ih _ h
              simp only [List.filterMap_cons,
                toProvisioningOperation_other_type c op h1,
                toDeprovisioningOperation_other_type c op h2,
                toUpgradeClusterOperation_other_type c op h3,
                toUpdateOperation_other_type c op h4]
              exact this
            · rw [if_neg h5] at h
              cases h

/-- The grouping loop fails when a row has another type than the four current types and
the legacy upgrade-Kyma type. -/
theorem groupByType_error_of_other (c : postsql.Collaborators)
    (rows : List postsql.OperationDTO) (g0 : GroupedOperations)
    (h : ∃ r ∈ rows, r.Type_ ≠ OperationTypeProvision ∧ r.Type_ ≠ OperationTypeDeprovision ∧
      r.Type_ ≠ OperationTypeUpgradeCluster ∧ r.Type_ ≠ OperationTypeUpdate ∧
      r.Type_ ≠ OperationTypeUpgradeKyma) :
    ∃ e, postsql.groupByType c rows g0 = .error e := by
  induction rows generalizing g0 with
  | nil =>
    obtain ⟨r, hr, _⟩ := h
    cases hr
  | cons op rest ih =>
    obtain ⟨r, hr, h1, h2, h3, h4, h5⟩ := h
    unfold postsql.groupByType
    rcases List.mem_cons.1 hr with hop | hrest
    · subst hop
      rw [if_neg h1, if_neg h2, if_neg h3, if_neg h4, if_neg h5]
      exact ⟨_, rfl⟩
    · have key : ∀ g, ∃ e, postsql.groupByType c rest g = .error e :=
        fun g => ih g ⟨r, hrest, h1, h2, h3, h4, h5⟩
      split_ifs <;> (try split) <;> first | exact ⟨_, rfl⟩ | exact key _

/-- The grouping loop returns a grouping when every row has one of the four current types
and converts, or has the legacy upgrade-Kyma type. -/
theorem groupByType_total (c : postsql.Collaborators) (rows : List postsql.OperationDTO)
    (g0 : GroupedOperations)
    (h : ∀ r ∈ rows,
      (r.Type_ = OperationTypeProvision ∧ ∃ p, postsql.toProvisioningOperation c r = .ok p) ∨
      (r.Type_ = OperationTypeDeprovision ∧
        ∃ p, postsql.toDeprovisioningOperation c r = .ok p) ∨
      (r.Type_ = OperationTypeUpgradeCluster ∧
        ∃ p, postsql.toUpgradeClusterOperation c r = .ok p) ∨
      (r.Type_ = OperationTypeUpdate ∧ ∃ p, postsql.toUpdateOperation c r = .ok p) ∨
      r.Type_ = OperationTypeUpgradeKyma) :
    ∃ g, postsql.groupByType c rows g0 = .ok g := by
  have d21 : ¬ OperationTypeDeprovision = OperationTypeProvision := by decide
  have d31 : ¬ OperationTypeUpgradeCluster = OperationTypeProvision := by decide
  have d32 : ¬ OperationTypeUpgradeCluster = OperationTypeDeprovision := by decide
  have d41 : ¬ OperationTypeUpdate = OperationTypeProvision := by decide
  have d42 : ¬ OperationTypeUpdate = OperationTypeDeprovision := by decide
  have d43 : ¬ OperationTypeUpdate = OperationTypeUpgradeCluster := by decide
  have d51 : ¬ OperationTypeUpgradeKyma = OperationTypeProvision := by decide
  have d52 : ¬ OperationTypeUpgradeKyma = OperationTypeDeprovision := by decide
  have d53 : ¬ OperationTypeUpgradeKyma = OperationTypeUpgradeCluster := by decide
  have d54 : ¬ OperationTypeUpgradeKyma = OperationTypeUpdate := by decide
  induction rows generalizing g0 with
  | nil => exact ⟨g0, rfl⟩
  | cons op rest ih =>
    have hrest : ∀ g, ∃ g', postsql.groupByType c rest g = .ok g' :=
      fun g => ih g (fun r hr => h r (List.mem_cons_of_mem op hr))
    unfold postsql.groupByType
    rcases h op (List.mem_cons_self op rest) with ⟨ht, p, hp⟩ | ⟨ht, p, hp⟩ | ⟨ht, p, hp⟩ |
      ⟨ht, p, hp⟩ | ht
    · rw [if_pos ht, hp]
      exact hrest _
    · rw [if_neg (ht ▸ d21), if_pos ht, hp]
      exact hrest _
    · rw [if_neg (ht ▸ d31), if_neg (ht ▸ d32), if_pos ht, hp]
      exact hrest _
    · rw [if_neg (ht ▸ d41), if_neg (ht ▸ d42), if_neg (ht ▸ d43), if_pos ht, hp]
      exact hrest _
    · rw [if_neg (ht ▸ d51), if_neg (ht ▸ d52), if_neg (ht ▸ d53), if_neg (ht ▸ d54),
        if_pos ht]
      exact hrest _

/-- C26: for every list of rows that the backend returns for an instance, the four lists
of `ListOperationsByInstanceIDGroupByType` are the conversions of the rows of their type,
in the order of the backend, so that a row of the legacy upgrade-Kyma type is in no list;
the call returns a grouping when every row has the legacy type or has one of the four
current types and converts; and it returns an error when a row has any other type. -/
theorem C26_grouping_row_by_row {β : Type} (c : postsql.Collaborators)
    (session : postsql.ReadSession β) (retries : Nat) (db db1 : β) (instanceID : String)
    (rows : List postsql.OperationDTO)
    (hlist : postsql.listOperationsByInstanceId session retries db instanceID =
      ((rows, none), db1)) :
    (∀ g, (postsql.ListOperationsByInstanceIDGroupByType c session retries db
        instanceID).1 = .ok g →
      g.ProvisionOperations =
        rows.filterMap (fun r => (postsql.toProvisioningOperation c r).toOption) ∧
      g.DeprovisionOperations =
        rows.filterMap (fun r => (postsql.toDeprovisioningOperation c r).toOption) ∧
      g.UpgradeClusterOperations =
        rows.filterMap (fun r => (postsql.toUpgradeClusterOperation c r).toOption) ∧
      g.UpdateOperations =
        rows.filterMap (fun r => (postsql.toUpdateOperation c r).toOption)) ∧
    (∀ r, r.Type_ = OperationTypeUpgradeKyma →
      (postsql.toProvisioningOperation c r).toOption = none ∧
      (postsql.toDeprovisioningOperation c r).toOption = none ∧
      (postsql.toUpgradeClusterOperation c r).toOption = none ∧
      (postsql.toUpdateOperation c r).toOption = none) ∧
    ((∀ r ∈ rows,
        (r.Type_ = OperationTypeProvision ∧
          ∃ p, postsql.toProvisioningOperation c r = .ok p) ∨
        (r.Type_ = OperationTypeDeprovision ∧
          ∃ p, postsql.toDeprovisioningOperation c r = .ok p) ∨
        (r.Type_ = OperationTypeUpgradeCluster ∧
          ∃ p, postsql.toUpgradeClusterOperation c r = .ok p) ∨
        (r.Type_ = OperationTypeUpdate ∧ ∃ p, postsql.toUpdateOperation c r = .ok p) ∨
        r.Type_ = OperationTypeUpgradeKyma) →
      ∃ g, (postsql.ListOperationsByInstanceIDGroupByType c session retries db
        instanceID).1 = .ok g) ∧
    ((∃ r ∈ rows, r.Type_ ≠ OperationTypeProvision ∧ r.Type_ ≠ OperationTypeDeprovision ∧
        r.Type_ ≠ OperationTypeUpgradeCluster ∧ r.Type_ ≠ OperationTypeUpdate ∧
        r.Type_ ≠ OperationTypeUpgradeKyma) →
      ∃ e, (postsql.ListOperationsByInstanceIDGroupByType c session retries db
        instanceID).1 = .error e) := by
  have hrun : (postsql.ListOperationsByInstanceIDGroupByType c session retries db
      instanceID).1 = postsql.groupByType c rows {} := by
    simp only [postsql.ListOperationsByInstanceIDGroupByType, hlist]
  rw [hrun]
  refine ⟨?_, ?_, ?_, ?_⟩
  · intro g hg
    have h := groupByType_lists c rows {} g hg
    simpa using h
  · intro r hr
    have d1 : OperationTypeUpgradeKyma ≠ OperationTypeProvision := by decide
    have d2 : OperationTypeUpgradeKyma ≠ OperationTypeDeprovision := by decide
    have d3 : OperationTypeUpgradeKyma ≠ OperationTypeUpgradeCluster := by decide
    have d4 : OperationTypeUpgradeKyma ≠ OperationTypeUpdate := by decide
    exact ⟨toProvisioningOperation_other_type c r (hr ▸ d1),
      toDeprovisioningOperation_other_type c r (hr ▸ d2),
      toUpgradeClusterOperation_other_type c r (hr ▸ d3),
      toUpdateOperation_other_type c r (hr ▸ d4)⟩
  · exact groupByType_total c rows {}
  · exact groupByType_error_of_other c rows {}

/-- Witness of C26: a listing of "inst-1" with a legacy row among four rows of current
types, and the same listing followed by a row of an unknown type. -/
theorem C26_grouping_row_by_row_witness :
    ((postsql.ListOperationsByInstanceIDGroupByType Example.collaborators Example.session 3
        Example.rowsWithLegacy "inst-1").1 =
      .ok { ProvisionOperations :=
              [⟨{ ID := "op-2", InstanceID := "inst-1", Type_ := OperationTypeProvision,
                  CreatedAt := 20 }⟩,
               ⟨{ ID := "op-1", InstanceID := "inst-1", Type_ := OperationTypeProvision,
                  CreatedAt := 10 }⟩]
            DeprovisionOperations :=
              [⟨{ ID := "op-3", InstanceID := "inst-1", Type_ := OperationTypeDeprovision,
                  CreatedAt := 30 }⟩]
            UpgradeClusterOperations :=
              [⟨{ ID := "op-4", InstanceID := "inst-1", Type_ := OperationTypeUpgradeCluster,
                  CreatedAt := 40 }⟩] }) ∧
    (∃ g, (postsql.ListOperationsByInstanceIDGroupByType Example.collaborators
        Example.session 3 Example.rowsWithLegacy "inst-1").1 = .ok g) ∧
    (∃ e, (postsql.ListOperationsByInstanceIDGroupByType Example.collaborators
        Example.session 3 (Example.rowsWithLegacy ++ [Example.unknownRow]) "inst-1").1 =
      .error e) := by
  have h := C26_grouping_row_by_row Example.collaborators Example.session 3
    Example.rowsWithLegacy Example.rowsWithLegacy "inst-1" Example.rowsWithLegacy
    (by decide)
  have h' := C26_grouping_row_by_row Example.collaborators Example.session 3
    (Example.rowsWithLegacy ++ [Example.unknownRow])
    (Example.rowsWithLegacy ++ [Example.unknownRow]) "inst-1"
    (Example.rowsWithLegacy ++ [Example.unknownRow]) (by decide)
  refine ⟨by decide, h.2.2.1 ?_, h'.2.2.2 ⟨Example.unknownRow, by decide, by decide⟩⟩
  intro r hr
  simp only [Example.rowsWithLegacy, List.mem_cons, List.mem_singleton, List.mem_nil_iff,
    or_false] at hr
  rcases hr with rfl | rfl | rfl | rfl | rfl
  · exact Or.inl ⟨rfl, _, rfl⟩
  · exact Or.inr (Or.inr (Or.inr (Or.inr rfl)))
  · exact Or.inr (Or.inr (Or.inl ⟨rfl, _, rfl⟩))
  · exact Or.inl ⟨rfl, _, rfl⟩
  · exact Or.inr (Or.inl ⟨rfl, _, rfl⟩)

/-! ## Pages of the in-memory listing -/

/-- An index that `operations[i]` reads without a panic is within the slice. -/
theorem sliceIndex_ok (xs : List Operation) (i : Int) (x : Operation)
    (h : memory.sliceIndex xs i = .ok x) : 0 ≤ i ∧ i < xs.length := by
  unfold memory.sliceIndex at h
  by_cases hi : 0 ≤ i ∧ i < xs.length
  · exact hi
  · rw [if_neg hi] at h
    cases h

/-- A sum of Go `int` values that fits in an `int` does not wrap. -/
theorem wrapInt_of_range (n : Int) (hmin : MinInt ≤ n) (hmax : n ≤ MaxInt) :
    wrapInt n = n := by
  unfold MinInt at hmin
  unfold MaxInt at hmax
  unfold wrapInt
  omega

/-- The loop of `ListOperations` never uses up the passes it is allowed: with one pass
more than there are operations still to read, a further pass changes nothing.  The
length of a Go slice is an `int`. -/
theorem pageLoop_fuel (ops : List Operation) (pageSize offset : Int) (fuel : Nat)
    (hmax : (ops.length : Int) ≤ MaxInt) :
    ∀ (i : Int) (result : List Operation), 1 ≤ fuel →
      (0 ≤ i → (ops.length : Int) - i < fuel) →
      memory.operations.pageLoop ops pageSize offset fuel i result =
        memory.operations.pageLoop ops pageSize offset (fuel + 1) i result := by
  induction fuel with
  | zero =>
    intro i result h1
    omega
  | succ n ih =>
    intro i result _ hlen
    rw [memory.operations.pageLoop, memory.operations.pageLoop]
    split
    · cases hs : memory.sliceIndex ops i with
      | error e => rfl
      | ok op =>
        obtain ⟨h0, hlt⟩ := sliceIndex_ok ops i op hs
        have hn := hlen h0
        have hw : wrapInt (i + 1) = i + 1 :=
          wrapInt_of_range (i + 1) (by unfold MinInt; omega) (by omega)
        simp only [hw]
        exact ih (i + 1) (result ++ [op]) (by omega) (fun _ => by push_cast at hn ⊢; omega)
    · rfl

/-- When the offset of the page is not below the number of matching operations, there is
an operation, and the sums of the loop condition fit in an `int`, the first pass of the
loop of `ListOperations` reads past the end. -/
theorem pageLoop_past_end (ops : List Operation) (pageSize offset : Int) (fuel : Nat)
    (hlen : 0 < ops.length) (hoff : (ops.length : Int) ≤ offset)
    (hsum : (ops.length : Int) + offset ≤ MaxInt) (hpage : offset + pageSize ≤ MaxInt) :
    memory.operations.pageLoop ops pageSize offset (fuel + 1) offset [] =
      .error (Err.Panic "runtime error: index out of range") := by
  have hpos : (0 : Int) < ops.length := by exact_mod_cast hlen
  have hw1 : wrapInt ((ops.length : Int) + offset) = (ops.length : Int) + offset :=
    wrapInt_of_range _ (by unfold MinInt; omega) hsum
  have hcond : (pageSize < 1 ∨ offset < wrapInt (offset + pageSize)) ∧
      offset < wrapInt ((ops.length : Int) + offset) := by
    constructor
    · by_cases h : pageSize < 1
      · exact Or.inl h
      · refine Or.inr ?_
        rw [wrapInt_of_range _ (by unfold MinInt; omega) hpage]
        omega
    · rw [hw1]
      omega
  have hidx : ¬ (0 ≤ offset ∧ offset < (ops.length : Int)) := by
    intro h
    omega
  rw [memory.operations.pageLoop, if_pos hcond]
  simp only [memory.sliceIndex, if_neg hidx]

/-- C27 on the code: on a store with four operations to list, the first page of three
and the second page of two are returned with their counts, and the second page of three,
which holds one operation, and the third page of two, which is empty, end in an
index-out-of-range panic. -/
theorem C27_last_page_reads_past_end :
    memory.operations.ListOperations Example.helpers Example.store
        { Page := 1, PageSize := 3 } =
      .ok ([Example.provisionOp, Example.deprovisionOp, Example.otherInstanceOp], 3, 4) ∧
    memory.operations.ListOperations Example.helpers Example.store
        { Page := 2, PageSize := 2 } =
      .ok ([Example.otherInstanceOp, Example.upgradeOp.Operation], 2, 4) ∧
    Example.helpers.ConvertPageAndPageSizeToOffset 3 2 = 3 ∧
    memory.operations.ListOperations Example.helpers Example.store
        { Page := 2, PageSize := 3 } =
      .error (Err.Panic "runtime error: index out of range") ∧
    memory.operations.ListOperations Example.helpers Example.store
        { Page := 3, PageSize := 2 } =
      .error (Err.Panic "runtime error: index out of range") := by
  refine ⟨by decide, by decide, by decide, by decide, by decide⟩

/-- For every store and every filter, when there is a matching operation, the offset of
the requested page is not below the number of matching operations, and the sums of the
loop condition fit in an `int`, `ListOperations` ends in an index-out-of-range panic. -/
theorem ListOperations_past_end (h : memory.Helpers) (s : memory.operations)
    (filter : memory.OperationFilter) (ops : List Operation)
    (hfilter : s.filterAll h filter = .ok ops) (hlen : 0 < ops.length)
    (hoff : (ops.length : Int) ≤
      h.ConvertPageAndPageSizeToOffset filter.PageSize filter.Page)
    (hsum : (ops.length : Int) +
      h.ConvertPageAndPageSizeToOffset filter.PageSize filter.Page ≤ MaxInt)
    (hpage : h.ConvertPageAndPageSizeToOffset filter.PageSize filter.Page +
      filter.PageSize ≤ MaxInt) :
    memory.operations.ListOperations h s filter =
      .error (Err.Panic "runtime error: index out of range") := by
  have hsorted : (memory.operations.sortByCreatedAt ops).length = ops.length :=
    (sortSlice_perm _ ops).length_eq
  simp only [memory.operations.ListOperations, hfilter]
  rw [pageLoop_past_end _ _ _ _ (by rw [hsorted]; exact hlen) (by rw [hsorted]; exact hoff)
    (by rw [hsorted]; exact hsum) hpage]

/-! ## Instances joined with their operations -/

/-- C28 on the code: a joined row of type deprovision whose operation data cannot be
decoded makes `FindAllJoinedWithOperations` panic: `toDeprovisioningOp` returns the nil
pointer with its error, the error is logged, and `Temporary` is read through the
pointer.  For a deprovision row that decodes, `IsSuspensionOp` is the flag `Temporary`
of the decoded operation, and for a provision row it is false. -/
theorem C28_undecodable_deprovision_row_panics :
    (Example.instanceStore Example.decoder).toDeprovisioningOp Example.emptyDataRow =
      .error (Err.Plain "unable to unmarshall deprovisioning data") ∧
    ((Example.instanceStore Example.decoder).FindAllJoinedWithOperations
        [Example.provisioningRow, Example.emptyDataRow]).1 =
      .error (Err.Panic "runtime error: invalid memory address or nil pointer dereference") ∧
    ((Example.instanceStore Example.decoder).FindAllJoinedWithOperations
        [Example.provisioningRow, Example.suspensionRow]).1 =
      .ok [{ Instance := { InstanceID := "inst-1", RuntimeID := "abc", Version := 5 }
             Type_ := { String := "provision", Valid := true }
             State := { String := "succeeded", Valid := true }
             OpCreatedAt := 10
             IsSuspensionOp := false },
           { Instance := { InstanceID := "inst-1", RuntimeID := "abc", Version := 5 }
             Type_ := { String := "deprovision", Valid := true }
             State := { String := "succeeded", Valid := true }
             OpCreatedAt := 20
             IsSuspensionOp := true }] := by
  refine ⟨by decide, by decide, by decide⟩

/-- For every store and every joined row of type deprovision whose operation data cannot
be decoded, the body of the loop of `FindAllJoinedWithOperations` ends in a panic. -/
theorem isSuspensionOp_undecodable {β : Type} (s : postsql.Instance β)
    (dto : postsql.InstanceWithOperationDTO) (e : Err)
    (htype : dto.Type_.String = OperationTypeDeprovision)
    (hdata : s.decoding.unmarshalOperation dto.Data.String = .error e) :
    s.isSuspensionOp dto =
      .error (Err.Panic "runtime error: invalid memory address or nil pointer dereference") := by
  have hne : ¬ dto.Type_.String = OperationTypeProvision := by
    rw [htype]
    decide
  simp only [postsql.Instance.isSuspensionOp, postsql.Instance.toDeprovisioningOp, if_neg hne,
    if_pos htype, hdata]

/-! ## The error of the instance-removal step -/

/-- Counterexample to C29 as stated: the lookup at the start of `Run` fails with NotFound,
and the lookup inside the replay branch fails with NotFound; each time `Run` returns no
error and a zero backoff, so the failure is not reported through a non-zero backoff. -/
theorem C29_not_found_zero_backoff_counterexample :
    (Example.step.GetByID Example.worldWithoutInstance.state
        Example.deprovisionOp.InstanceID).1 =
      .error (Err.NotFound "Instance with id inst-1 not exist") ∧
    (Example.step.Run Example.worldWithoutInstance Example.deprovisionOp).1 =
      (Example.deprovisionOp, 0, none) ∧
    (Example.vanishingStep.GetByID 1 Example.replayOp.InstanceID).1 =
      .error (Err.NotFound "Instance with id inst-1 not exist") ∧
    (Example.vanishingStep.Run { state := 0 } Example.replayOp).1 =
      (Example.replayOp, 0, none) := by
  refine ⟨by decide, by decide, by decide, by decide⟩

/-- C29, amended: for every operation and every behaviour of the storages and of the
operation manager, the error that `Run` returns is nil.  A failure of a call on the
instance storage other than a lookup that reports NotFound is reported as a non-zero
backoff: one second when the lookup at the start fails with another error than
NotFound, when the lookup or the update of the temporary branch fails, and when the
lookup of the replay branch fails with another error than NotFound or its update fails;
ten seconds when the delete fails.  A lookup that reports NotFound, at the start or in
the replay branch, gives a zero backoff.  After the operation update, failed or not,
`Run` returns the operation and the backoff that the operation manager returned, and
drops its error. -/
theorem C29_run_returns_no_error {σ : Type} (s : deprovisioning.RemoveInstanceStep σ)
    (w : deprovisioning.World σ) (operation : Operation) :
    (s.Run w operation).1.2.2 = none ∧
    (∀ e st1, s.GetByID w.state operation.InstanceID = (.error e, st1) →
      e.IsNotFound = false → (s.Run w operation).1.2 = (Second, none)) ∧
    (∀ found e st1 st2, operation.Temporary = true →
      s.GetByID w.state operation.InstanceID = (.ok found, st1) →
      s.GetByID st1 operation.InstanceID = (.error e, st2) →
      (s.Run w operation).1.2 = (Second, none)) ∧
    (∀ found inst e st1 st2 st3, operation.Temporary = true →
      s.GetByID w.state operation.InstanceID = (.ok found, st1) →
      s.GetByID st1 operation.InstanceID = (.ok inst, st2) →
      s.Update st2 { inst with RuntimeID := "" } = (.error e, st3) →
      (s.Run w operation).1.2 = (Second, none)) ∧
    (∀ found e st1 st2, operation.Temporary = false →
      operation.ExcutedButNotCompleted ≠ none →
      s.GetByID w.state operation.InstanceID = (.ok found, st1) →
      s.GetByID st1 operation.InstanceID = (.error e, st2) → e.IsNotFound = false →
      (s.Run w operation).1.2 = (Second, none)) ∧
    (∀ found inst e st1 st2 st3, operation.Temporary = false →
      operation.ExcutedButNotCompleted ≠ none →
      s.GetByID w.state operation.InstanceID = (.ok found, st1) →
      s.GetByID st1 operation.InstanceID = (.ok inst, st2) →
      s.Update st2 { inst with DeletedAt := s.Now st2 } = (.error e, st3) →
      (s.Run w operation).1.2 = (Second, none)) ∧
    (∀ found e st1 st2, operation.Temporary = false →
      operation.ExcutedButNotCompleted = none →
      s.GetByID w.state operation.InstanceID = (.ok found, st1) →
      s.Delete st1 operation.InstanceID = (some e, st2) →
      (s.Run w operation).1.2 = (10 * Second, none)) ∧
    Second ≠ 0 ∧ 10 * Second ≠ 0 ∧
    (∀ e st1, s.GetByID w.state operation.InstanceID = (.error e, st1) →
      e.IsNotFound = true → (s.Run w operation).1.2 = (0, none)) ∧
    (∀ found e st1 st2, operation.Temporary = false →
      operation.ExcutedButNotCompleted ≠ none →
      s.GetByID w.state operation.InstanceID = (.ok found, st1) →
      s.GetByID st1 operation.InstanceID = (.error e, st2) → e.IsNotFound = true →
      (s.Run w operation).1.2 = (0, none)) ∧
    (∀ found inst saved st1 st2 st3 updated backoff err st4, operation.Temporary = true →
      s.GetByID w.state operation.InstanceID = (.ok found, st1) →
      s.GetByID st1 operation.InstanceID = (.ok inst, st2) →
      s.Update st2 { inst with RuntimeID := "" } = (.ok saved, st3) →
      s.UpdateOperation st3 operation (fun operation => { operation with RuntimeID := "" }) =
        ((updated, backoff, err), st4) →
      (s.Run w operation).1 = (updated, backoff, none)) ∧
    (∀ found st1 st2 updated backoff err st3, operation.Temporary = false →
      operation.ExcutedButNotCompleted = none →
      s.GetByID w.state operation.InstanceID = (.ok found, st1) →
      s.Delete st1 operation.InstanceID = (none, st2) →
      s.UpdateOperation st2 operation
          (fun operation => { operation with
            ProvisioningParameters := { operation.ProvisioningParameters with
              ErsContext := { operation.ProvisioningParameters.ErsContext with
                UserID := "" } } }) =
        ((updated, backoff, err), st3) →
      (s.Run w operation).1 = (updated, backoff, none)) := by
  refine ⟨?_, ?_, ?_, ?_, ?_, ?_, ?_, Second_ne_zero, ten_Second_ne_zero, ?_, ?_, ?_, ?_⟩
  · unfold deprovisioning.RemoveInstanceStep.Run
    rcases s.instanceGetByID w operation.InstanceID with ⟨r, w1⟩
    cases r with
    | error e =>
      simp only
      split <;> rfl
    | ok found =>
      simp only
      split
      · rcases s.removeRuntimeIDFromInstance w1 operation.InstanceID with ⟨backoff, w2⟩
        simp only
        split
        · rfl
        · rfl
      · split
        · rcases s.markInstanceNeedsRetrySomeSteps w1 operation.InstanceID with ⟨backoff, w2⟩
          simp only
          split <;> rfl
        · rcases s.removeInstancePermanently w1 operation.InstanceID with ⟨backoff, w2⟩
          simp only
          split
          · rfl
          · rfl
  · intro e st1 hget1 he
    simp [deprovisioning.RemoveInstanceStep.Run,
      deprovisioning.RemoveInstanceStep.instanceGetByID, hget1, he]
  · intro found e st1 st2 htemp hget1 hget2
    simp only [deprovisioning.RemoveInstanceStep.Run,
      deprovisioning.RemoveInstanceStep.instanceGetByID,
      deprovisioning.RemoveInstanceStep.removeRuntimeIDFromInstance, hget1, hget2,
      if_pos htemp, if_pos Second_ne_zero]
  · intro found inst e st1 st2 st3 htemp hget1 hget2 hupd
    simp only [deprovisioning.RemoveInstanceStep.Run,
      deprovisioning.RemoveInstanceStep.instanceGetByID,
      deprovisioning.RemoveInstanceStep.removeRuntimeIDFromInstance,
      deprovisioning.RemoveInstanceStep.instanceUpdate, hget1, hget2, hupd,
      if_pos htemp, if_pos Second_ne_zero]
  · intro found e st1 st2 htemp hsteps hget1 hget2 he
    have htemp' : ¬ operation.Temporary = true := by simp [htemp]
    simp [deprovisioning.RemoveInstanceStep.Run,
      deprovisioning.RemoveInstanceStep.instanceGetByID,
      deprovisioning.RemoveInstanceStep.markInstanceNeedsRetrySomeSteps, hget1, hget2, he,
      htemp, hsteps, Second_ne_zero]
  · intro found inst e st1 st2 st3 htemp hsteps hget1 hget2 hupd
    have htemp' : ¬ operation.Temporary = true := by simp [htemp]
    simp only [deprovisioning.RemoveInstanceStep.Run,
      deprovisioning.RemoveInstanceStep.instanceGetByID,
      deprovisioning.RemoveInstanceStep.markInstanceNeedsRetrySomeSteps,
      deprovisioning.RemoveInstanceStep.instanceUpdate, hget1, hget2, hupd,
      if_neg htemp', if_pos hsteps, if_pos Second_ne_zero]
  · intro found e st1 st2 htemp hsteps hget1 hdel
    have htemp' : ¬ operation.Temporary = true := by simp [htemp]
    have hsteps' : ¬ operation.ExcutedButNotCompleted ≠ none := by simp [hsteps]
    simp only [deprovisioning.RemoveInstanceStep.Run,
      deprovisioning.RemoveInstanceStep.instanceGetByID,
      deprovisioning.RemoveInstanceStep.removeInstancePermanently,
      deprovisioning.RemoveInstanceStep.instanceDelete, hget1, hdel, if_neg htemp',
      if_neg hsteps', if_pos ten_Second_ne_zero]
  · intro e st1 hget1 he
    simp [deprovisioning.RemoveInstanceStep.Run,
      deprovisioning.RemoveInstanceStep.instanceGetByID, hget1, he]
  · intro found e st1 st2 htemp hsteps hget1 hget2 he
    simp [deprovisioning.RemoveInstanceStep.Run,
      deprovisioning.RemoveInstanceStep.instanceGetByID,
      deprovisioning.RemoveInstanceStep.markInstanceNeedsRetrySomeSteps, hget1, hget2, he,
      htemp, hsteps]
  · intro found inst saved st1 st2 st3 updated backoff err st4 htemp hget1 hget2 hupd hop
    simp only [deprovisioning.RemoveInstanceStep.Run,
      deprovisioning.RemoveInstanceStep.instanceGetByID,
      deprovisioning.RemoveInstanceStep.removeRuntimeIDFromInstance,
      deprovisioning.RemoveInstanceStep.instanceUpdate,
      deprovisioning.RemoveInstanceStep.managerUpdateOperation, hget1, hget2, hupd, hop,
      if_pos htemp, ne_eq, not_true_eq_false, if_false]
  · intro found st1 st2 updated backoff err st3 htemp hsteps hget1 hdel hop
    have htemp' : ¬ operation.Temporary = true := by simp [htemp]
    have hsteps' : ¬ operation.ExcutedButNotCompleted ≠ none := by simp [hsteps]
    simp only [deprovisioning.RemoveInstanceStep.Run,
      deprovisioning.RemoveInstanceStep.instanceGetByID,
      deprovisioning.RemoveInstanceStep.removeInstancePermanently,
      deprovisioning.RemoveInstanceStep.instanceDelete,
      deprovisioning.RemoveInstanceStep.managerUpdateOperation, hget1, hdel, hop,
      if_neg htemp', if_neg hsteps', ne_eq, not_true_eq_false, if_false]

/-- Witness of the amended C29: a lookup that fails at the start, a delete that fails, a
run on storages that never fail, and a run whose operation update fails. -/
theorem C29_run_returns_no_error_witness :
    (Example.brokenStep.Run Example.world Example.suspensionOp).1.2 = (Second, none) ∧
    (Example.readOnlyStep.Run Example.world Example.permanentOp).1.2 =
      (10 * Second, none) ∧
    (Example.managedStep.Run Example.managedWorld Example.suspensionOp).1.2.2 = none ∧
    (Example.managedStep.Run Example.managedWorld Example.staleSuspensionOp).1 =
      (Example.staleSuspensionOp, 60 * Second, none) :=
  ⟨(C29_run_returns_no_error Example.brokenStep Example.world Example.suspensionOp).2.1
      (Err.Internal "connection refused") Example.instances (by decide) rfl,
   (C29_run_returns_no_error Example.readOnlyStep Example.world
      Example.permanentOp).2.2.2.2.2.2.1
      { InstanceID := "inst-1", RuntimeID := "abc", Version := 5 }
      (Err.Internal "read-only transaction") Example.instances Example.instances rfl rfl
      (by decide) (by decide),
   (C29_run_returns_no_error Example.managedStep Example.managedWorld
      Example.suspensionOp).1,
   (C29_run_returns_no_error Example.managedStep Example.managedWorld
      Example.staleSuspensionOp).2.2.2.2.2.2.2.2.2.2.2.1
      { InstanceID := "inst-1", RuntimeID := "abc", Version := 5 }
      { InstanceID := "inst-1", RuntimeID := "abc", Version := 5 }
      { InstanceID := "inst-1", RuntimeID := "", Version := 6 }
      (Example.instances, Example.removalStore) (Example.instances, Example.removalStore)
      ([{ InstanceID := "inst-1", RuntimeID := "", Version := 6 },
        { InstanceID := "inst-2", RuntimeID := "def" }], Example.removalStore)
      Example.staleSuspensionOp (60 * Second)
      (some (Err.NotFound "instance operation with id op-70 not found"))
      ([{ InstanceID := "inst-1", RuntimeID := "", Version := 6 },
        { InstanceID := "inst-2", RuntimeID := "def" }], Example.removalStore)
      rfl (by decide) (by decide) (by decide) (by decide)⟩

/-! ## The label assignment of the updater, applied twice -/

